import Mathlib

/-!
# libjoycon: session layer and controller protocol

A shallow embedding of `src/src/session2.cc`, `src/include/session2.h`,
`src/src/session.cc` (the earlier session) and, from `src/src/controller.cc`
and the headers under `src/include`, of the flash-memory operations, the
backup loop, the reply inspectors, the controller data merge, the home-light
packing, the player LEDs and the rumble reports.

Conventions of the embedding:

* a buffer (`const void *`) is a `List Nat` of bytes;
* `int` values are `Int`; the conversion into a 32-bit `int` is `toInt32`;
* a `std::promise<Result>` is a `Promise`: the value of its shared state and
  a label naming the future handed to the caller; a second `set_value`
  throws `std::future_error`, which is the `Fault` of the `Except` results;
* a `std::function<int(const void *)>` closure is an `Inspector`: its
  captured state together with its body;
* every operation returns, next to its result, the list of `Event`s it
  caused, in order (inspector invocations, promise resolutions, calls of the
  transport sender).
-/

namespace session

/-! ## Result codes (`session2.h`) -/

/-- Modelled from the spec: the constant `EAGAIN` of `<errno.h>`, which is not
part of the repository; the value is the one of Linux and Android, the
platforms the sources build for. -/
def EAGAIN : Int := 11

/-- Modelled from the spec: the constant `ETIMEDOUT` of `<errno.h>` (Linux value). -/
def ETIMEDOUT : Int := 110

/-- Modelled from the spec: the constant `ECANCELED` of `<errno.h>` (Linux value). -/
def ECANCELED : Int := 125

/-- Modelled from the spec: the constant `EINVAL` of `<errno.h>` (Linux value). -/
def EINVAL : Int := 22

/-- Enumerator `DONE = 0` of `enum Result`. -/
def DONE : Int := 0

/-- Enumerator `WAITING` of `enum Result`: the successor of `DONE`. -/
def WAITING : Int := DONE + 1

/-- Enumerator `AGAIN = EAGAIN`. -/
def AGAIN : Int := EAGAIN

/-- Enumerator `TIMEDOUT = ETIMEDOUT`. -/
def TIMEDOUT : Int := ETIMEDOUT

/-- Enumerator `ABORT = ECANCELED`. -/
def ABORT : Int := ECANCELED

/-- Enumerator `ERROR`: the successor of `ABORT`; it has no argument. -/
def ERROR : Int := ABORT + 1

/-- Conversion of an integer into a 32-bit `int` (two's complement). -/
def toInt32 (x : Int) : Int := (x + 2 ^ 31) % 2 ^ 32 - 2 ^ 31

/-! ## Events, promises, inspectors -/

/-- What an operation does that is visible outside it. -/
inductive Event where
  /-- The inspector of the task bound to `future` was invoked. -/
  | inspect (future : Nat)
  /-- The call `promise_.set_value(v)` on the promise of `future` succeeded. -/
  | set_value (future : Nat) (v : Int)
  /-- The call `remote_.sender(buffer, send_size)` with these bytes. -/
  | sender (bytes : List Nat)
  deriving DecidableEq, Repr

/-- The exception a `std::promise` throws when it is satisfied twice. -/
inductive Fault where
  | promise_already_satisfied
  /-- The call `sem_wait` on a semaphore whose count is zero: the caller blocks. -/
  | blocked
  deriving DecidableEq, Repr

/-- A `std::promise<Result>`: `future` names the future obtained from it,
`value` is the content of the shared state. -/
structure Promise where
  future : Nat
  value : Option Int
  deriving DecidableEq, Repr

/-- The call `promise.set_value(v)`. -/
def Promise.set_value (p : Promise) (v : Int) : Except Fault (Promise × List Event) :=
  match p.value with
  | none => .ok ({ p with value := some v }, [Event.set_value p.future v])
  | some _ => .error Fault.promise_already_satisfied

/-- An `Inspector = std::function<int(const void *)>`: the captured state
`env` and the body `call`, which maps the state and the inbound report to the
returned `int` and the new state. -/
structure Inspector (σ : Type) where
  env : σ
  call : σ → List Nat → Int × σ

/-! ## `class Task` -/

/-- The data members of `class Task`. -/
structure Task (σ : Type) where
  retry_ : Int
  promise_ : Promise
  inspector_ : Option (Inspector σ)

/-- The constructor `Task::Task() : retry_(0), inspector_(nullptr)`; `future`
labels the default-constructed promise. -/
def Task.new (σ : Type) (future : Nat) : Task σ :=
  { retry_ := 0, promise_ := { future := future, value := none }, inspector_ := none }

/-- The method `Task::Reset(retry, cb)`: a fresh promise (its future is
labelled `future`), `retry_ = retry` (an `unsigned int` stored in an `int`) and
`inspector_ = cb`. -/
def Task.Reset {σ : Type} (t : Task σ) (future : Nat) (retry : Nat) (cb : Option (Inspector σ)) :
    Task σ :=
  { t with promise_ := { future := future, value := none },
           retry_ := toInt32 (retry : Int),
           inspector_ := cb }

/-- The method `Task::Done()`. -/
def Task.Done {σ : Type} (t : Task σ) : Except Fault (Task σ × List Event) :=
  match t.promise_.set_value DONE with
  | .ok (p, ev) => .ok ({ t with promise_ := p }, ev)
  | .error e => .error e

/-- The method `Task::Abort()`. -/
def Task.Abort {σ : Type} (t : Task σ) : Except Fault (Task σ × List Event) :=
  match t.promise_.set_value ABORT with
  | .ok (p, ev) => .ok ({ t with promise_ := p }, ev)
  | .error e => .error e

/-- The method `Task::Error()`: it takes no argument and sets `ERROR`. -/
def Task.Error {σ : Type} (t : Task σ) : Except Fault (Task σ × List Event) :=
  match t.promise_.set_value ERROR with
  | .ok (p, ev) => .ok ({ t with promise_ := p }, ev)
  | .error e => .error e

/-- The method `Task::Test(buffer)`. The result is the returned `bool`, the
task afterwards and the events. -/
def Task.Test {σ : Type} (t : Task σ) (buffer : List Nat) :
    Except Fault (Bool × Task σ × List Event) :=
  let old := t.retry_
  let t1 : Task σ := { t with retry_ := toInt32 (old - 1) }
  if old < 1 then
    match t1.promise_.set_value TIMEDOUT with
    | .ok (p, ev) => .ok (true, { t1 with promise_ := p }, ev)
    | .error e => .error e
  else
    match t1.inspector_ with
    | none => .ok (true, t1, [])
    | some f =>
      let r := f.call f.env buffer
      let ret := r.1
      let t2 : Task σ := { t1 with inspector_ := some { f with env := r.2 } }
      let ev := [Event.inspect t2.promise_.future]
      if ret = DONE then
        match t2.promise_.set_value DONE with
        | .ok (p, ev1) => .ok (true, { t2 with promise_ := p }, ev ++ ev1)
        | .error e => .error e
      else if ret = AGAIN then
        .ok (false, { t2 with retry_ := toInt32 (t2.retry_ + 1) }, ev)
      else if ret = WAITING then
        .ok (false, t2, ev)
      else
        match t2.Error with
        | .ok (t3, ev1) => .ok (true, t3, ev ++ ev1)
        | .error e => .error e

/-- The successive calls of `Task::Test` that the poll loop makes on one
queued task, one per inbound report: the loop erases the task from the queue
as soon as a call returns `true`, so no later report is tested. The result
lists the returned `bool`s, the task after the last call and the events. -/
def Task.Tests {σ : Type} (t : Task σ) : List (List Nat) →
    Except Fault (List Bool × Task σ × List Event)
  | [] => .ok ([], t, [])
  | b :: bs =>
    match t.Test b with
    | .error e => .error e
    | .ok (true, t1, ev) => .ok ([true], t1, ev)
    | .ok (false, t1, ev) =>
      match Task.Tests t1 bs with
      | .error e => .error e
      | .ok (rs, t2, ev1) => .ok (false :: rs, t2, ev ++ ev1)

/-! ## `class Session` -/

/-- The type `enum PushType`. -/
inductive PushType where
  | FREE
  | TIMED
  deriving DecidableEq, Repr

/-- The transport of `struct DeviceFunc` (`device.h`) as far as sending is
concerned: `sender` is absent when the `std::function` is empty; applied to
the `send_size` bytes it is handed, it yields the value the transport returns
(a byte count or a negative error, within the range of `int`). -/
structure DeviceFunc where
  sender : Option (List Nat → Int)
  send_size : Nat
  recv_size : Nat

/-- The data members of `class Session` that its operations read or write.
`push_sem_` is the count of the semaphore. -/
structure Session (σ : Type) where
  is_alive_ : Bool
  err_count_ : Int
  remote_ : DeviceFunc
  send_buffer_ : List Nat
  task_queue_ : List (Task σ)
  push_type_ : PushType
  push_sem_ : Nat

/-- The constructor `Session::Session(remote)` for a non-null `remote`. -/
def Session.new (σ : Type) (remote : DeviceFunc) : Session σ :=
  { is_alive_ := true,
    err_count_ := 0,
    remote_ := remote,
    send_buffer_ := List.replicate remote.send_size 0,
    task_queue_ := [],
    push_type_ := PushType.FREE,
    push_sem_ := 1 }

/-- The macro `TIMER` applied to the file-static `uint8_t _timer`:
`_timer = _timer > 0xfe ? 0 : _timer += 1`; the result is the new `_timer`,
which is also the value of the macro. -/
def TIMER (_timer : Nat) : Nat :=
  if _timer > 0xfe then 0 else (_timer + 1) % 256

/-- The method `Session::Send(buffer)`, given the current `_timer`. The result
is the returned value, the caller's buffer afterwards (byte 1 is written
through the pointer), the new `_timer` and the events. -/
def Session.Send {σ : Type} (s : Session σ) (buffer : List Nat) (_timer : Nat) :
    Int × List Nat × Nat × List Event :=
  match s.remote_.sender with
  | some f =>
    let t := TIMER _timer
    let buffer1 := buffer.set 1 t
    let bytes := buffer1.take s.remote_.send_size
    (f bytes, buffer1, t, [Event.sender bytes])
  | none => (-1, buffer, _timer, [])

/-- The method `Session::Append(task)`. The result is the session afterwards,
the task afterwards and the events. -/
def Session.Append {σ : Type} (s : Session σ) (task : Task σ) :
    Except Fault (Session σ × Task σ × List Event) :=
  if !s.is_alive_ then
    match task.Abort with
    | .ok (t1, ev) => .ok (s, t1, ev)
    | .error e => .error e
  else
    .ok ({ s with task_queue_ := s.task_queue_ ++ [task] }, task, [])

/-- What `Session::Transmit` leaves behind: the session, the caller's buffer,
the file-static `_timer`, the task `sp` as it was last seen and the events. -/
structure Transmitted (σ : Type) where
  session : Session σ
  buffer : Option (List Nat)
  _timer : Nat
  task : Task σ
  events : List Event

/-- The method `Session::Transmit(retry, buffer, inspector)`. `sp` is the task
object handed out by `task_pool_.Get()` (new or recycled) and `future` labels
the future the call returns; a null `buffer` or an empty `inspector` is
`none`. -/
def Session.Transmit {σ : Type} (s : Session σ) (sp : Task σ) (future : Nat) (retry : Nat)
    (buffer : Option (List Nat)) (inspector : Option (Inspector σ)) (_timer : Nat) :
    Except Fault (Transmitted σ) :=
  let sp1 := sp.Reset future retry inspector
  -- the label `abort:`
  let abort (s1 : Session σ) (b1 : Option (List Nat)) (tm : Nat) (ev : List Event) :
      Except Fault (Transmitted σ) :=
    match sp1.Abort with
    | .ok (t1, ev1) =>
      .ok { session := s1, buffer := b1, _timer := tm, task := t1, events := ev ++ ev1 }
    | .error e => .error e
  -- the statements from `if (inspector)` to the label `done:`
  let finish (s1 : Session σ) (t : Task σ) (b1 : Option (List Nat)) (tm : Nat)
      (ev : List Event) : Except Fault (Transmitted σ) :=
    match inspector with
    | some _ =>
      match s1.Append t with
      | .ok (s2, t1, ev1) =>
        .ok { session := s2, buffer := b1, _timer := tm, task := t1, events := ev ++ ev1 }
      | .error e => .error e
    | none =>
      match t.Done with
      | .ok (t1, ev1) =>
        .ok { session := s1, buffer := b1, _timer := tm, task := t1, events := ev ++ ev1 }
      | .error e => .error e
  if !s.is_alive_ then abort s buffer _timer []
  else
    match buffer with
    | none => finish s sp1 none _timer []
    | some b =>
      match s.push_type_ with
      | PushType.FREE =>
        let r := s.Send b _timer
        if r.1 < 0 then
          match sp1.Error with
          | .ok (t1, ev1) => finish s t1 (some r.2.1) r.2.2.1 (r.2.2.2 ++ ev1)
          | .error e => .error e
        else finish s sp1 (some r.2.1) r.2.2.1 r.2.2.2
      | PushType.TIMED =>
        -- `push_sem_.Wait()`
        if s.push_sem_ = 0 then .error Fault.blocked
        else
          let s1 : Session σ := { s with push_sem_ := s.push_sem_ - 1 }
          if !s1.is_alive_ then abort s1 buffer _timer []
          else
            let s2 : Session σ := { s1 with send_buffer_ := b.take s1.remote_.send_size }
            finish s2 sp1 buffer _timer []

/-- The inner loop of `Session::Poll`: every task of the queue is tested on
`recv_buffer_`, front to back, and erased when its test returns `true`. The
result is the queue afterwards and the events. -/
def Session.test_queue {σ : Type} (recv_buffer_ : List Nat) :
    List (Task σ) → Except Fault (List (Task σ) × List Event)
  | [] => .ok ([], [])
  | t :: rest =>
    match t.Test recv_buffer_ with
    | .error e => .error e
    | .ok (terminal, t1, ev) =>
      match Session.test_queue recv_buffer_ rest with
      | .error e => .error e
      | .ok (rest1, ev1) => .ok (if terminal then rest1 else t1 :: rest1, ev ++ ev1)

/-- One iteration of the loop `while (is_alive_)` of `Session::Poll`, given
what `Recv(recv_buffer_)` produced: the returned value `ret` and the content
of `recv_buffer_`. -/
def Session.Poll {σ : Type} (s : Session σ) (ret : Int) (recv_buffer_ : List Nat) :
    Except Fault (Session σ × List Event) :=
  if ret < 0 then
    .ok ({ s with err_count_ := toInt32 (s.err_count_ + 1) }, [])
  else if s.task_queue_.isEmpty then .ok (s, [])
  else
    match Session.test_queue recv_buffer_ s.task_queue_ with
    | .ok (q, ev) => .ok ({ s with task_queue_ := q }, ev)
    | .error e => .error e

/-- The loop of `Session::~Session` under `// clean task queue`: every task is
aborted and erased, front to back. The result is the events. -/
def Session.clean_task_queue {σ : Type} : List (Task σ) → Except Fault (List Event)
  | [] => .ok []
  | t :: rest =>
    match t.Abort with
    | .error e => .error e
    | .ok (_, ev) =>
      match Session.clean_task_queue rest with
      | .error e => .error e
      | .ok ev1 => .ok (ev ++ ev1)

/-- The destructor `Session::~Session()`, the cancelling and joining of the
threads apart. -/
def Session.destroy {σ : Type} (s : Session σ) : Except Fault (Session σ × List Event) :=
  let s1 : Session σ := { s with is_alive_ := false }
  match Session.clean_task_queue s1.task_queue_ with
  | .ok ev => .ok ({ s1 with task_queue_ := [] }, ev)
  | .error e => .error e

/-- Successive calls of `Session::Send`, one per buffer of the list, in order,
starting from the given `_timer`. The result is the final `_timer` and the
events. -/
def Session.Sends {σ : Type} (s : Session σ) : List (List Nat) → Nat → Nat × List Event
  | [], _timer => (_timer, [])
  | b :: bs, _timer =>
    let r := s.Send b _timer
    let r1 := Session.Sends s bs r.2.2.1
    (r1.1, r.2.2.2 ++ r1.2)

end session

/-! ## The earlier session (`session.cc`, `session.h`) -/

namespace legacy

/-- The macro `ERROR(err) static_cast<Result>((err))` of `session.h`. -/
def ERROR (err : Int) : Int := err

/-- Enumerator `TIMEDOUT = -ETIMEDOUT` of `Session::Result` in `session.h`. -/
def TIMEDOUT : Int := -session.ETIMEDOUT

/-- The method `Session::Task::test(buffer)` of `session.cc`. -/
def Session.Task.test {σ : Type} (t : session.Task σ) (buffer : List Nat) :
    Except session.Fault (Bool × session.Task σ × List session.Event) :=
  let old := t.retry_
  let t1 : session.Task σ := { t with retry_ := session.toInt32 (old - 1) }
  if old < 1 then
    match t1.promise_.set_value TIMEDOUT with
    | .ok (p, ev) => .ok (true, { t1 with promise_ := p }, ev)
    | .error e => .error e
  else
    match t1.inspector_ with
    | none => .ok (true, t1, [])
    | some f =>
      let r := f.call f.env buffer
      let ret := r.1
      let t2 : session.Task σ := { t1 with inspector_ := some { f with env := r.2 } }
      let ev := [session.Event.inspect t2.promise_.future]
      if ret = session.DONE then
        match t2.promise_.set_value session.DONE with
        | .ok (p, ev1) => .ok (true, { t2 with promise_ := p }, ev ++ ev1)
        | .error e => .error e
      else if ret = session.AGAIN then
        .ok (false, { t2 with retry_ := session.toInt32 (t2.retry_ + 1) }, ev)
      else if ret = session.WAITING then
        .ok (false, t2, ev)
      else
        match t2.promise_.set_value (ERROR ret) with
        | .ok (p, ev1) => .ok (true, { t2 with promise_ := p }, ev ++ ev1)
        | .error e => .error e

end legacy

/-! ## Flash memory operations (`controller.cc`) -/

namespace controller

open session

/-- Macro `RETRY` of `controller.cc`. -/
def RETRY : Nat := 10

/-- Macro `FLASH_MEM_SIZE` of `controller_defs.h`. -/
def FLASH_MEM_SIZE : Nat := 0x80000

/-- Macro `FLASH_MEM_STEP` of `controller_defs.h`. -/
def FLASH_MEM_STEP : Nat := 0x1d

/-- Macro `assert_flash_mem_address(add) ((add) < FLASH_MEM_SIZE && (add) >= 0)`
on a `uint32_t`. -/
def assert_flash_mem_address (add : Nat) : Bool :=
  decide (add < FLASH_MEM_SIZE) && decide (add ≥ 0)

/-- Macro `assert_flash_mem_length(len) ((len) <= FLASH_MEM_STEP && (len) >= 0)`
on a `uint8_t`. -/
def assert_flash_mem_length (len : Nat) : Bool :=
  decide (len ≤ FLASH_MEM_STEP) && decide (len ≥ 0)

/-- Macro `OUTPUT_REPORT_SIZE` of `output_report.h`. -/
def OUTPUT_REPORT_SIZE : Nat := 0x31

/-- Macro `OUTPUT_REPORT_CMD`. -/
def OUTPUT_REPORT_CMD : Nat := 0x01

/-- Macro `SUBCMD_10`. -/
def SUBCMD_10 : Nat := 0x10

/-- Macro `SUBCMD_11`. -/
def SUBCMD_11 : Nat := 0x11

/-- The call `bzero(buf, n)`. -/
def bzero (buf : List Nat) (n : Nat) : List Nat :=
  List.replicate n 0 ++ buf.drop n

/-- The call `memmove(dst, src, n)` on buffers that do not share bytes. -/
def memmove (dst src : List Nat) (n : Nat) : List Nat :=
  src.take n ++ dst.drop n

/-- A store of `bytes` into `buf` from byte offset `off` on: the assignment of
a packed member or `memmove(buf + off, bytes, bytes.length)`. -/
def store (buf : List Nat) (off : Nat) (bytes : List Nat) : List Nat :=
  buf.take off ++ memmove (buf.drop off) bytes bytes.length

/-- The bytes of a `uint32_t` in memory, least significant first (the byte
order of the little-endian hosts the sources build for). -/
def u32_bytes (x : Nat) : List Nat :=
  [x % 256, x / 2 ^ 8 % 256, x / 2 ^ 16 % 256, x / 2 ^ 24 % 256]

/-- Macro `le32(raw)` of `device.h`, that is `u32_as_le32((u32_t)U32(raw))`. -/
def le32 (raw : List Nat) : Nat :=
  (raw.getD 0 0 &&& 0x000000FF) ||| ((raw.getD 1 0 <<< 8) &&& 0x0000FF00)
    ||| ((raw.getD 2 0 <<< 16) &&& 0x00FF0000) ||| ((raw.getD 3 0 <<< 24) &&& 0xFF000000)

/-- Member `id` of `struct InputReport`: byte 0. -/
def InputReport.id (input : List Nat) : Nat := input.getD 0 0

/-- Member `reply.subcmd_id` of `struct InputReport`: byte 14. -/
def InputReport.reply_subcmd_id (input : List Nat) : Nat := input.getD 14 0

/-- The pointer `reply.data` of `struct InputReport`: the report from byte 15 on
(the array `data` itself has 34 bytes). -/
def InputReport.reply_data (input : List Nat) : List Nat := input.drop 15

/-- The lambda `inspector` of `ControllerImpl::ReadMemory`, which captures
`address`, `size` and `data` by reference; its state is the content of the
caller's buffer `data`. -/
def ReadMemory_inspector (address size : Nat) (data : List Nat) : Inspector (List Nat) :=
  { env := data,
    call := fun data input =>
      if InputReport.id input = 0x21 ∧ InputReport.reply_subcmd_id input = SUBCMD_10 then
        let _address := le32 (InputReport.reply_data input)
        let _size := (InputReport.reply_data input).getD 4 0
        if _address = address ∧ _size = size then
          -- `sizeof(uint32_t) + sizeof(uint8_t)`
          let offset := 4 + 1
          (DONE, memmove data ((InputReport.reply_data input).drop offset) size)
        else (WAITING, data)
      else (WAITING, data) }

/-- The lambda `inspector` of `ControllerImpl::WriteMemory`; it captures the
same variables and does not use them. -/
def WriteMemory_inspector (data : List Nat) : Inspector (List Nat) :=
  { env := data,
    call := fun data input =>
      if InputReport.id input = 0x21 ∧ InputReport.reply_subcmd_id input = SUBCMD_11 then
        let status := (InputReport.reply_data input).getD 0 0
        if status = 0 then (DONE, data) else (ERROR, data)
      else (WAITING, data) }

/-- The data members of `class ControllerImpl` that the operations use:
the content of `output_` and the futures in `results_`, by label. -/
structure ControllerImpl where
  output_ : List Nat
  results_ : List Nat

/-- What the fan-out of `ControllerImpl::Transmit` leaves behind. -/
structure Fanout (σ : Type) where
  sessions : List (Session σ)
  buffer : Option (List Nat)
  _timer : Nat
  results_ : List Nat
  events : List Event

/-- The pack expansion `transmit(retry, buffer, inspector, results_, sessions)...`
of `ControllerImpl::Transmit`: `Session::Transmit` on each session, in the
order of the list, each returned future appended to `results_`. The futures
are labelled `future`, `future + 1`, ...; the task object is written as a new
one, `Task::Reset` overwriting every member of a recycled one. -/
def transmit {σ : Type} (retry : Nat) (inspector : Option (Inspector σ)) :
    List (Session σ) → Option (List Nat) → Nat → Nat → Except Fault (Fanout σ)
  | [], buffer, _timer, _ =>
    .ok { sessions := [], buffer := buffer, _timer := _timer, results_ := [], events := [] }
  | s :: rest, buffer, _timer, future =>
    match s.Transmit (session.Task.new σ future) future retry buffer inspector _timer with
    | .error e => .error e
    | .ok r =>
      match transmit retry inspector rest r.buffer r._timer (future + 1) with
      | .error e => .error e
      | .ok r1 =>
        .ok { sessions := r.session :: r1.sessions, buffer := r1.buffer, _timer := r1._timer,
              results_ := future :: r1.results_, events := r.events ++ r1.events }

/-- The method `ControllerImpl::Transmit(retry, buffer, inspector, sessions...)`:
`results_` is cleared and then filled by the fan-out. -/
def ControllerImpl.Transmit {σ : Type} (_c : ControllerImpl) (retry : Nat)
    (buffer : Option (List Nat)) (inspector : Option (Inspector σ))
    (sessions : List (Session σ)) (_timer future : Nat) : Except Fault (Fanout σ) :=
  transmit retry inspector sessions buffer _timer future

/-- The state in which an operation of `ControllerImpl` either has returned
(`ret = some v`) or has reached `ret = Await()` (`ret = none`: the value
returned is the one `Await` obtains from the futures of `impl.results_`). -/
structure Call (σ : Type) where
  ret : Option Int
  impl : ControllerImpl
  sessions : List (Session σ)
  _timer : Nat
  events : List Event

/-- The content of `output_` that `ControllerImpl::ReadMemory` builds. -/
def ReadMemory_output (output_ : List Nat) (address size : Nat) : List Nat :=
  let o := bzero output_ OUTPUT_REPORT_SIZE
  -- `output_->id = OUTPUT_REPORT_CMD`
  let o := o.set 0 OUTPUT_REPORT_CMD
  -- `output_->subcmd_10 = SUBCMD_10_INIT`
  let o := store o 10 ([SUBCMD_10] ++ u32_bytes 0 ++ [0])
  -- `output_->subcmd_10.address = address`
  let o := store o 11 (u32_bytes address)
  -- `output_->subcmd_10.length = size`
  o.set 15 size

/-- The method `ControllerImpl::ReadMemory(address, size, data, sessions...)`
up to `ret = Await()`. -/
def ControllerImpl.ReadMemory (c : ControllerImpl) (address size : Nat) (data : List Nat)
    (sessions : List (Session (List Nat))) (_timer future : Nat) :
    Except Fault (Call (List Nat)) :=
  if !assert_flash_mem_address address then
    .ok { ret := some (-EINVAL), impl := c, sessions := sessions, _timer := _timer, events := [] }
  else if !assert_flash_mem_length size then
    .ok { ret := some (-EINVAL), impl := c, sessions := sessions, _timer := _timer, events := [] }
  else
    let output := ReadMemory_output c.output_ address size
    let inspector := ReadMemory_inspector address size data
    match c.Transmit RETRY (some output) (some inspector) sessions _timer future with
    | .error e => .error e
    | .ok r =>
      .ok { ret := none,
            impl := { output_ := r.buffer.getD output, results_ := r.results_ },
            sessions := r.sessions, _timer := r._timer, events := r.events }

/-- The content of `output_` that `ControllerImpl::WriteMemory` builds. -/
def WriteMemory_output (output_ : List Nat) (address size : Nat) (data : List Nat) : List Nat :=
  let o := bzero output_ OUTPUT_REPORT_SIZE
  -- `output_->id = OUTPUT_REPORT_CMD`
  let o := o.set 0 OUTPUT_REPORT_CMD
  -- `output_->subcmd_11 = SUBCMD_11_INIT`
  let o := store o 10 ([SUBCMD_11] ++ u32_bytes 0 ++ [0] ++ List.replicate FLASH_MEM_STEP 0)
  -- `output_->subcmd_11.address = address`
  let o := store o 11 (u32_bytes address)
  -- `output_->subcmd_11.length = size`
  let o := o.set 15 size
  -- `memmove(output_->subcmd_11.data, data, size)`
  o.take 16 ++ memmove (o.drop 16) data size

/-- The method `ControllerImpl::WriteMemory(address, size, data, sessions...)`
up to `ret = Await()`. -/
def ControllerImpl.WriteMemory (c : ControllerImpl) (address size : Nat) (data : List Nat)
    (sessions : List (Session (List Nat))) (_timer future : Nat) :
    Except Fault (Call (List Nat)) :=
  if !assert_flash_mem_address address then
    .ok { ret := some (-EINVAL), impl := c, sessions := sessions, _timer := _timer, events := [] }
  else if !assert_flash_mem_length size then
    .ok { ret := some (-EINVAL), impl := c, sessions := sessions, _timer := _timer, events := [] }
  else
    let output := WriteMemory_output c.output_ address size data
    let inspector := WriteMemory_inspector data
    match c.Transmit RETRY (some output) (some inspector) sessions _timer future with
    | .error e => .error e
    | .ok r =>
      .ok { ret := none,
            impl := { output_ := r.buffer.getD output, results_ := r.results_ },
            sessions := r.sessions, _timer := r._timer, events := r.events }

/-! ## `ControllerImpl::BackupMemory` -/

/-- What `ControllerImpl::BackupMemory` does that is visible outside it, in
order: its calls of `ReadMemory` (with their address and size) and its calls
of the `progress` callback (with their two arguments). -/
inductive BackupEvent where
  | ReadMemory (address size : Nat)
  | progress (total current : Nat)
  deriving DecidableEq, Repr

/-- The loop `while (address < FLASH_MEM_SIZE)` of
`ControllerImpl::BackupMemory`, from the given value of `address`, with the
statements after it. `ReadMemory address size buffer w` stands for the call
`ReadMemory(address, size, buffer, sessions...)` as a whole in the state `w`
of everything it touches (the sessions, `output_`, the timer, the device): it
yields the returned value, the content it leaves in `buffer` and the new
state. `progress` tells whether the callback is non-empty. The result is the
returned value, the events and the final state; `buffer` is a local array. -/
def BackupMemory.loop {ω : Type}
    (ReadMemory : Nat → Nat → List Nat → ω → Int × List Nat × ω) (progress : Bool)
    (address : Nat) (w : ω) : Int × List BackupEvent × ω :=
  if address < FLASH_MEM_SIZE then
    -- `bzero(buffer, sizeof(buffer))`
    let buffer := bzero (List.replicate FLASH_MEM_STEP 0) FLASH_MEM_STEP
    let size := min (FLASH_MEM_SIZE - address) FLASH_MEM_STEP
    let r := ReadMemory address size buffer w
    if r.1 ≠ DONE then
      -- `goto failed`
      (r.1, [BackupEvent.ReadMemory address size], r.2.2)
    else
      let address1 := address + size
      let calls := if progress then [BackupEvent.progress FLASH_MEM_SIZE address1] else []
      let rest := BackupMemory.loop ReadMemory progress address1 r.2.2
      (rest.1, BackupEvent.ReadMemory address size :: calls ++ rest.2.1, rest.2.2)
  else
    -- `ret = address`
    ((address : Int), [], w)
termination_by FLASH_MEM_SIZE - address
decreasing_by
  simp only [FLASH_MEM_SIZE, FLASH_MEM_STEP] at *
  omega

/-- The method `ControllerImpl::BackupMemory(progress, sessions...)`:
`address = 0`, then the loop. -/
def ControllerImpl.BackupMemory {ω : Type}
    (ReadMemory : Nat → Nat → List Nat → ω → Int × List Nat × ω) (progress : Bool) (w : ω) :
    Int × List BackupEvent × ω :=
  BackupMemory.loop ReadMemory progress 0 w

/-- The windows of the flash memory as the specification lists them:
`(k * 0x1D, min(0x1D, 0x80000 - k * 0x1D))` for `k = 0, 1, ..., 18078`. -/
def BackupMemory.windows : List (Nat × Nat) :=
  (List.range 18079).map (fun k => (k * 0x1D, min 0x1D (0x80000 - k * 0x1D)))

/-- The behaviour of `BackupMemory` in the words of the specification, over a
given list of windows: each window is read in order; at the first window
whose `ReadMemory` result is not `DONE` the run stops and returns that result,
with no progress call for that window; after each successful window
`progress(0x80000, addr + len)` is called; when every window has succeeded the
run returns `0x80000`. -/
def BackupMemory.spec {ω : Type}
    (ReadMemory : Nat → Nat → List Nat → ω → Int × List Nat × ω) (progress : Bool) :
    List (Nat × Nat) → ω → Int × List BackupEvent × ω
  | [], w => (0x80000, [], w)
  | (addr, len) :: rest, w =>
    let r := ReadMemory addr len (List.replicate 0x1D 0) w
    if r.1 ≠ DONE then (r.1, [BackupEvent.ReadMemory addr len], r.2.2)
    else
      let o := BackupMemory.spec ReadMemory progress rest r.2.2
      (o.1,
       BackupEvent.ReadMemory addr len ::
         (if progress then [BackupEvent.progress 0x80000 (addr + len)] else []) ++ o.2.1,
       o.2.2)

/-! ## Controller data (`controller_defs.h`) and the reply inspectors -/

/-- The bytes of `struct Button`: `left`, `shared`, `right`. -/
structure Button where
  left : Nat
  shared : Nat
  right : Nat
  deriving DecidableEq, Repr

/-- The function `button_merge(dist, src)`; the result is `*dist` afterwards. -/
def button_merge (dist src : Button) : Button :=
  { left := dist.left ||| src.left,
    shared := dist.shared ||| src.shared,
    right := dist.right ||| src.right }

/-- The bytes `raw[0]`, `raw[1]`, `raw[2]` of `struct Stick`. -/
structure Stick where
  raw_0 : Nat
  raw_1 : Nat
  raw_2 : Nat
  deriving DecidableEq, Repr

/-- The function `stick_merge(dist, src)`; the result is `*dist` afterwards. -/
def stick_merge (dist src : Stick) : Stick :=
  { raw_0 := dist.raw_0 ||| src.raw_0,
    raw_1 := dist.raw_1 ||| src.raw_1,
    raw_2 := dist.raw_2 ||| src.raw_2 }

/-- The nine bytes of `struct ControllerData`. -/
structure ControllerData where
  button : Button
  left_stick : Stick
  right_stick : Stick
  deriving DecidableEq, Repr

/-- The function `controller_data_merge(dist, src)`; the result is `*dist`
afterwards. -/
def controller_data_merge (dist src : ControllerData) : ControllerData :=
  { button := button_merge dist.button src.button,
    left_stick := stick_merge dist.left_stick src.left_stick,
    right_stick := stick_merge dist.right_stick src.right_stick }

/-- Enumerator `PRO_GRIP = 0` of `enum Category`. -/
def PRO_GRIP : Nat := 0

/-- Member `controller_state.category` of `struct InputReport`: the two-bit
field that follows the one-bit field `power` in byte 2. -/
def InputReport.controller_state_category (input : List Nat) : Nat :=
  input.getD 2 0 / 2 % 4

/-- Member `controller_data` of `struct InputReport`: bytes 3 to 11. -/
def InputReport.controller_data (input : List Nat) : ControllerData :=
  { button := { left := input.getD 3 0, shared := input.getD 4 0, right := input.getD 5 0 },
    left_stick := { raw_0 := input.getD 6 0, raw_1 := input.getD 7 0, raw_2 := input.getD 8 0 },
    right_stick :=
      { raw_0 := input.getD 9 0, raw_1 := input.getD 10 0, raw_2 := input.getD 11 0 } }

/-- The lambda `inspector` of `ControllerImpl::GetData`, which captures `data`
by reference; its state is the caller's `ControllerData`. -/
def GetData_inspector (data : ControllerData) : Inspector ControllerData :=
  { env := data,
    call := fun data input =>
      if InputReport.id input = 0x30 ∨ InputReport.id input = 0x21
          ∨ InputReport.id input = 0x31 then
        if InputReport.controller_state_category input = PRO_GRIP then
          (DONE, InputReport.controller_data input)
        else
          (DONE, controller_data_merge data (InputReport.controller_data input))
      else (WAITING, data) }

/-- Macro `SUBCMD_01`. -/
def SUBCMD_01 : Nat := 0x01

/-- Macro `SUBCMD_03`. -/
def SUBCMD_03 : Nat := 0x03

/-- Macro `SUBCMD_04`. -/
def SUBCMD_04 : Nat := 0x04

/-- Macro `SUBCMD_08`. -/
def SUBCMD_08 : Nat := 0x08

/-- Macro `SUBCMD_22`. -/
def SUBCMD_22 : Nat := 0x22

/-- Macro `SUBCMD_30`. -/
def SUBCMD_30 : Nat := 0x30

/-- Macro `SUBCMD_38`. -/
def SUBCMD_38 : Nat := 0x38

/-- Macro `SUBCMD_40`. -/
def SUBCMD_40 : Nat := 0x40

/-- Macro `SUBCMD_48`. -/
def SUBCMD_48 : Nat := 0x48

/-- The lambda `inspector` of `ControllerImpl::Pair`. -/
def Pair_inspector : Inspector Unit :=
  { env := (),
    call := fun e input =>
      if InputReport.id input = 0x21 ∧ InputReport.reply_subcmd_id input = SUBCMD_01 then
        (DONE, e)
      else (WAITING, e) }

/-- The lambda `inspector` of `ControllerImpl::Poll`. -/
def Poll_inspector : Inspector Unit :=
  { env := (),
    call := fun e input =>
      if InputReport.id input = 0x21 ∧ InputReport.reply_subcmd_id input = SUBCMD_03 then
        (DONE, e)
      else (WAITING, e) }

/-- The lambda `inspector` of `ControllerImpl::SetPlayer`. -/
def SetPlayer_inspector : Inspector Unit :=
  { env := (),
    call := fun e input =>
      if InputReport.id input = 0x21 ∧ InputReport.reply_subcmd_id input = SUBCMD_30 then
        (DONE, e)
      else (WAITING, e) }

/-- The lambda `inspector` of `ControllerImpl::SetLowPower`. -/
def SetLowPower_inspector : Inspector Unit :=
  { env := (),
    call := fun e input =>
      if InputReport.id input = 0x21 ∧ InputReport.reply_subcmd_id input = SUBCMD_08 then
        (DONE, e)
      else (WAITING, e) }

/-- The lambda `inspector` of `ControllerImpl::SetElapsedTime`. -/
def SetElapsedTime_inspector : Inspector Unit :=
  { env := (),
    call := fun e input =>
      if InputReport.id input = 0x21 ∧ InputReport.reply_subcmd_id input = SUBCMD_04 then
        (DONE, e)
      else (WAITING, e) }

/-- The lambda `inspector` of `ControllerImpl::SetImu`. -/
def SetImu_inspector : Inspector Unit :=
  { env := (),
    call := fun e input =>
      if InputReport.id input = 0x21 ∧ InputReport.reply_subcmd_id input = SUBCMD_40 then
        (DONE, e)
      else (WAITING, e) }

/-- The lambda `inspector` of `ControllerImpl::SetRumble`. -/
def SetRumble_inspector : Inspector Unit :=
  { env := (),
    call := fun e input =>
      if InputReport.id input = 0x21 ∧ InputReport.reply_subcmd_id input = SUBCMD_48 then
        (DONE, e)
      else (WAITING, e) }

/-- The lambda `inspector` of `ControllerImpl::SetMcuState`. -/
def SetMcuState_inspector : Inspector Unit :=
  { env := (),
    call := fun e input =>
      if InputReport.id input = 0x21 ∧ InputReport.reply_subcmd_id input = SUBCMD_22 then
        (DONE, e)
      else (WAITING, e) }

/-- The lambda `inspector` of `ControllerImpl::SetHomeLight`. -/
def SetHomeLight_inspector : Inspector Unit :=
  { env := (),
    call := fun e input =>
      if InputReport.id input = 0x21 ∧ InputReport.reply_subcmd_id input = SUBCMD_38 then
        (DONE, e)
      else (WAITING, e) }

/-! ## Home light patterns (`controller_defs.h`) -/

/-- The type `struct HomeLightPattern` of `controller_defs.h`. -/
structure HomeLightPattern where
  intensity : Nat
  duration : Nat
  transition : Nat
  deriving DecidableEq, Repr

/-- Macro `home_light_pattern(patterns, len)`: the array `p.raw` of 23 bytes
after the loop over `i = 0, ..., len - 1`. A store into a `uint8_t` keeps the
low eight bits. -/
def home_light_pattern (patterns : List HomeLightPattern) (len : Nat) : List Nat :=
  (List.range len).foldl
    (fun p i =>
      let pts := patterns.getD i ⟨0, 0, 0⟩
      let pos := i / 2
      let res := i % 2
      let p1 := p.set (3 * pos) ((p.getD (3 * pos) 0 ||| (pts.intensity <<< (4 * (1 - res)))) % 256)
      p1.set (3 * pos + res + 1) (((pts.transition <<< 4) ||| (pts.duration &&& 0x0F)) % 256))
    (List.replicate 23 0)

/-- Byte `j` of the packed home-light array in the words of the
specification: a byte `3 * q` holds the intensity of triple `2 * q` in its
high nibble and that of triple `2 * q + 1` in its low nibble; the bytes
`3 * q + 1` and `3 * q + 2` hold `(transition << 4) | duration` of the triples
`2 * q` and `2 * q + 1`; what no triple below `len` addresses is zero. -/
def home_light_bytes (patterns : List HomeLightPattern) (len j : Nat) : Nat :=
  if j % 3 = 0 then
    16 * (if 2 * (j / 3) < len then (patterns.getD (2 * (j / 3)) ⟨0, 0, 0⟩).intensity else 0)
      + (if 2 * (j / 3) + 1 < len then (patterns.getD (2 * (j / 3) + 1) ⟨0, 0, 0⟩).intensity
         else 0)
  else if 2 * (j / 3) + (j % 3 - 1) < len then
    16 * (patterns.getD (2 * (j / 3) + (j % 3 - 1)) ⟨0, 0, 0⟩).transition
      + (patterns.getD (2 * (j / 3) + (j % 3 - 1)) ⟨0, 0, 0⟩).duration
  else 0


/-- The table `double_blink_pattern` of `controller_defs.h`. -/
def double_blink_pattern : List HomeLightPattern :=
  [⟨0xF, 0x0, 0xF⟩, ⟨0x0, 0x0, 0xF⟩, ⟨0xF, 0x0, 0xF⟩, ⟨0x0, 0x0, 0xF⟩, ⟨0x0, 0x0, 0xF⟩,
   ⟨0x0, 0x0, 0xF⟩]

/-! ## Operations that build a report and transmit it -/

/-- The tail that the operations of `ControllerImpl` share:
`Transmit(RETRY, output_, inspector, sessions...)` on the report built in
`output_`, up to `ret = Await()`. -/
def ControllerImpl.submit {σ : Type} (_c : ControllerImpl) (output : List Nat)
    (inspector : Option (Inspector σ)) (sessions : List (Session σ)) (_timer future : Nat) :
    Except Fault (Call σ) :=
  match _c.Transmit RETRY (some output) inspector sessions _timer future with
  | .error e => .error e
  | .ok r =>
    .ok { ret := none,
          impl := { output_ := r.buffer.getD output, results_ := r.results_ },
          sessions := r.sessions, _timer := r._timer, events := r.events }

/-- A store into a bit-field of `width` bits that starts at bit `shift` of a
byte: the field takes the low `width` bits of `value`, the other bits of the
byte stay. Bit-fields are allocated from the least significant bit on. -/
def bitfield_store (byte shift width value : Nat) : Nat :=
  byte - (byte / 2 ^ shift % 2 ^ width) * 2 ^ shift + (value % 2 ^ width) * 2 ^ shift

/-- Macro `_PLAYER(n) ((0x1 << (n)) - 1)`. -/
def _PLAYER (n : Nat) : Nat := (0x1 <<< n) - 1

/-- Enumerator `PLAYER_0 = _PLAYER(0)`. -/
def PLAYER_0 : Nat := _PLAYER 0

/-- Macro `Player_(n) player_t(_PLAYER(n))`. -/
def Player_ (n : Nat) : Nat := _PLAYER n

/-- Macro `_PLAYER_FLASH(n) ((0x1 << (n)) - 1)`. -/
def _PLAYER_FLASH (n : Nat) : Nat := (0x1 <<< n) - 1

/-- Enumerator `PLAYER_FLASH_0 = _PLAYER_FLASH(0)`. -/
def PLAYER_FLASH_0 : Nat := _PLAYER_FLASH 0

/-- Macro `PlayerFlash_(n) player_flash_t(_PLAYER_FLASH(n))`. -/
def PlayerFlash_ (n : Nat) : Nat := _PLAYER_FLASH n

/-- The content of `output_` that `ControllerImpl::SetPlayer` builds. In
`struct Subcmd_30` the byte after `cmd` holds the bit-fields `player : 4` and
`flash : 4`. -/
def SetPlayer_output (output_ : List Nat) (player flash : Nat) : List Nat :=
  let o := bzero output_ OUTPUT_REPORT_SIZE
  -- `output_->id = OUTPUT_REPORT_CMD`
  let o := o.set 0 OUTPUT_REPORT_CMD
  -- `output_->subcmd_30 = SUBCMD_30_INIT`
  let o := store o 10
    [SUBCMD_30, bitfield_store (bitfield_store 0 0 4 PLAYER_0) 4 4 PLAYER_FLASH_0]
  -- `output_->subcmd_30.player = player`
  let o := o.set 11 (bitfield_store (o.getD 11 0) 0 4 player)
  -- `output_->subcmd_30.flash = flash`
  o.set 11 (bitfield_store (o.getD 11 0) 4 4 flash)

/-- The method `ControllerImpl::SetPlayer(player, flash, sessions...)` up to
`ret = Await()`. -/
def ControllerImpl.SetPlayer (c : ControllerImpl) (player flash : Nat)
    (sessions : List (Session Unit)) (_timer future : Nat) : Except Fault (Call Unit) :=
  c.submit (SetPlayer_output c.output_ player flash) (some SetPlayer_inspector) sessions
    _timer future

/-- The C entry point `Controller_set_player(controller, player, flash)` on a
controller whose `SetPlayer` forwards to `impl_->SetPlayer(player, flash, ...)`
with its sessions. -/
def Controller_set_player (c : ControllerImpl) (player flash : Nat)
    (sessions : List (Session Unit)) (_timer future : Nat) : Except Fault (Call Unit) :=
  c.SetPlayer (Player_ (player &&& 0xf)) (PlayerFlash_ (flash &&& 0xf)) sessions _timer future

/-- The type `struct RumbleData` of `output_report.h`: four bytes. -/
structure RumbleData where
  freq_h : Nat
  freq_h_amp : Nat
  freq_l : Nat
  freq_l_amp : Nat
  deriving DecidableEq, Repr

/-- The bytes of a `struct RumbleData` in memory. -/
def RumbleData.bytes (r : RumbleData) : List Nat :=
  [r.freq_h, r.freq_h_amp, r.freq_l, r.freq_l_amp]

/-- Macro `OUTPUT_REPORT_RUM`. -/
def OUTPUT_REPORT_RUM : Nat := 0x10

/-- The content of `output_` that `ControllerImpl::Rumble` builds; a null
pointer is `none`. The member `rumble` is at bytes 2 to 9, `rumble_l` first. -/
def Rumble_output (output_ : List Nat) (left right : Option RumbleData) : List Nat :=
  let o := bzero output_ OUTPUT_REPORT_SIZE
  -- `output_->id = OUTPUT_REPORT_RUM`
  let o := o.set 0 OUTPUT_REPORT_RUM
  -- `if (left) output_->rumble.rumble_l = *left`
  let o := match left with
    | some l => store o 2 l.bytes
    | none => o
  -- `if (right) output_->rumble.rumble_r = *right`
  match right with
  | some r => store o 6 r.bytes
  | none => o

/-- The method `ControllerImpl::Rumble(left, right, sessions...)` up to
`ret = Await()`. -/
def ControllerImpl.Rumble {σ : Type} (c : ControllerImpl) (left right : Option RumbleData)
    (sessions : List (Session σ)) (_timer future : Nat) : Except Fault (Call σ) :=
  if left.isNone && right.isNone then
    .ok { ret := some 0, impl := c, sessions := sessions, _timer := _timer, events := [] }
  else
    c.submit (Rumble_output c.output_ left right) none sessions _timer future

/-! ## Rumble encoding (`controller.cc`) -/

/-- The arithmetic of `float` that `CalcRumblef` and `_freq_amp` use; it comes
from the compiler and from `<math.h>`, not from the repository, and is taken
as a parameter: `lit n d` is the constant written `n / d` in decimal in the
source, `lt` is `operator<`, `to_uint8` is `static_cast<uint8_t>`. -/
structure FloatOps (F : Type) where
  lit : Nat → Nat → F
  lt : F → F → Bool
  mul : F → F → F
  div : F → F → F
  log2f : F → F
  roundf : F → F
  to_uint8 : F → Nat

/-- The type `struct RumbleDataF` of `output_report.h`. -/
structure RumbleDataF (F : Type) where
  freq_h : F
  freq_h_amp : F
  freq_l : F
  freq_l_amp : F

/-- The function `_freq_amp(a)`. -/
def _freq_amp {F : Type} (ops : FloatOps F) (a : F) : F :=
  if ops.lt a (ops.lit 117471 1000000) then
    ops.mul (ops.mul (ops.lit 5 10000) a) a
  else if ops.lt a (ops.lit 229908 1000000) then
    ops.mul (ops.log2f (ops.mul a (ops.lit 17 1))) (ops.lit 16 1)
  else if ops.lt (ops.lit 1 1) a then
    -- not safe
    ops.lit 100 1
  else
    ops.mul (ops.log2f (ops.mul a (ops.lit 87 10))) (ops.lit 32 1)

/-- The function `CalcRumblef(rumble, freq_h, freq_h_amp, freq_l, freq_l_amp)`.
The result is the returned value and `rumble` afterwards. -/
def CalcRumblef {F : Type} (ops : FloatOps F) (rumble : RumbleData)
    (freq_h freq_h_amp freq_l freq_l_amp : F) : Int × RumbleData :=
  if ops.lt freq_h (ops.lit 80 1) || ops.lt (ops.lit 1252 1) freq_h
      || ops.lt freq_h_amp (ops.lit 0 1) || ops.lt (ops.lit 1 1) freq_h_amp then
    (-EINVAL, rumble)
  else if ops.lt freq_l (ops.lit 40 1) || ops.lt (ops.lit 626 1) freq_l
      || ops.lt freq_l_amp (ops.lit 0 1) || ops.lt (ops.lit 1 1) freq_l_amp then
    (-EINVAL, rumble)
  else
    let freq_h_hex : Nat :=
      ops.to_uint8 (ops.roundf (ops.mul (ops.log2f (ops.div freq_h (ops.lit 10 1)))
        (ops.lit 32 1))) % 256
    let freq_l_hex : Nat :=
      ops.to_uint8 (ops.roundf (ops.mul (ops.log2f (ops.div freq_l (ops.lit 10 1)))
        (ops.lit 32 1))) % 256
    -- `static_cast<uint16_t>((freq_h_hex - 0x60) << 2)`
    let _freq_h : Nat := ((((freq_h_hex : Int) - 0x60) * 4) % 65536).toNat
    -- `static_cast<uint8_t>(freq_l_hex - 0x40)`
    let _freq_l : Nat := (((freq_l_hex : Int) - 0x40) % 256).toNat
    let k_h : Nat := ops.to_uint8 (ops.roundf (_freq_amp ops freq_h_amp)) % 256
    let k_l : Nat := ops.to_uint8 (ops.roundf (_freq_amp ops freq_l_amp)) % 256
    let _freq_h_amp : Nat := (k_h * 2) % 256
    let msb : Nat := ((k_l &&& 0x1) <<< 15) % 65536
    let _freq_l_amp : Nat := (((k_l >>> 1) ||| msb) + 0x0040) % 65536
    (0,
     { rumble with
       freq_h := (_freq_h &&& 0xff) % 256,
       freq_h_amp := (_freq_h_amp ||| ((_freq_h >>> 8) &&& 0xff)) % 256,
       freq_l := (_freq_l ||| ((_freq_l_amp >>> 8) &&& 0xff)) % 256,
       freq_l_amp := (_freq_l_amp &&& 0xff) % 256 })

/-- The C entry point `calc_rumble_data(rumblef, rumble)`. -/
def calc_rumble_data {F : Type} (ops : FloatOps F) (rumblef : RumbleDataF F)
    (rumble : RumbleData) : Int × RumbleData :=
  CalcRumblef ops rumble rumblef.freq_h rumblef.freq_h_amp rumblef.freq_l rumblef.freq_l_amp

/-- An arithmetic on integers in the place of `float`, for evaluating the
range checks on whole numbers: constants are truncated quotients and the
mathematical functions are identities. -/
def FloatOps.integers : FloatOps Int :=
  { lit := fun n d => (n : Int) / (d : Int),
    lt := fun a b => decide (a < b),
    mul := fun a b => a * b,
    div := fun a b => a / b,
    log2f := fun a => a,
    roundf := fun a => a,
    to_uint8 := fun a => a.toNat }

/-! ## `Await`, `Rumblef` and the façades (`controller.cc`, `controller.h`) -/

/-- The method `ControllerImpl::Await()`: `get it` is the value that the future
labelled `it` delivers, `none` for a future that never becomes ready (the
call `(*it).get()` then does not return, and neither does `Await`). The
result is the value returned and the futures waited on, in order. -/
def ControllerImpl.Await (c : ControllerImpl) (get : Nat → Option Int) :
    Option (Int × List Nat) :=
  -- `int ret = 0; for (it = results_.begin(); it != results_.end(); ++it) ret = (*it).get();`
  c.results_.foldl
    (fun acc it =>
      match acc with
      | none => none
      | some (_, waited) =>
        match get it with
        | none => none
        | some v => some (v, waited ++ [it]))
    (some (0, []))

/-- The shared state of the future `it` after the events `ev`: the value of
the `set_value` on its promise, if there was one. -/
def future_value (ev : List Event) (it : Nat) : Option Int :=
  ev.findSome? fun e =>
    match e with
    | Event.set_value f v => if f = it then some v else none
    | _ => none

/-- The value an operation returns: the one it returned before `Await`, or
the one `Await` obtains from the futures, whose values are `get`. -/
def Call.result {σ : Type} (r : Call σ) (get : Nat → Option Int) : Option Int :=
  match r.ret with
  | some v => some v
  | none => (r.impl.Await get).map Prod.fst

/-- The method `ControllerImpl::Rumblef(left, right, sessions...)` up to
`ret = Await()`; a null pointer is `none`. The value `CalcRumblef` returns is
not used. -/
def ControllerImpl.Rumblef {σ F : Type} (ops : FloatOps F) (c : ControllerImpl)
    (left right : Option (RumbleDataF F)) (sessions : List (Session σ))
    (_timer future : Nat) : Except Fault (Call σ) :=
  -- `rumble_t rumble = {}`
  let rumble_l : RumbleData := ⟨0, 0, 0, 0⟩
  let rumble_r : RumbleData := ⟨0, 0, 0, 0⟩
  let rumble_l :=
    match left with
    | some l => (CalcRumblef ops rumble_l l.freq_h l.freq_h_amp l.freq_l l.freq_l_amp).2
    | none => rumble_l
  let rumble_r :=
    match right with
    | some r => (CalcRumblef ops rumble_r r.freq_h r.freq_h_amp r.freq_l r.freq_l_amp).2
    | none => rumble_r
  -- `return Rumble(&rumble.rumble_l, &rumble.rumble_r, sessions...)`
  c.Rumble (some rumble_l) (some rumble_r) sessions _timer future

/-- Enumerator `JOYCON_L = 1` of `enum Category`. -/
def JOYCON_L : Nat := 1

/-- Enumerator `JOYCON_R = 2` of `enum Category`. -/
def JOYCON_R : Nat := 2

/-- Enumerator `JOYCON = 3` of `enum Category`. -/
def JOYCON : Nat := 3

/-- The data members of `class JoyCon_L`. -/
structure JoyCon_L (σ : Type) where
  impl_ : ControllerImpl
  session_ : Session σ

/-- The data members of `class JoyCon_R`. -/
structure JoyCon_R (σ : Type) where
  impl_ : ControllerImpl
  session_ : Session σ

/-- The data members of `class ProController`. -/
structure ProController (σ : Type) where
  impl_ : ControllerImpl
  session_ : Session σ

/-- The data members of `class JoyCon_Dual`. -/
structure JoyCon_Dual (σ : Type) where
  impl_ : ControllerImpl
  session_l_ : Session σ
  session_r_ : Session σ

/-- The method `JoyCon_L::category()`. -/
def JoyCon_L.category {σ : Type} (_j : JoyCon_L σ) : Nat := JOYCON_L

/-- The method `JoyCon_R::category()`. -/
def JoyCon_R.category {σ : Type} (_j : JoyCon_R σ) : Nat := JOYCON_R

/-- The method `ProController::category()`. -/
def ProController.category {σ : Type} (_j : ProController σ) : Nat := PRO_GRIP

/-- The method `JoyCon_Dual::category()`. -/
def JoyCon_Dual.category {σ : Type} (_j : JoyCon_Dual σ) : Nat := PRO_GRIP

/-- The method `JoyCon_L::Rumble(left, right)` up to `ret = Await()`. -/
def JoyCon_L.Rumble {σ : Type} (j : JoyCon_L σ) (left _right : Option RumbleData)
    (_timer future : Nat) : Except Fault (Call σ) :=
  j.impl_.Rumble left none [j.session_] _timer future

/-- The method `JoyCon_L::Rumblef(left, right)` up to `ret = Await()`. -/
def JoyCon_L.Rumblef {σ F : Type} (ops : FloatOps F) (j : JoyCon_L σ)
    (left right : Option (RumbleDataF F)) (_timer future : Nat) : Except Fault (Call σ) :=
  j.impl_.Rumblef ops left right [j.session_] _timer future

/-- The method `JoyCon_R::Rumble(left, right)` up to `ret = Await()`. -/
def JoyCon_R.Rumble {σ : Type} (j : JoyCon_R σ) (_left right : Option RumbleData)
    (_timer future : Nat) : Except Fault (Call σ) :=
  j.impl_.Rumble none right [j.session_] _timer future

/-- The method `JoyCon_R::Rumblef(left, right)` up to `ret = Await()`. -/
def JoyCon_R.Rumblef {σ F : Type} (ops : FloatOps F) (j : JoyCon_R σ)
    (left right : Option (RumbleDataF F)) (_timer future : Nat) : Except Fault (Call σ) :=
  j.impl_.Rumblef ops left right [j.session_] _timer future

/-- The method `JoyCon_Dual::Rumble(left, right)` up to `ret = Await()`. -/
def JoyCon_Dual.Rumble {σ : Type} (j : JoyCon_Dual σ) (left right : Option RumbleData)
    (_timer future : Nat) : Except Fault (Call σ) :=
  j.impl_.Rumble left right [j.session_l_, j.session_r_] _timer future

/-! ## An arithmetic for evaluating the rumble encoding -/

/-- The integer part of the binary logarithm of `n`, by halving, with `fuel`
halvings at most. -/
def fixed_ilog2 : Nat → Nat → Nat
  | 0, _ => 0
  | fuel + 1, n => if 2 ≤ n then fixed_ilog2 fuel (n / 2) + 1 else 0

/-- The first `k` binary digits of the logarithm of the mantissa `m / 2^32`
in `[1, 2)`, by repeated squaring, appended to the digits `acc`. -/
def fixed_log2_digits : Nat → Nat → Nat → Nat
  | 0, _, acc => acc
  | k + 1, m, acc =>
    let m2 := m * m / 2 ^ 32
    if 2 ^ 33 ≤ m2 then fixed_log2_digits k (m2 / 2) (2 * acc + 1)
    else fixed_log2_digits k m2 (2 * acc)

/-- The binary logarithm in fixed point, 32 binary places, 24 of them
computed; 0 for an argument that is not positive. -/
def fixed_log2 (x : Int) : Int :=
  if x ≤ 0 then 0
  else
    let n := x.toNat
    let e := fixed_ilog2 128 n
    let m := n * 2 ^ 32 / 2 ^ e
    ((e : Int) - 32) * 2 ^ 32 + (fixed_log2_digits 24 m 0 : Int) * 2 ^ 8

/-- An arithmetic in binary fixed point (the integer `x` stands for
`x / 2^32`) in the place of `float`, for evaluating the encoding on concrete
inputs: products and quotients are truncated, `roundf` rounds halves away
from zero. -/
def FloatOps.fixed : FloatOps Int :=
  { lit := fun n d => (n : Int) * 2 ^ 32 / (d : Int),
    lt := fun a b => decide (a < b),
    mul := fun a b => a * b / 2 ^ 32,
    div := fun a b => a * 2 ^ 32 / b,
    log2f := fixed_log2,
    roundf := fun a =>
      if 0 ≤ a then (a + 2 ^ 31) / 2 ^ 32 * 2 ^ 32 else -((-a + 2 ^ 31) / 2 ^ 32 * 2 ^ 32),
    to_uint8 := fun a => (a / 2 ^ 32).toNat }

/-! ## The IR camera: configurations (`mcu.h`) -/

/-- Enumerator `POLL_NFC_IR_CAM` of `enum PollType`. -/
def POLL_NFC_IR_CAM : Nat := 0x0

/-- Enumerator `POLL_STANDARD` of `enum PollType`. -/
def POLL_STANDARD : Nat := 0x30

/-- Enumerator `POLL_NFC_IR` of `enum PollType`. -/
def POLL_NFC_IR : Nat := 0x31

/-- Enumerator `MCU_STATE_SUSPEND` of `enum McuState`. -/
def MCU_STATE_SUSPEND : Nat := 0

/-- Enumerator `MCU_STATE_RESUME` of `enum McuState`. -/
def MCU_STATE_RESUME : Nat := 1

/-- Enumerator `MCU_MODE_STANDBY` of `enum McuMode`. -/
def MCU_MODE_STANDBY : Nat := 0x1

/-- Enumerator `MCU_MODE_IR` of `enum McuMode`. -/
def MCU_MODE_IR : Nat := 0x5

/-- Enumerator `IR_MODE_IMG_TRANSFER` of `enum IrMode`. -/
def IR_MODE_IMG_TRANSFER : Nat := 0x7

/-- Macro `IR_CONFIG_RESOLUTION_240P`. -/
def IR_CONFIG_RESOLUTION_240P : Nat := 0b00000000

/-- Macro `IR_CONFIG_RESOLUTION_120P`. -/
def IR_CONFIG_RESOLUTION_120P : Nat := 0b01010000

/-- Macro `IR_CONFIG_RESOLUTION_60P`. -/
def IR_CONFIG_RESOLUTION_60P : Nat := 0b01100100

/-- Macro `IR_CONFIG_RESOLUTION_30P`. -/
def IR_CONFIG_RESOLUTION_30P : Nat := 0b01101001

/-- Macro `IR_CONFIG_FRAGMENTS_240P`. -/
def IR_CONFIG_FRAGMENTS_240P : Nat := 0xff

/-- Macro `IR_CONFIG_FRAGMENTS_120P`. -/
def IR_CONFIG_FRAGMENTS_120P : Nat := 0x3f

/-- Macro `IR_CONFIG_FRAGMENTS_60P`. -/
def IR_CONFIG_FRAGMENTS_60P : Nat := 0x0f

/-- Macro `IR_CONFIG_FRAGMENTS_30P`. -/
def IR_CONFIG_FRAGMENTS_30P : Nat := 0x03

/-- Macro `IR_CONFIG_UPDATE_DEFAULT`. -/
def IR_CONFIG_UPDATE_DEFAULT : Nat := 0x32

/-- Macro `IR_CONFIG_UPDATE_30P`. -/
def IR_CONFIG_UPDATE_30P : Nat := 0x2d

/-- Macro `u16_be(u16)` of `device.h`: the two bytes `_0`, `_1` of a `u16_t`. -/
def u16_be (u16 : Nat) : Nat × Nat := ((u16 >>> 8) &&& 0xff, u16 &&& 0xff)

/-- Macro `u16_le(u16)` of `device.h`. -/
def u16_le (u16 : Nat) : Nat × Nat := (u16 &&& 0xff, (u16 >>> 8) &&& 0xff)

/-- The type `struct IrConfigFixed`. -/
structure IrConfigFixed where
  mode : Nat
  resolution : Nat
  fragments : Nat
  update_time : Nat
  width : Nat
  height : Nat
  major : Nat × Nat
  minor : Nat × Nat
  deriving DecidableEq, Repr

/-- The type `struct IrConfigLive`; `intensity` is the pair `bright`, `dim`
and `denoise` the triple `enable`, `edge`, `color`. -/
structure IrConfigLive where
  exposure : Nat × Nat
  leds : Nat
  intensity : Nat × Nat
  ex_light_filter : Nat
  digi_gain : Nat
  denoise : Nat × Nat × Nat
  flip : Nat
  deriving DecidableEq, Repr

/-- The type `struct IrConfig`. -/
structure IrConfig where
  fixed : IrConfigFixed
  live : IrConfigLive
  deriving DecidableEq, Repr

/-- The constant `ir_config_240p`. -/
def ir_config_240p : IrConfigFixed :=
  { mode := IR_MODE_IMG_TRANSFER,
    resolution := IR_CONFIG_RESOLUTION_240P,
    fragments := IR_CONFIG_FRAGMENTS_240P,
    update_time := IR_CONFIG_UPDATE_DEFAULT,
    width := 320,
    height := 240,
    major := u16_be 0x0005,
    minor := u16_be 0x0018 }

/-- The constant `ir_config_120p`. -/
def ir_config_120p : IrConfigFixed :=
  { mode := IR_MODE_IMG_TRANSFER,
    resolution := IR_CONFIG_RESOLUTION_120P,
    fragments := IR_CONFIG_FRAGMENTS_120P,
    update_time := IR_CONFIG_UPDATE_DEFAULT,
    width := 160,
    height := 120,
    major := u16_be 0x0005,
    minor := u16_be 0x0018 }

/-- The constant `ir_config_60p`. -/
def ir_config_60p : IrConfigFixed :=
  { mode := IR_MODE_IMG_TRANSFER,
    resolution := IR_CONFIG_RESOLUTION_60P,
    fragments := IR_CONFIG_FRAGMENTS_60P,
    update_time := IR_CONFIG_UPDATE_DEFAULT,
    width := 80,
    height := 60,
    major := u16_be 0x0005,
    minor := u16_be 0x0018 }

/-- The constant `ir_config_30p`. -/
def ir_config_30p : IrConfigFixed :=
  { mode := IR_MODE_IMG_TRANSFER,
    resolution := IR_CONFIG_RESOLUTION_30P,
    fragments := IR_CONFIG_FRAGMENTS_30P,
    update_time := IR_CONFIG_UPDATE_30P,
    width := 40,
    height := 30,
    major := u16_be 0x0005,
    minor := u16_be 0x0018 }

/-- The constant `ir_test_config`; `ir_exposure_us(100)` is
`u16_le(100 * 31200 / 1000)`. -/
def ir_test_config : IrConfig :=
  { fixed := ir_config_30p,
    live :=
      { exposure := u16_le (100 * 31200 / 1000),
        leds := 0b00100000 ||| 0b10000000,
        intensity := (0x70, 0x70),
        ex_light_filter := 0x00,
        digi_gain := 1,
        denoise := (0, 0x7f, 0x7f),
        flip := 0 } }

/-- The size in bytes of the frame that the IR inspector assembles for a
configuration: `(ir_max_frag + 1) * 300`, the length `GetIrImage` clears. -/
def IrConfigFixed.frame_size (fixed : IrConfigFixed) : Nat := (fixed.fragments + 1) * 300

/-! ## The rumble encoding in the words of the specification -/

/-- The initialiser of `freq_h_hex` and of `freq_l_hex` in `CalcRumblef`:
`static_cast<uint8_t>(roundf(log2f(freq / 10.0f) * 32.0f))`. -/
def CalcRumblef.freq_hex {F : Type} (ops : FloatOps F) (freq : F) : Nat :=
  ops.to_uint8 (ops.roundf (ops.mul (ops.log2f (ops.div freq (ops.lit 10 1))) (ops.lit 32 1)))
    % 256

/-- The initialiser of `k_h` and of `k_l` in `CalcRumblef`:
`static_cast<uint8_t>(roundf(_freq_amp(amp)))`. -/
def CalcRumblef.amp_k {F : Type} (ops : FloatOps F) (amp : F) : Nat :=
  ops.to_uint8 (ops.roundf (_freq_amp ops amp)) % 256

/-- The four output bytes as the specification writes them, from the codes
`fH_hex`, `fL_hex`, `kH`, `kL`: `FH = (fH_hex - 0x60) << 2`,
`FL = fL_hex - 0x40`, `FH_amp = 2 * kH`,
`FL_amp = ((kL >> 1) | ((kL & 1) << 15)) + 0x40`, and the bytes `FH & 0xFF`,
`FH_amp | ((FH >> 8) & 0xFF)`, `FL | ((FL_amp >> 8) & 0xFF)`, `FL_amp & 0xFF`,
in unbounded arithmetic. -/
def CalcRumblef.spec (fH_hex fL_hex kH kL : Nat) : RumbleData :=
  let FH := (fH_hex - 0x60) <<< 2
  let FL := fL_hex - 0x40
  let FH_amp := 2 * kH
  let FL_amp := ((kL >>> 1) ||| ((kL &&& 1) <<< 15)) + 0x40
  { freq_h := FH &&& 0xFF,
    freq_h_amp := FH_amp ||| ((FH >>> 8) &&& 0xFF),
    freq_l := FL ||| ((FL_amp >>> 8) &&& 0xFF),
    freq_l_amp := FL_amp &&& 0xFF }

/-! ## `SetIrConfig` (`controller.cc`) -/

/-- The operations that `ControllerImpl::SetIrConfig` calls, with their
arguments; the sessions, the image buffer and the callback are the ones
`SetIrConfig` was given. -/
inductive IrStep where
  | Poll (type : Nat)
  | SetMcuState (state : Nat)
  | CheckMcuMode (mode : Nat)
  | SetMcuMode (mode : Nat)
  | SetMcuIrConfig_fixed (fixed : IrConfigFixed)
  | CheckMcuIrMode (mode : Nat)
  | SetMcuIrConfig_live (live : IrConfigLive)
  | GetIrImage (fixed : IrConfigFixed)
  deriving DecidableEq, Repr

/-- How a call ends: it returns a value, or an `assert` fails and `abort()`
ends the process. -/
inductive Exit where
  | returned (ret : Int)
  | assertion_failed
  deriving DecidableEq, Repr

/-- The macro `assert(cond)` of `<assert.h>`: it ends the process when `cond`
is false, unless `NDEBUG` is defined, in which case it does nothing. The
sources do not define `NDEBUG`. -/
def assert_fails (NDEBUG : Bool) (cond : Bool) : Bool := !NDEBUG && !cond

/-- The statements of `SetIrConfig` from the label `step_10` on. `results`
are the values that the operations still to be called return, in the order
of the calls (`none`: the list ends before the function does), `trace` the
operations called so far. -/
def SetIrConfig.step_10 (NDEBUG : Bool) (trace : List IrStep) :
    List Int → Option (Exit × List IrStep)
  | [] => none
  | ret :: results =>
    -- `ret = SetMcuState(MCU_STATE_SUSPEND, sessions...); assert(ret == DONE);`
    let trace := trace ++ [IrStep.SetMcuState MCU_STATE_SUSPEND]
    if assert_fails NDEBUG (decide (ret = DONE)) then some (Exit.assertion_failed, trace)
    else
      match results with
      | [] => none
      | ret :: _ =>
        -- `ret = Poll(POLL_STANDARD, sessions...); assert(ret == DONE); return ret;`
        let trace := trace ++ [IrStep.Poll POLL_STANDARD]
        if assert_fails NDEBUG (decide (ret = DONE)) then some (Exit.assertion_failed, trace)
        else some (Exit.returned ret, trace)

/-- The statements of `SetIrConfig` from the label `step_6` on. -/
def SetIrConfig.step_6 (NDEBUG : Bool) (config : IrConfig) :
    List Int → List IrStep → Option (Exit × List IrStep)
  | [], _ => none
  | ret :: results, trace =>
    -- `ret = CheckMcuIrMode(IR_MODE_IMG_TRANSFER, sessions...);`
    let trace := trace ++ [IrStep.CheckMcuIrMode IR_MODE_IMG_TRANSFER]
    if ret = TIMEDOUT then SetIrConfig.step_6 NDEBUG config results trace
    else if ret ≠ DONE then SetIrConfig.step_10 NDEBUG trace results
    else
      match results with
      | [] => none
      | ret :: results =>
        -- `ret = SetMcuIrConfig(config.live, sessions...); assert(ret == DONE);`
        let trace := trace ++ [IrStep.SetMcuIrConfig_live config.live]
        if assert_fails NDEBUG (decide (ret = DONE)) then some (Exit.assertion_failed, trace)
        else
          match results with
          | [] => none
          | _ret :: results =>
            -- `ret = GetIrImage(config.fixed, image, cb, sessions...);`
            SetIrConfig.step_10 NDEBUG (trace ++ [IrStep.GetIrImage config.fixed]) results

/-- The statements of `SetIrConfig` between `SetMcuMode(MCU_MODE_IR)` and the
label `step_6`. -/
def SetIrConfig.step_3 (NDEBUG : Bool) (config : IrConfig) (trace : List IrStep) :
    List Int → Option (Exit × List IrStep)
  | [] => none
  | ret :: results =>
    -- `ret = SetMcuMode(MCU_MODE_IR, sessions...); assert(ret == DONE);`
    let trace := trace ++ [IrStep.SetMcuMode MCU_MODE_IR]
    if assert_fails NDEBUG (decide (ret = DONE)) then some (Exit.assertion_failed, trace)
    else
      match results with
      | [] => none
      | ret :: results =>
        -- `ret = CheckMcuMode(MCU_MODE_IR, sessions...); assert(ret == DONE);`
        let trace := trace ++ [IrStep.CheckMcuMode MCU_MODE_IR]
        if assert_fails NDEBUG (decide (ret = DONE)) then some (Exit.assertion_failed, trace)
        else
          match results with
          | [] => none
          | ret :: results =>
            -- `ret = SetMcuIrConfig(config.fixed, sessions...); assert(ret == DONE);`
            let trace := trace ++ [IrStep.SetMcuIrConfig_fixed config.fixed]
            if assert_fails NDEBUG (decide (ret = DONE)) then
              some (Exit.assertion_failed, trace)
            else SetIrConfig.step_6 NDEBUG config results trace

/-- The statements of `SetIrConfig` from the label `step_2` on. -/
def SetIrConfig.step_2 (NDEBUG : Bool) (config : IrConfig) :
    List Int → List IrStep → Option (Exit × List IrStep)
  | [], _ => none
  | ret :: results, trace =>
    -- `ret = CheckMcuMode(MCU_MODE_STANDBY, sessions...);`
    let trace := trace ++ [IrStep.CheckMcuMode MCU_MODE_STANDBY]
    if ret = TIMEDOUT then SetIrConfig.step_2 NDEBUG config results trace
    else if ret ≠ DONE then SetIrConfig.step_10 NDEBUG trace results
    else SetIrConfig.step_3 NDEBUG config trace results

/-- The method `ControllerImpl::SetIrConfig(config, image, cb, sessions...)`
as the sequence of the operations it calls: `results` are the values these
return, in the order of the calls. The result is how the call ends and the
operations called, in order; `none` when `results` ends before the call does. -/
def ControllerImpl.SetIrConfig (NDEBUG : Bool) (config : IrConfig) :
    List Int → Option (Exit × List IrStep)
  | [] => none
  | ret :: results =>
    -- `ret = Poll(POLL_NFC_IR, sessions...); assert(ret == DONE);`
    let trace := [IrStep.Poll POLL_NFC_IR]
    if assert_fails NDEBUG (decide (ret = DONE)) then some (Exit.assertion_failed, trace)
    else
      match results with
      | [] => none
      | ret :: results =>
        -- `ret = SetMcuState(MCU_STATE_RESUME, sessions...); assert(ret == DONE);`
        let trace := trace ++ [IrStep.SetMcuState MCU_STATE_RESUME]
        if assert_fails NDEBUG (decide (ret = DONE)) then some (Exit.assertion_failed, trace)
        else SetIrConfig.step_2 NDEBUG config results trace

/-! ## The IR image inspector (`GetIrImage`, `controller.cc`) -/

/-- Macro `OUTPUT_REPORT_PHL`. -/
def OUTPUT_REPORT_PHL : Nat := 0x11

/-- Member `ir[i]` of `struct InputReport`: the extra part starts at byte 49. -/
def InputReport.ir (input : List Nat) (i : Nat) : Nat := input.getD (49 + i) 0

/-- The 300 bytes that `memmove(…, buffer->ir + 10, 300)` reads. -/
def InputReport.ir_payload (input : List Nat) : List Nat :=
  (List.range 300).map fun i => InputReport.ir input (10 + i)

/-- Macro `calc_crc8_03(buff)`: `subcmd_03.raw` is at bytes 11 to 46 of the
report and `subcmd_03.crc` at byte 47. The function `crc8` comes from
`crc8.h`, which is not part of the repository, and is a parameter. -/
def calc_crc8_03 (crc8 : List Nat → Nat) (buff : List Nat) : List Nat :=
  buff.set 47 (crc8 ((buff.drop 11).take 36))

/-- The content of `output_` that `GetIrImage` builds before it transmits. -/
def GetIrImage_output (crc8 : List Nat → Nat) (output_ : List Nat) : List Nat :=
  let o := bzero output_ OUTPUT_REPORT_SIZE
  -- `output_->id = OUTPUT_REPORT_PHL`
  let o := o.set 0 OUTPUT_REPORT_PHL
  -- `output_->subcmd_03 = SUBCMD_03_INIT`: bytes 10 to 48
  let o := store o 10 ([SUBCMD_03, POLL_STANDARD] ++ List.replicate 37 0)
  -- `output_->subcmd_03.poll_type = POLL_NFC_IR_CAM`
  let o := o.set 11 POLL_NFC_IR_CAM
  -- `output_->subcmd_03.tail = 0xff`
  let o := o.set 48 0xff
  calc_crc8_03 crc8 o

/-- The variables that the inspector of `GetIrImage` captures by reference
and writes: the locals `pre_frag_no` and `cur_frag_no`, the caller's `image`
and the report `output_`; `callback` is the state the callback `cb` works on
and `world` what the calls `Transmit(0, output_, nullptr, sessions...)`,
`Await()` work on. -/
structure IrInspector (κ ω : Type) where
  pre_frag_no : Nat
  cur_frag_no : Nat
  image : List Nat
  output_ : List Nat
  callback : κ
  world : ω

/-- The inspector of `GetIrImage`, applied to the captured variables `env`
and the inbound report `input`; the result is the returned value and the
variables afterwards. The sessions it transmits on are the ones that run it,
so what `Transmit(0, output_, nullptr, sessions...); Await();` does to
`output_` (the sessions write the timer byte) and to the sessions is the
parameter `transmit0`; a null `cb` is `none`. -/
def GetIrImage_inspector {κ ω : Type} (crc8 : List Nat → Nat)
    (transmit0 : List Nat → ω → List Nat × ω) (cb : Option (κ → Int × κ)) (ir_max_frag : Nat)
    (env : IrInspector κ ω) (input : List Nat) : Int × IrInspector κ ω :=
  if InputReport.id input = 0x31 ∧ InputReport.ir input 0 = 0x3 then
    -- `cur_frag_no = buffer->ir[3]`
    let cur_frag_no := InputReport.ir input 3
    let env := { env with cur_frag_no := cur_frag_no }
    -- `output_->subcmd_03.raw[3] = cur_frag_no; calc_crc8_03(output_);`
    -- `Transmit(0, output_, nullptr, sessions...); Await(); return AGAIN;`
    let ack (env : IrInspector κ ω) : Int × IrInspector κ ω :=
      let r := transmit0 (calc_crc8_03 crc8 (env.output_.set 14 (cur_frag_no % 256))) env.world
      (AGAIN, { env with output_ := r.1, world := r.2 })
    if cur_frag_no = 0 then
      -- fragment begin
      ack { env with
            pre_frag_no := 0,
            image := store env.image (300 * cur_frag_no) (InputReport.ir_payload input) }
    else if cur_frag_no = env.pre_frag_no then
      -- duplicated
      ack env
    else if cur_frag_no = ir_max_frag then
      -- fragment end
      let env := { env with
                   pre_frag_no := cur_frag_no,
                   image := store env.image (300 * cur_frag_no) (InputReport.ir_payload input) }
      match cb with
      | some f =>
        -- `if (cb && cb() != 0) return DONE;`
        let r := f env.callback
        let env := { env with callback := r.2 }
        if r.1 ≠ 0 then (DONE, env)
        else ack { env with image := bzero env.image ((ir_max_frag + 1) * 300) }
      | none => ack { env with image := bzero env.image ((ir_max_frag + 1) * 300) }
    else if cur_frag_no = env.pre_frag_no + 1 then
      -- fragment next
      ack { env with
            pre_frag_no := cur_frag_no,
            image := store env.image (300 * cur_frag_no) (InputReport.ir_payload input) }
    else ack env
  else if InputReport.id input = 0x31 then
    let output_ :=
      if InputReport.ir input 0 = 0xff then
        -- send ACK again: `raw[1] = 0x0; raw[2] = 0x0; raw[3] = pre_frag_no`
        ((env.output_.set 12 0x0).set 13 0x0).set 14 (env.pre_frag_no % 256)
      else if InputReport.ir input 0 = 0x0 then
        -- request missed frag: `raw[1] = 0x1; raw[2] = pre_frag_no + 1; raw[3] = 0x0`
        ((env.output_.set 12 0x1).set 13 ((env.pre_frag_no + 1) % 256)).set 14 0x0
      else env.output_
    let r := transmit0 (calc_crc8_03 crc8 output_) env.world
    (AGAIN, { env with output_ := r.1, world := r.2 })
  else (WAITING, env)

/-- The inspector of `GetIrImage` applied to the reports of a list, one after
the other: the values it returns and the captured variables at the end. -/
def GetIrImage_inspector.run {κ ω : Type} (crc8 : List Nat → Nat)
    (transmit0 : List Nat → ω → List Nat × ω) (cb : Option (κ → Int × κ)) (ir_max_frag : Nat) :
    IrInspector κ ω → List (List Nat) → List Int × IrInspector κ ω
  | env, [] => ([], env)
  | env, input :: rest =>
    let r := GetIrImage_inspector crc8 transmit0 cb ir_max_frag env input
    let q := GetIrImage_inspector.run crc8 transmit0 cb ir_max_frag r.2 rest
    (r.1 :: q.1, q.2)

/-- Modelled from the spec: the synthetic report of fragment `i` that the
fragment test injects, `id = 0x31`, `ir[0] = 0x03`, `ir[3] = i`,
`ir[10..310) = i`, all other bytes 0, 362 bytes. -/
def ir_test_report (i : Nat) : List Nat :=
  [0x31] ++ List.replicate 48 0 ++ [0x03, 0, 0, i] ++ List.replicate 6 0
    ++ List.replicate 300 i ++ List.replicate 3 0

/-- Modelled from the spec: the state in which the fragment test starts the
inspector: `pre_frag_no = 0`, an image buffer of 1200 bytes `0xEE`, the
report of `GetIrImage` in `output_`, a callback that has not been called and
nothing transmitted. -/
def ir_test_env (crc8 : List Nat → Nat) : IrInspector Nat (List (List Nat)) :=
  { pre_frag_no := 0,
    cur_frag_no := 0,
    image := List.replicate 1200 0xEE,
    output_ := GetIrImage_output crc8 (List.replicate 49 0),
    callback := 0,
    world := [] }

/-! ## MCU commands and polls: the reports (`controller.cc`, `output_report.h`) -/

/-- Macro `SUBCMD_21`. -/
def SUBCMD_21 : Nat := 0x21

/-- Enumerator `MCU_CMD_SET_MODE` of `enum McuCmd`. -/
def MCU_CMD_SET_MODE : Nat := 0x21

/-- Enumerator `MCU_CMD_WRITE` of `enum McuCmd`. -/
def MCU_CMD_WRITE : Nat := 0x23

/-- Enumerator `MCU_SET_IR_MODE` of `enum McuSubcmd`. -/
def MCU_SET_IR_MODE : Nat := 0x1

/-- Enumerator `MCU_SET_IR_REG` of `enum McuSubcmd`. -/
def MCU_SET_IR_REG : Nat := 0x4

/-- Enumerator `POLL_NFC_IR_DATA` of `enum PollType`. -/
def POLL_NFC_IR_DATA : Nat := 0x2

/-- Macro `calc_crc8_21(buff)`: `subcmd_21.raw` is at bytes 12 to 47 of the
report and `subcmd_21.crc` at byte 48; `crc8` is a parameter, as in
`calc_crc8_03`. -/
def calc_crc8_21 (crc8 : List Nat → Nat) (buff : List Nat) : List Nat :=
  buff.set 48 (crc8 ((buff.drop 12).take 36))

/-- The content of `output_` that `ControllerImpl::Poll(type, sessions...)`
builds. -/
def Poll_output (output_ : List Nat) (type : Nat) : List Nat :=
  let o := bzero output_ OUTPUT_REPORT_SIZE
  -- `output_->id = OUTPUT_REPORT_CMD`
  let o := o.set 0 OUTPUT_REPORT_CMD
  -- `output_->subcmd_03 = SUBCMD_03_INIT`: bytes 10 to 48
  let o := store o 10 ([SUBCMD_03, POLL_STANDARD] ++ List.replicate 37 0)
  -- `output_->subcmd_03.poll_type = type`
  o.set 11 (type % 256)

/-- The content of `output_` that `ControllerImpl::CheckMcuIrMode` builds. -/
def CheckMcuIrMode_output (crc8 : List Nat → Nat) (output_ : List Nat) : List Nat :=
  let o := bzero output_ OUTPUT_REPORT_SIZE
  -- `output_->id = OUTPUT_REPORT_PHL`
  let o := o.set 0 OUTPUT_REPORT_PHL
  -- `output_->subcmd_03 = SUBCMD_03_INIT`
  let o := store o 10 ([SUBCMD_03, POLL_STANDARD] ++ List.replicate 37 0)
  -- `output_->subcmd_03.poll_type = POLL_NFC_IR_DATA`
  let o := o.set 11 POLL_NFC_IR_DATA
  -- `output_->subcmd_03.tail = 0xff`
  let o := o.set 48 0xff
  calc_crc8_03 crc8 o

/-- The content of `output_` that `ControllerImpl::SetMcuMode(mode, sessions...)`
builds. -/
def SetMcuMode_output (crc8 : List Nat → Nat) (output_ : List Nat) (mode : Nat) : List Nat :=
  let o := bzero output_ OUTPUT_REPORT_SIZE
  -- `output_->id = OUTPUT_REPORT_CMD`
  let o := o.set 0 OUTPUT_REPORT_CMD
  -- `output_->subcmd_21 = SUBCMD_21_INIT`: bytes 10 to 48
  let o := store o 10 ([SUBCMD_21, 0] ++ List.replicate 37 0)
  -- `output_->subcmd_21.subcmd = MCU_CMD_SET_MODE`
  let o := o.set 11 MCU_CMD_SET_MODE
  -- `output_->subcmd_21.mcu_subcmd = McuSubcmd(0)`
  let o := o.set 12 0
  -- `output_->subcmd_21.mcu_mode = mode`
  let o := o.set 13 (mode % 256)
  calc_crc8_21 crc8 o

/-- The content of `output_` that `ControllerImpl::SetMcuIrConfig(fixed, sessions...)`
builds for its own transmit. -/
def SetMcuIrConfig_output (crc8 : List Nat → Nat) (output_ : List Nat) (fixed : IrConfigFixed) :
    List Nat :=
  let o := bzero output_ OUTPUT_REPORT_SIZE
  let o := o.set 0 OUTPUT_REPORT_CMD
  let o := store o 10 ([SUBCMD_21, 0] ++ List.replicate 37 0)
  -- `output_->subcmd_21.subcmd = MCU_CMD_WRITE`
  let o := o.set 11 MCU_CMD_WRITE
  -- `output_->subcmd_21.mcu_subcmd = MCU_SET_IR_MODE`
  let o := o.set 12 MCU_SET_IR_MODE
  -- `output_->subcmd_21.mcu_ir_mode = fixed.mode`
  let o := o.set 13 (fixed.mode % 256)
  -- `output_->subcmd_21.mcu_fragments = fixed.fragments`
  let o := o.set 14 (fixed.fragments % 256)
  -- `output_->subcmd_21.mcu_major_v = fixed.major`
  let o := store o 15 [fixed.major.1, fixed.major.2]
  -- `output_->subcmd_21.mcu_minor_v = fixed.minor`
  let o := store o 17 [fixed.minor.1, fixed.minor.2]
  calc_crc8_21 crc8 o

/-- The type `struct McuReg` of `mcu.h`: three bytes. -/
structure McuReg where
  address : Nat × Nat
  value : Nat
  deriving DecidableEq, Repr

/-- Macro `set_reg(a, v)`: `{ u16_be(a), (uint8_t)(v) }`. -/
def set_reg (a v : Nat) : McuReg := { address := u16_be a, value := v % 256 }

/-- The bytes of a `struct McuReg` in memory: the address, high byte first,
then the value. -/
def McuReg.bytes (r : McuReg) : List Nat := [r.address.1, r.address.2, r.value]

/-- The content of `output_` that `ControllerImpl::SetMcuIrRegisters` builds
before its loop. -/
def SetMcuIrRegisters_output (output_ : List Nat) : List Nat :=
  let o := bzero output_ OUTPUT_REPORT_SIZE
  let o := o.set 0 OUTPUT_REPORT_CMD
  let o := store o 10 ([SUBCMD_21, 0] ++ List.replicate 37 0)
  -- `output_->subcmd_21.subcmd = MCU_CMD_WRITE`
  let o := o.set 11 MCU_CMD_WRITE
  -- `output_->subcmd_21.mcu_subcmd = MCU_SET_IR_REG`
  o.set 12 MCU_SET_IR_REG

/-- The statements of the loop body of `SetMcuIrRegisters` that write
`output_`, for the current `count` and `trunk`; `dist` is
`output_->subcmd_21.reg`, at byte 14. -/
def SetMcuIrRegisters.body (crc8 : List Nat → Nat) (regs : List McuReg) (count trunk : Nat)
    (output_ : List Nat) : List Nat :=
  -- `output_->subcmd_21.mcu_reg_size = trunk`
  let o := output_.set 13 trunk
  -- `bzero(dist, sizeof(McuReg) * 9)`
  let o := store o 14 (List.replicate (3 * 9) 0)
  -- `memmove(dist, regs + count, sizeof(McuReg) * trunk)`
  let o := store o 14 (((regs.drop count).take trunk).flatMap McuReg.bytes)
  calc_crc8_21 crc8 o

/-- What a run of `SetMcuIrRegisters` leaves behind: the returned value, the
reports handed to `Transmit`, in order, `output_` and the rest of the world. -/
structure McuRegisters (ω : Type) where
  ret : Int
  reports : List (List Nat)
  output_ : List Nat
  world : ω

/-- The loop `while (count < size)` of `SetMcuIrRegisters`. The calls
`Transmit(RETRY, output_, inspector, sessions...); ret = Await();` are the
parameter `transmit`, which yields the value of `ret`, `output_` afterwards
(the sessions write the timer byte) and the world afterwards. The counter
`count` is an `int` in the source; it never exceeds `size`. -/
def SetMcuIrRegisters.loop {ω : Type} (crc8 : List Nat → Nat)
    (transmit : List Nat → ω → Int × List Nat × ω) (regs : List McuReg) (size : Nat)
    (count : Nat) (output_ : List Nat) (ret : Int) (w : ω) : McuRegisters ω :=
  if count < size then
    -- `trunk = (uint8_t)min(size_t(9), size - count)`
    let trunk := min 9 (size - count) % 256
    let o := SetMcuIrRegisters.body crc8 regs count trunk output_
    let r := transmit o w
    if r.1 ≠ DONE then
      -- `break`
      { ret := r.1, reports := [o], output_ := r.2.1, world := r.2.2 }
    else
      let rest := SetMcuIrRegisters.loop crc8 transmit regs size (count + trunk) r.2.1 r.1 r.2.2
      { rest with reports := o :: rest.reports }
  else { ret := ret, reports := [], output_ := output_, world := w }
termination_by size - count
decreasing_by
  omega

/-- The method `ControllerImpl::SetMcuIrRegisters(regs, size, sessions...)`. -/
def ControllerImpl.SetMcuIrRegisters {ω : Type} (crc8 : List Nat → Nat)
    (transmit : List Nat → ω → Int × List Nat × ω) (c : ControllerImpl) (regs : List McuReg)
    (size : Nat) (w : ω) : McuRegisters ω :=
  SetMcuIrRegisters.loop crc8 transmit regs size 0 (SetMcuIrRegisters_output c.output_) 0 w

/-- The chunks of a register list as the specification lists them: chunk `j`
holds the registers `9 j` to `9 j + min(9, n - 9 j) - 1`, for
`j = 0, …, ceil(n / 9) - 1`. -/
def SetMcuIrRegisters.chunks (regs : List McuReg) : List (List McuReg) :=
  (List.range ((regs.length + 8) / 9)).map fun j => (regs.drop (9 * j)).take 9

/-- The report of one chunk in the words of the specification: `mcu_reg_size`
(byte 13) is the number of registers of the chunk, the register slots (bytes
14 to 40) hold the registers in order, address high byte first, then the
value, the unused slots are zero, and the checksum is renewed. -/
def SetMcuIrRegisters.chunk_report (crc8 : List Nat → Nat) (output_ : List Nat)
    (chunk : List McuReg) : List Nat :=
  calc_crc8_21 crc8
    (store (output_.set 13 chunk.length) 14
      (chunk.flatMap McuReg.bytes ++ List.replicate (27 - 3 * chunk.length) 0))

/-- The behaviour of `SetMcuIrRegisters` in the words of the specification,
over the list of chunks: one report per chunk, in order; the run stops at
the first result that is not `DONE` and returns it; with no chunk nothing is
sent and `ret` is returned as it is. -/
def SetMcuIrRegisters.spec {ω : Type} (crc8 : List Nat → Nat)
    (transmit : List Nat → ω → Int × List Nat × ω) :
    List (List McuReg) → List Nat → Int → ω → McuRegisters ω
  | [], output_, ret, w => { ret := ret, reports := [], output_ := output_, world := w }
  | chunk :: rest, output_, _, w =>
    let o := SetMcuIrRegisters.chunk_report crc8 output_ chunk
    let r := transmit o w
    if r.1 ≠ DONE then { ret := r.1, reports := [o], output_ := r.2.1, world := r.2.2 }
    else
      let q := SetMcuIrRegisters.spec crc8 transmit rest r.2.1 r.1 r.2.2
      { q with reports := o :: q.reports }

/-- Modelled from the spec: a CRC-8 in the place of the function `crc8` of
`crc8.h`, which is not part of the repository: bit by bit, polynomial
`x^8 + x^2 + x + 1`, initial value 0. The theorems that use it need only that
it is not 0 on the report at hand. -/
def crc8_bitwise (bytes : List Nat) : Nat :=
  bytes.foldl
    (fun crc b =>
      (List.range 8).foldl
        (fun c _ => if c &&& 0x80 ≠ 0 then ((c <<< 1) ^^^ 0x07) % 256 else (c <<< 1) % 256)
        ((crc ^^^ b) % 256))
    0

/-! ## The rumble encoding: the codes in the words of the specification and
the accuracy of the arithmetic -/

/-- The amplitude transform `amp(a)` in the words of the specification:
`0.0005 * a²` for `a < 0.117471`, `log2(a * 17) * 16` for `a < 0.229908`,
`100` for `a > 1.0`, and `log2(a * 8.7) * 32` otherwise. -/
def CalcRumblef.amp {F : Type} (ops : FloatOps F) (a : F) : F :=
  if ops.lt a (ops.lit 117471 1000000) then ops.mul (ops.lit 5 10000) (ops.mul a a)
  else if ops.lt a (ops.lit 229908 1000000) then
    ops.mul (ops.log2f (ops.mul a (ops.lit 17 1))) (ops.lit 16 1)
  else if ops.lt (ops.lit 1 1) a then ops.lit 100 1
  else ops.mul (ops.log2f (ops.mul a (ops.lit 87 10))) (ops.lit 32 1)

/-- The integer `round(x)` of the specification. -/
def CalcRumblef.round {F : Type} (ops : FloatOps F) (x : F) : Nat :=
  ops.to_uint8 (ops.roundf x)

/-- The amplitude code of the specification: `round(amp(a))`. -/
def CalcRumblef.k {F : Type} (ops : FloatOps F) (a : F) : Nat :=
  CalcRumblef.round ops (CalcRumblef.amp ops a)

end controller

namespace session

/-! ## Theorems -/

theorem toInt32_of_range (x : Int) (h1 : -(2 ^ 31) ≤ x) (h2 : x < 2 ^ 31) : toInt32 x = x := by
  unfold toInt32
  omega

/-- A test with budget left whose inspector answers `WAITING`. -/
theorem Test_of_waiting {σ : Type} (t : Task σ) (g : Inspector σ) (b : List Nat)
    (h1 : 1 ≤ t.retry_) (h2 : t.retry_ < 2 ^ 31) (hi : t.inspector_ = some g)
    (hg : (g.call g.env b).1 = WAITING) :
    t.Test b = .ok (false,
      { t with retry_ := t.retry_ - 1,
               inspector_ := some { g with env := (g.call g.env b).2 } },
      [Event.inspect t.promise_.future]) := by
  have h3 : toInt32 (t.retry_ - 1) = t.retry_ - 1 := toInt32_of_range _ (by omega) (by omega)
  have h4 : ¬ t.retry_ < 1 := by omega
  simp [Task.Test, hi, hg, h3, h4, WAITING, DONE, AGAIN, EAGAIN]

/-- A test with no budget left on a pending promise. -/
theorem Test_of_exhausted {σ : Type} (t : Task σ) (b : List Nat)
    (h1 : t.retry_ < 1) (hp : t.promise_.value = none) :
    t.Test b = .ok (true,
      { t with retry_ := toInt32 (t.retry_ - 1),
               promise_ := { t.promise_ with value := some TIMEDOUT } },
      [Event.set_value t.promise_.future TIMEDOUT]) := by
  simp [Task.Test, h1, Promise.set_value, hp]

theorem Tests_of_waiting {σ : Type} (f : σ → List Nat → Int × σ)
    (hf : ∀ e b, (f e b).1 = WAITING) :
    ∀ (bufs : List (List Nat)) (k : Nat) (t : Task σ) (g : Inspector σ),
      k < 2 ^ 31 → t.retry_ = (k : Int) → t.promise_.value = none →
      t.inspector_ = some g → g.call = f →
      (bufs.length ≤ k → ∃ t1, t.Tests bufs =
          .ok (List.replicate bufs.length false, t1,
               List.replicate bufs.length (Event.inspect t.promise_.future))
          ∧ t1.promise_.value = none)
      ∧ (bufs.length = k + 1 → ∃ t1, t.Tests bufs =
          .ok (List.replicate k false ++ [true], t1,
               List.replicate k (Event.inspect t.promise_.future)
                 ++ [Event.set_value t.promise_.future TIMEDOUT])
          ∧ t1.promise_.value = some TIMEDOUT) := by
  intro bufs
  induction bufs with
  | nil =>
    intro k t g _ _ hp _ _
    refine ⟨fun _ => ⟨t, by simp [Task.Tests], hp⟩, fun h => ?_⟩
    simp at h
  | cons b bs ih =>
    intro k t g hk hr hp hi hc
    cases k with
    | zero =>
      refine ⟨fun h => by simp at h, fun h => ?_⟩
      have hbs : bs = [] := by
        cases bs with
        | nil => rfl
        | cons _ _ => simp at h
      subst hbs
      have h1 : t.retry_ < 1 := by rw [hr]; decide
      refine ⟨{ t with retry_ := toInt32 (t.retry_ - 1),
                       promise_ := { t.promise_ with value := some TIMEDOUT } }, ?_, rfl⟩
      simp [Task.Tests, Test_of_exhausted t b h1 hp]
    | succ k =>
      have h1 : 1 ≤ t.retry_ := by rw [hr]; push_cast; omega
      have h2 : t.retry_ < 2 ^ 31 := by rw [hr]; exact_mod_cast hk
      have hg : (g.call g.env b).1 = WAITING := by rw [hc]; exact hf _ _
      have hT := Test_of_waiting t g b h1 h2 hi hg
      have hrec := ih k
        { t with retry_ := t.retry_ - 1,
                 inspector_ := some { g with env := (g.call g.env b).2 } }
        { g with env := (g.call g.env b).2 } (by omega)
        (by simp [hr]) hp rfl hc
      constructor
      · intro hlen
        obtain ⟨t1, e1, p1⟩ := hrec.1 (by simpa using hlen)
        refine ⟨t1, ?_, p1⟩
        simp [Task.Tests, hT, e1, List.replicate_succ]
      · intro hlen
        obtain ⟨t1, e1, p1⟩ := hrec.2 (by simpa using hlen)
        refine ⟨t1, ?_, p1⟩
        simp [Task.Tests, hT, e1, List.replicate_succ]

/-- A test with budget left whose inspector answers `AGAIN`: the decrement is undone. -/
theorem Test_of_again {σ : Type} (t : Task σ) (g : Inspector σ) (b : List Nat)
    (h1 : 1 ≤ t.retry_) (h2 : t.retry_ < 2 ^ 31) (hi : t.inspector_ = some g)
    (hg : (g.call g.env b).1 = AGAIN) :
    t.Test b = .ok (false,
      { t with inspector_ := some { g with env := (g.call g.env b).2 } },
      [Event.inspect t.promise_.future]) := by
  have h3 : toInt32 (t.retry_ - 1) = t.retry_ - 1 := toInt32_of_range _ (by omega) (by omega)
  have h5 : toInt32 t.retry_ = t.retry_ := toInt32_of_range _ (by omega) (by omega)
  have h4 : ¬ t.retry_ < 1 := by omega
  simp [Task.Test, hi, hg, h3, h4, h5, DONE, AGAIN, EAGAIN]

theorem Tests_of_again {σ : Type} (f : σ → List Nat → Int × σ)
    (hf : ∀ e b, (f e b).1 = AGAIN) :
    ∀ (bufs : List (List Nat)) (t : Task σ) (g : Inspector σ),
      1 ≤ t.retry_ → t.retry_ < 2 ^ 31 → t.promise_.value = none →
      t.inspector_ = some g → g.call = f →
      ∃ t1, t.Tests bufs =
          .ok (List.replicate bufs.length false, t1,
               List.replicate bufs.length (Event.inspect t.promise_.future))
        ∧ t1.promise_.value = none ∧ t1.retry_ = t.retry_ := by
  intro bufs
  induction bufs with
  | nil =>
    intro t g _ _ hp _ _
    exact ⟨t, by simp [Task.Tests], hp, rfl⟩
  | cons b bs ih =>
    intro t g h1 h2 hp hi hc
    have hg : (g.call g.env b).1 = AGAIN := by rw [hc]; exact hf _ _
    have hT := Test_of_again t g b h1 h2 hi hg
    obtain ⟨t1, e1, p1, r1⟩ := ih
      { t with inspector_ := some { g with env := (g.call g.env b).2 } }
      { g with env := (g.call g.env b).2 } h1 h2 hp rfl hc
    refine ⟨t1, ?_, p1, r1⟩
    simp [Task.Tests, hT, e1, List.replicate_succ]

/-- C1: for every retry budget `n < 2^31`, a task reset with `retry = n` whose
inspector returns `WAITING` on every report is not terminal on its first `n`
tests (the inspector is invoked once on each, nothing is resolved) and
resolves `TIMEDOUT` on test `n + 1`, on which the inspector is not invoked. -/
theorem Task.retry_exhaustion {σ : Type} (n : Nat) (hn : n < 2 ^ 31) (t0 : Task σ) (fut : Nat)
    (f : Inspector σ) (hf : ∀ e b, (f.call e b).1 = WAITING) (bufs : List (List Nat)) :
    (bufs.length ≤ n → ∃ t1, (t0.Reset fut n (some f)).Tests bufs =
        .ok (List.replicate bufs.length false, t1,
             List.replicate bufs.length (Event.inspect fut))
        ∧ t1.promise_.value = none)
    ∧ (bufs.length = n + 1 → ∃ t1, (t0.Reset fut n (some f)).Tests bufs =
        .ok (List.replicate n false ++ [true], t1,
             List.replicate n (Event.inspect fut) ++ [Event.set_value fut TIMEDOUT])
        ∧ t1.promise_.value = some TIMEDOUT) := by
  have hr : (t0.Reset fut n (some f)).retry_ = (n : Int) := by
    simp only [Task.Reset]
    exact toInt32_of_range _ (by omega) (by exact_mod_cast hn)
  exact Tests_of_waiting f.call hf bufs n (t0.Reset fut n (some f)) f hn hr rfl rfl rfl

/-- The instance of C1 exercised by `test_session`: `retry = 5` and six reports. -/
theorem Task.retry_exhaustion_witness :
    (5 < 2 ^ 31) ∧ ∃ t1 : Task Unit,
      ((Task.new Unit 0).Reset 1 5 (some ⟨(), fun e _ => (WAITING, e)⟩)).Tests
          (List.replicate 6 []) =
        .ok (List.replicate 5 false ++ [true], t1,
             List.replicate 5 (Event.inspect 1) ++ [Event.set_value 1 TIMEDOUT])
        ∧ t1.promise_.value = some TIMEDOUT :=
  ⟨by decide,
   (Task.retry_exhaustion 5 (by decide) (Task.new Unit 0) 1 ⟨(), fun e _ => (WAITING, e)⟩
      (fun _ _ => rfl) (List.replicate 6 [])).2 (by simp)⟩

/-- Counterexample to C2 as stated: with a retry budget of 0 the first test
resolves `TIMEDOUT` and is terminal although the inspector would return
`AGAIN` on every report; so it is with the budget `2^31`, which `retry_`
holds as a negative `int`. -/
theorem Task.again_zero_budget_timedout :
    (∃ t1 : Task Unit,
      ((Task.new Unit 0).Reset 1 0 (some ⟨(), fun e _ => (AGAIN, e)⟩)).Tests [[]] =
        .ok ([true], t1, [Event.set_value 1 TIMEDOUT])
      ∧ t1.promise_.value = some TIMEDOUT)
    ∧ (∃ t1 : Task Unit,
      ((Task.new Unit 0).Reset 1 (2 ^ 31) (some ⟨(), fun e _ => (AGAIN, e)⟩)).Tests [[]] =
        .ok ([true], t1, [Event.set_value 1 TIMEDOUT])
      ∧ t1.promise_.value = some TIMEDOUT) :=
  ⟨⟨_, rfl, rfl⟩, ⟨_, rfl, rfl⟩⟩

/-- C2 (amended): for every retry budget `1 ≤ n < 2^31`, a task whose inspector
returns `AGAIN` on every report is never terminal and never resolved, whatever
the number of reports tested: each test invokes the inspector and leaves the
budget at `n`. -/
theorem Task.again_never_timedout {σ : Type} (n : Nat) (h1 : 1 ≤ n) (hn : n < 2 ^ 31)
    (t0 : Task σ) (fut : Nat) (f : Inspector σ) (hf : ∀ e b, (f.call e b).1 = AGAIN)
    (bufs : List (List Nat)) :
    ∃ t1, (t0.Reset fut n (some f)).Tests bufs =
        .ok (List.replicate bufs.length false, t1,
             List.replicate bufs.length (Event.inspect fut))
      ∧ t1.promise_.value = none ∧ t1.retry_ = (n : Int) := by
  have hr : (t0.Reset fut n (some f)).retry_ = (n : Int) := by
    simp only [Task.Reset]
    exact toInt32_of_range _ (by omega) (by exact_mod_cast hn)
  obtain ⟨t1, e1, p1, r1⟩ := Tests_of_again f.call hf bufs (t0.Reset fut n (some f)) f
    (by rw [hr]; exact_mod_cast h1) (by rw [hr]; exact_mod_cast hn) rfl rfl rfl
  exact ⟨t1, e1, p1, by rw [r1, hr]⟩

/-- An instance of the amended C2: budget 1, three reports. -/
theorem Task.again_never_timedout_witness :
    (1 ≤ 1) ∧ ∃ t1 : Task Unit,
      ((Task.new Unit 0).Reset 1 1 (some ⟨(), fun e _ => (AGAIN, e)⟩)).Tests [[], [], []] =
        .ok ([false, false, false], t1, [Event.inspect 1, Event.inspect 1, Event.inspect 1])
      ∧ t1.promise_.value = none ∧ t1.retry_ = 1 :=
  ⟨by decide,
   Task.again_never_timedout 1 (by decide) (by decide) (Task.new Unit 0) 1
     ⟨(), fun e _ => (AGAIN, e)⟩ (fun _ _ => rfl) [[], [], []]⟩

theorem clean_task_queue_of_pending {σ : Type} :
    ∀ q : List (Task σ), (∀ t ∈ q, t.promise_.value = none) →
      Session.clean_task_queue q =
        .ok (q.map (fun t => Event.set_value t.promise_.future ABORT)) := by
  intro q
  induction q with
  | nil => intro _; rfl
  | cons t rest ih =>
    intro h
    have ht : t.promise_.value = none := h t (List.mem_cons_self _ _)
    have hr := ih (fun u hu => h u (List.mem_cons_of_mem _ hu))
    simp [Session.clean_task_queue, Task.Abort, Promise.set_value, ht, hr]

/-- C4: destroying a session whose queued tasks are all still pending resolves
each of them with `ABORT`, in queue order, resolving nothing else, and leaves
the queue empty and the session not alive; and `Transmit` on a session that is
not alive resolves its future `ABORT`, sends nothing and leaves the session,
its queue included, as it was. -/
theorem Session.abort_on_shutdown {σ : Type} (s : Session σ) :
    ((∀ t ∈ s.task_queue_, t.promise_.value = none) →
      ∃ s1, s.destroy =
          .ok (s1, s.task_queue_.map (fun t => Event.set_value t.promise_.future ABORT))
        ∧ s1.task_queue_ = [] ∧ s1.is_alive_ = false)
    ∧ (s.is_alive_ = false →
      ∀ (sp : Task σ) (future retry : Nat) (buffer : Option (List Nat))
        (inspector : Option (Inspector σ)) (_timer : Nat),
        s.Transmit sp future retry buffer inspector _timer =
          .ok { session := s, buffer := buffer, _timer := _timer,
                task := { sp.Reset future retry inspector with
                          promise_ := { future := future, value := some ABORT } },
                events := [Event.set_value future ABORT] }) := by
  constructor
  · intro h
    refine ⟨{ s with is_alive_ := false, task_queue_ := [] }, ?_, rfl, rfl⟩
    simp [Session.destroy, clean_task_queue_of_pending s.task_queue_ h]
  · intro h sp future retry buffer inspector _timer
    simp [Session.Transmit, h, Task.Abort, Promise.set_value, Task.Reset]

/-- An instance of C4: a session with two pending tasks is destroyed, and a
`Transmit` is issued on a session that is not alive. -/
theorem Session.abort_on_shutdown_witness :
    (∃ s1 : Session Unit,
      ({ Session.new Unit ⟨none, 49, 64⟩ with
          task_queue_ := [(Task.new Unit 0).Reset 1 5 none, (Task.new Unit 0).Reset 2 5 none] }
        : Session Unit).destroy
        = .ok (s1, [Event.set_value 1 ABORT, Event.set_value 2 ABORT])
      ∧ s1.task_queue_ = [] ∧ s1.is_alive_ = false)
    ∧ (∃ r : Transmitted Unit,
      ({ Session.new Unit ⟨none, 49, 64⟩ with is_alive_ := false } : Session Unit).Transmit
          (Task.new Unit 0) 3 10 (some [1, 0]) none 0 = .ok r
      ∧ r.events = [Event.set_value 3 ABORT] ∧ r.session.task_queue_ = []) :=
  ⟨(Session.abort_on_shutdown
      ({ Session.new Unit ⟨none, 49, 64⟩ with
          task_queue_ := [(Task.new Unit 0).Reset 1 5 none, (Task.new Unit 0).Reset 2 5 none] }
        : Session Unit)).1
      (by intro t ht; simp [Session.new] at ht; rcases ht with h | h <;> subst h <;> rfl),
   ⟨_, (Session.abort_on_shutdown
      ({ Session.new Unit ⟨none, 49, 64⟩ with is_alive_ := false } : Session Unit)).2 rfl
      (Task.new Unit 0) 3 10 (some [1, 0]) none 0, rfl, rfl⟩⟩

/-- C6: on a live session, `Transmit` without an inspector leaves the task
queue (and the whole session) unchanged and resolves its future `DONE`, both
with no bytes, when nothing is sent, and with bytes (push type `FREE`) when the
transport send returns a non-negative value; in push type `TIMED`, where the
bytes are copied for the push thread once the semaphore is taken, the queue
is unchanged and the future resolves `DONE` as well. -/
theorem Session.transmit_without_inspector {σ : Type} (s : Session σ) (h : s.is_alive_ = true)
    (sp : Task σ) (future retry : Nat) (_timer : Nat) :
    s.Transmit sp future retry none none _timer =
        .ok { session := s, buffer := none, _timer := _timer,
              task := { sp.Reset future retry none with
                        promise_ := { future := future, value := some DONE } },
              events := [Event.set_value future DONE] }
    ∧ (∀ (b : List Nat) (f : List Nat → Int), s.push_type_ = PushType.FREE →
        s.remote_.sender = some f → 0 ≤ f ((b.set 1 (TIMER _timer)).take s.remote_.send_size) →
        s.Transmit sp future retry (some b) none _timer =
          .ok { session := s, buffer := some (b.set 1 (TIMER _timer)), _timer := TIMER _timer,
                task := { sp.Reset future retry none with
                          promise_ := { future := future, value := some DONE } },
                events := [Event.sender ((b.set 1 (TIMER _timer)).take s.remote_.send_size),
                           Event.set_value future DONE] })
    ∧ (∀ b : List Nat, s.push_type_ = PushType.TIMED → 0 < s.push_sem_ →
        ∃ r, s.Transmit sp future retry (some b) none _timer = .ok r
          ∧ r.session.task_queue_ = s.task_queue_
          ∧ r.events = [Event.set_value future DONE]) := by
  refine ⟨?_, ?_, ?_⟩
  · simp [Session.Transmit, h, Task.Done, Promise.set_value, Task.Reset]
  · intro b f hp hs hf
    have hf1 : ¬ f ((b.set 1 (TIMER _timer)).take s.remote_.send_size) < 0 := by omega
    simp [Session.Transmit, h, hp, Session.Send, hs, hf1, Task.Done, Promise.set_value,
      Task.Reset]
  · intro b hp hsem
    have h0 : s.push_sem_ ≠ 0 := by omega
    simp [Session.Transmit, h, hp, h0, Task.Done, Promise.set_value, Task.Reset]

/-- An instance of C6 on a new session whose transport accepts every report. -/
theorem Session.transmit_without_inspector_witness :
    ∃ r : Transmitted Unit,
      (Session.new Unit ⟨some (fun bytes => (bytes.length : Int)), 4, 64⟩).Transmit
          (Task.new Unit 0) 1 10 (some [1, 0, 0, 0]) none 0 = .ok r
      ∧ r.events = [Event.sender [1, 1, 0, 0], Event.set_value 1 DONE]
      ∧ r.session.task_queue_ = [] :=
  ⟨_, (Session.transmit_without_inspector
        (Session.new Unit ⟨some (fun bytes => (bytes.length : Int)), 4, 64⟩) rfl
        (Task.new Unit 0) 1 10 0).2.1 [1, 0, 0, 0] (fun bytes => (bytes.length : Int)) rfl rfl
        (by decide), rfl, rfl⟩

/-- C7 (the code at the failing inputs): when the transport send returns a
negative value, `Transmit` calls `Error()` and then carries on. Without an
inspector it calls `Done()` on the promise that `Error()` has just satisfied,
which throws; with an inspector the task is queued with its promise already
satisfied, so the destructor, whose `Abort()` sets it a second time, throws,
and so does a poll step on which the inspector returns `DONE`. -/
theorem Session.transmit_send_failure :
    (Session.new Unit ⟨some (fun _ => -1), 4, 64⟩).Transmit
        (Task.new Unit 0) 1 10 (some [1, 0, 0, 0]) none 0
      = .error Fault.promise_already_satisfied
    ∧ ∃ r : Transmitted Unit,
        (Session.new Unit ⟨some (fun _ => -1), 4, 64⟩).Transmit
            (Task.new Unit 0) 1 10 (some [1, 0, 0, 0]) (some ⟨(), fun e _ => (DONE, e)⟩) 0
          = .ok r
        ∧ r.events = [Event.sender [1, 1, 0, 0], Event.set_value 1 ERROR]
        ∧ r.session.task_queue_.map (fun t => t.promise_) = [⟨1, some ERROR⟩]
        ∧ r.session.destroy = .error Fault.promise_already_satisfied
        ∧ r.session.Poll 64 [] = .error Fault.promise_already_satisfied :=
  ⟨rfl, _, rfl, rfl, rfl, rfl, rfl⟩

theorem TIMER_eq (t : Nat) (ht : t < 256) : TIMER t = (t + 1) % 256 := by
  unfold TIMER
  split <;> omega

theorem Sends_events {σ : Type} (s : Session σ) (f : List Nat → Int)
    (hs : s.remote_.sender = some f) :
    ∀ (bs : List (List Nat)) (k : Nat),
      s.Sends bs (k % 256) =
        ((k + bs.length) % 256,
         (List.range bs.length).map (fun i =>
           Event.sender (((bs.getD i []).set 1 ((k + i + 1) % 256)).take s.remote_.send_size)))
    := by
  intro bs
  induction bs with
  | nil => intro k; simp [Session.Sends]
  | cons b bs ih =>
    intro k
    have h1 : TIMER (k % 256) = (k + 1) % 256 := by
      rw [TIMER_eq _ (Nat.mod_lt _ (by decide))]; omega
    have h2 := ih (k + 1)
    simp only [Session.Sends, Session.Send, hs, h1, h2]
    refine Prod.ext ?_ ?_
    · simp only [List.length_cons]; congr 1; omega
    · simp only [List.length_cons, List.range_succ_eq_map, List.map_cons, List.map_map,
        List.singleton_append, List.getD_cons_zero]
      congr 1
      apply List.map_congr_left
      intro i _
      simp only [Function.comp, List.getD_cons_succ]
      congr 3
      omega

theorem take_set_one (b : List Nat) (n x : Nat) :
    (b.set 1 x).take n = if 2 ≤ n then (b.take n).set 1 x else b.take n := by
  match b, n with
  | [], n => simp
  | [a], 0 => simp
  | [a], n + 1 => simp
  | a :: c :: rest, 0 => simp
  | a :: c :: rest, 1 => simp
  | a :: c :: rest, n + 2 => simp

/-- C8: with a sender present, `Send` hands the transport the first
`send_size` bytes the caller supplied with byte 1 replaced by the timer
`(t + 1) mod 256`, where `t` is the previous `_timer`, and stores that timer
as the new `_timer`; so, from `_timer = 0`, the `k`-th report sent carries
`k mod 256` in byte 1, and after `0xFF` the timer is `0x00`. -/
theorem Session.send_timer {σ : Type} (s : Session σ) (f : List Nat → Int)
    (hs : s.remote_.sender = some f) (hn : 2 ≤ s.remote_.send_size) :
    (∀ (b : List Nat) (t : Nat), t < 256 →
      (s.Send b t).2.2.1 = (t + 1) % 256
      ∧ (s.Send b t).2.2.2 =
          [Event.sender ((b.take s.remote_.send_size).set 1 ((t + 1) % 256))]
      ∧ (2 ≤ b.length →
          ((b.take s.remote_.send_size).set 1 ((t + 1) % 256))[1]? = some ((t + 1) % 256))
      ∧ ∀ j, j ≠ 1 →
          ((b.take s.remote_.send_size).set 1 ((t + 1) % 256))[j]?
            = (b.take s.remote_.send_size)[j]?)
    ∧ (∀ bs : List (List Nat),
        s.Sends bs 0 =
          (bs.length % 256,
           (List.range bs.length).map (fun i =>
             Event.sender
               (((bs.getD i []).take s.remote_.send_size).set 1 ((i + 1) % 256)))))
    ∧ TIMER 0xff = 0 := by
  refine ⟨?_, ?_, by decide⟩
  · intro b t ht
    have h1 := TIMER_eq t ht
    refine ⟨by simp [Session.Send, hs, h1], ?_, ?_, ?_⟩
    · simp [Session.Send, hs, h1, take_set_one, hn]
    · intro hb
      simp only [List.getElem?_set, List.length_take, if_true]
      rw [if_pos (by omega)]
    · intro j hj
      simp [List.getElem?_set, Ne.symm hj]
  · intro bs
    have h := Sends_events s f hs bs 0
    simp only [Nat.zero_mod, Nat.zero_add] at h
    rw [h]
    refine Prod.ext rfl ?_
    apply List.map_congr_left
    intro i _
    simp [take_set_one, hn]

/-- An instance of C8: three reports sent on a new session from `_timer = 0`
carry the timers 1, 2, 3 and are otherwise unchanged. -/
theorem Session.send_timer_witness :
    (Session.new Unit ⟨some (fun _ => 4), 4, 64⟩).Sends
        [[9, 0, 7, 7], [8, 0, 6, 6], [5, 0, 3, 3]] 0
      = (3, [Event.sender [9, 1, 7, 7], Event.sender [8, 2, 6, 6], Event.sender [5, 3, 3, 3]]) :=
  ((Session.send_timer (Session.new Unit ⟨some (fun _ => 4), 4, 64⟩) (fun _ => 4) rfl
      (by decide)).2.1 [[9, 0, 7, 7], [8, 0, 6, 6], [5, 0, 3, 3]]).trans (by decide)

/-- A test with budget left on a pending promise whose inspector answers `DONE`. -/
theorem Test_of_done {σ : Type} (t : Task σ) (g : Inspector σ) (b : List Nat)
    (h1 : 1 ≤ t.retry_) (hp : t.promise_.value = none) (hi : t.inspector_ = some g)
    (hg : (g.call g.env b).1 = DONE) :
    t.Test b = .ok (true,
      { t with retry_ := toInt32 (t.retry_ - 1),
               inspector_ := some { g with env := (g.call g.env b).2 },
               promise_ := { t.promise_ with value := some DONE } },
      [Event.inspect t.promise_.future, Event.set_value t.promise_.future DONE]) := by
  have h4 : ¬ t.retry_ < 1 := by omega
  simp [Task.Test, hi, hg, h4, Promise.set_value, hp]

theorem test_queue_of_tests {σ : Type} (b : List Nat) :
    ∀ (q : List (Task σ)) (rs : List (Bool × Task σ × List Event)),
      List.Forall₂ (fun t r => t.Test b = .ok r) q rs →
      Session.test_queue b q =
        .ok ((rs.filter (fun r => !r.1)).map (fun r => r.2.1),
             (rs.map (fun r => r.2.2)).flatten) := by
  intro q
  induction q with
  | nil =>
    intro rs h
    cases h
    rfl
  | cons t rest ih =>
    intro rs h
    cases h with
    | cons h1 h2 =>
      rename_i r rs1
      obtain ⟨terminal, t1, ev⟩ := r
      cases terminal <;> simp [Session.test_queue, h1, ih rs1 h2]

/-- A live session queues a task that has an inspector and no bytes. -/
theorem Transmit_of_inspector {σ : Type} (s : Session σ) (h : s.is_alive_ = true)
    (sp : Task σ) (future retry : Nat) (g : Inspector σ) (_timer : Nat) :
    s.Transmit sp future retry none (some g) _timer =
      .ok { session := { s with task_queue_ := s.task_queue_ ++ [sp.Reset future retry (some g)] },
            buffer := none, _timer := _timer,
            task := sp.Reset future retry (some g),
            events := [] } := by
  simp [Session.Transmit, h, Session.Append]

theorem Poll_of_tests {σ : Type} (s : Session σ) (ret : Int) (hret : 0 ≤ ret) (b : List Nat)
    (rs : List (Bool × Task σ × List Event))
    (h : List.Forall₂ (fun t r => t.Test b = .ok r) s.task_queue_ rs) :
    s.Poll ret b =
      .ok ({ s with task_queue_ := (rs.filter (fun r => !r.1)).map (fun r => r.2.1) },
           (rs.map (fun r => r.2.2)).flatten) := by
  have hret1 : ¬ ret < 0 := by omega
  cases hq : s.task_queue_ with
  | nil =>
    rw [hq] at h
    cases h
    simp only [Session.Poll, hret1, hq, if_false, List.isEmpty_nil, if_true, List.filter_nil,
      List.map_nil, List.flatten_nil]
    cases s
    simp only at hq
    subst hq
    rfl
  | cons t rest =>
    rw [hq] at h
    have h1 := test_queue_of_tests b (t :: rest) rs h
    simp only [Session.Poll, hret1, hq, if_false, List.isEmpty_cons, h1]
    simp

/-- C3: on an inbound report (`Recv` returned a non-negative value) the poll
step tests every queued task on that report, in queue order, whether or not an
earlier task was terminal: the events are those of the tasks' tests in queue
order and the new queue holds the non-terminal tasks in order. Consequently,
for two tasks queued in that order with budgets at least 1 whose inspectors
return `DONE` on every report, the next poll step resolves the first `DONE`
before the inspector of the second is invoked, and resolves the second too. -/
theorem Session.dispatch_order {σ : Type} (s : Session σ) (ret : Int) (hret : 0 ≤ ret)
    (b : List Nat) :
    (∀ rs : List (Bool × Task σ × List Event),
      List.Forall₂ (fun t r => t.Test b = .ok r) s.task_queue_ rs →
      s.Poll ret b =
        .ok ({ s with task_queue_ := (rs.filter (fun r => !r.1)).map (fun r => r.2.1) },
             (rs.map (fun r => r.2.2)).flatten))
    ∧ (s.is_alive_ = true → s.task_queue_ = [] →
      ∀ (sp1 sp2 : Task σ) (f1 f2 n1 n2 : Nat) (g1 g2 : Inspector σ) (_timer : Nat),
        1 ≤ n1 → n1 < 2 ^ 31 → 1 ≤ n2 → n2 < 2 ^ 31 →
        (∀ e r, (g1.call e r).1 = DONE) → (∀ e r, (g2.call e r).1 = DONE) →
        ∃ r1 r2 s3,
          s.Transmit sp1 f1 n1 none (some g1) _timer = .ok r1
          ∧ r1.session.Transmit sp2 f2 n2 none (some g2) r1._timer = .ok r2
          ∧ r2.session.task_queue_.map (fun t => t.promise_) = [⟨f1, none⟩, ⟨f2, none⟩]
          ∧ r2.session.Poll ret b =
              .ok (s3, [Event.inspect f1, Event.set_value f1 DONE,
                        Event.inspect f2, Event.set_value f2 DONE])
          ∧ s3.task_queue_ = []) := by
  refine ⟨fun rs h => Poll_of_tests s ret hret b rs h, ?_⟩
  intro ha hq sp1 sp2 f1 f2 n1 n2 g1 g2 _timer h1 h1b h2 h2b hg1 hg2
  have e1 := Transmit_of_inspector s ha sp1 f1 n1 g1 _timer
  have e2 := Transmit_of_inspector
    { s with task_queue_ := s.task_queue_ ++ [sp1.Reset f1 n1 (some g1)] } ha sp2 f2 n2 g2 _timer
  have r1 : (sp1.Reset f1 n1 (some g1)).retry_ = (n1 : Int) := by
    simp only [Task.Reset]
    exact toInt32_of_range _ (by omega) (by exact_mod_cast h1b)
  have r2 : (sp2.Reset f2 n2 (some g2)).retry_ = (n2 : Int) := by
    simp only [Task.Reset]
    exact toInt32_of_range _ (by omega) (by exact_mod_cast h2b)
  have t1 := Test_of_done (sp1.Reset f1 n1 (some g1)) g1 b
    (by rw [r1]; exact_mod_cast h1) rfl rfl (hg1 _ _)
  have t2 := Test_of_done (sp2.Reset f2 n2 (some g2)) g2 b
    (by rw [r2]; exact_mod_cast h2) rfl rfl (hg2 _ _)
  rw [hq] at e1 e2
  have hp := Poll_of_tests
    { s with task_queue_ := [sp1.Reset f1 n1 (some g1), sp2.Reset f2 n2 (some g2)] }
    ret hret b _ (List.Forall₂.cons t1 (List.Forall₂.cons t2 List.Forall₂.nil))
  exact ⟨_, _, { s with task_queue_ := [] }, e1, e2, rfl, hp, rfl⟩

/-- An instance of C3: the two tasks of `test_session`-style inspectors that
return `DONE`, queued on a new session and polled once. -/
theorem Session.dispatch_order_witness :
    ∃ r1 r2 s3,
      (Session.new Unit ⟨none, 49, 64⟩).Transmit (Task.new Unit 0) 1 5 none
          (some ⟨(), fun e _ => (DONE, e)⟩) 0 = .ok r1
      ∧ r1.session.Transmit (Task.new Unit 0) 2 5 none
          (some ⟨(), fun e _ => (DONE, e)⟩) r1._timer = .ok r2
      ∧ r2.session.task_queue_.map (fun t => t.promise_) = [⟨1, none⟩, ⟨2, none⟩]
      ∧ r2.session.Poll 64 [0x21] =
          .ok (s3, [Event.inspect 1, Event.set_value 1 DONE,
                    Event.inspect 2, Event.set_value 2 DONE])
      ∧ s3.task_queue_ = [] :=
  (Session.dispatch_order (Session.new Unit ⟨none, 49, 64⟩) 64 (by decide) [0x21]).2 rfl rfl
    (Task.new Unit 0) (Task.new Unit 0) 1 2 5 5 ⟨(), fun e _ => (DONE, e)⟩
    ⟨(), fun e _ => (DONE, e)⟩ 0 (by decide) (by decide) (by decide) (by decide)
    (fun _ _ => rfl) (fun _ _ => rfl)

/-- Counterexample to C5 as stated: an inspector that returns 7 makes the
future resolve with `ERROR`, which is 126, not with 7. -/
theorem Task.error_value_not_carried :
    ∃ t1 : Task Unit,
      ((Task.new Unit 0).Reset 1 5 (some ⟨(), fun e _ => (7, e)⟩)).Test [] =
        .ok (true, t1, [Event.inspect 1, Event.set_value 1 126])
      ∧ t1.promise_.value = some 126 ∧ t1.promise_.value ≠ some 7 :=
  ⟨_, rfl, rfl, by decide⟩

/-- C5 (amended): for every value `v` other than `DONE`, `WAITING` and `AGAIN`
returned by the inspector of a pending task with budget left, `Task::Test` is
terminal and resolves the future with the enumerator `ERROR` (126), whatever
`v` is; it is `Session::Task::test` of the earlier `session.cc` that resolves
it with `ERROR(v)`, the value `v` itself. -/
theorem Task.unexpected_verdict {σ : Type} (t : Task σ) (g : Inspector σ) (b : List Nat)
    (v : Int) (h1 : 1 ≤ t.retry_) (hp : t.promise_.value = none) (hi : t.inspector_ = some g)
    (hg : (g.call g.env b).1 = v) (hv : v ≠ DONE ∧ v ≠ WAITING ∧ v ≠ AGAIN) :
    (∃ t1, t.Test b =
        .ok (true, t1, [Event.inspect t.promise_.future,
                        Event.set_value t.promise_.future ERROR])
      ∧ t1.promise_.value = some ERROR)
    ∧ ERROR = 126
    ∧ (∃ t1, legacy.Session.Task.test t b =
        .ok (true, t1, [Event.inspect t.promise_.future,
                        Event.set_value t.promise_.future v])
      ∧ t1.promise_.value = some v) := by
  have h4 : ¬ t.retry_ < 1 := by omega
  obtain ⟨v1, v2, v3⟩ := hv
  refine ⟨⟨{ t with retry_ := toInt32 (t.retry_ - 1),
                    inspector_ := some { g with env := (g.call g.env b).2 },
                    promise_ := { t.promise_ with value := some ERROR } }, ?_, rfl⟩,
          by decide,
          ⟨{ t with retry_ := toInt32 (t.retry_ - 1),
                    inspector_ := some { g with env := (g.call g.env b).2 },
                    promise_ := { t.promise_ with value := some v } }, ?_, rfl⟩⟩
  · simp [Task.Test, hi, hg, h4, v1, v2, v3, Task.Error, Promise.set_value, hp]
  · simp [legacy.Session.Task.test, legacy.ERROR, hi, hg, h4, v1, v2, v3, Promise.set_value, hp]

/-- An instance of the amended C5: the inspector returns 7. -/
theorem Task.unexpected_verdict_witness :
    (∃ t1 : Task Unit,
      ((Task.new Unit 0).Reset 1 5 (some ⟨(), fun e _ => (7, e)⟩)).Test [] =
        .ok (true, t1, [Event.inspect 1, Event.set_value 1 ERROR])
      ∧ t1.promise_.value = some ERROR)
    ∧ ERROR = 126
    ∧ (∃ t1 : Task Unit,
      legacy.Session.Task.test ((Task.new Unit 0).Reset 1 5 (some ⟨(), fun e _ => (7, e)⟩)) [] =
        .ok (true, t1, [Event.inspect 1, Event.set_value 1 7])
      ∧ t1.promise_.value = some 7) :=
  Task.unexpected_verdict ((Task.new Unit 0).Reset 1 5 (some ⟨(), fun e _ => (7, e)⟩))
    ⟨(), fun e _ => (7, e)⟩ [] 7 (by decide) rfl rfl rfl (by decide)

end session

namespace controller

open session

/-- What `Session::Transmit` does on a live session in push type `FREE` whose
transport has a sender, for a task with an inspector: the report is stamped
and sent, and the task is queued. -/
theorem Transmit_of_request {σ : Type} (s : Session σ) (ha : s.is_alive_ = true)
    (hp : s.push_type_ = PushType.FREE) (f : List Nat → Int) (hs : s.remote_.sender = some f)
    (sp : session.Task σ) (future retry : Nat) (b : List Nat) (g : Inspector σ) (_timer : Nat) :
    ∃ r, s.Transmit sp future retry (some b) (some g) _timer = .ok r
      ∧ r.buffer = some (b.set 1 (TIMER _timer))
      ∧ r._timer = TIMER _timer
      ∧ r.events.head? = some (Event.sender ((b.set 1 (TIMER _timer)).take s.remote_.send_size))
      ∧ r.session.task_queue_.length = s.task_queue_.length + 1 := by
  by_cases hf : f ((b.set 1 (TIMER _timer)).take s.remote_.send_size) < 0
  · simp [Session.Transmit, ha, hp, Session.Send, hs, hf, Task.Error, Task.Reset,
      Promise.set_value, Session.Append]
  · simp [Session.Transmit, ha, hp, Session.Send, hs, hf, Session.Append]

/-- C9: `ReadMemory` and `WriteMemory` return `-EINVAL`, leaving `output_`,
the sessions and the timer untouched and sending nothing, when
`address >= 0x80000` or `size > 0x1D`; when `address < 0x80000` and
`size <= 0x1D` they never return before the transmit, and on a live session
(push type `FREE`) with a sender the request they build is sent and its task
queued. -/
theorem ControllerImpl.flash_bounds (c : ControllerImpl) (address size : Nat) (data : List Nat)
    (sessions : List (Session (List Nat))) (_timer future : Nat) :
    ((0x80000 ≤ address ∨ 0x1D < size) →
      c.ReadMemory address size data sessions _timer future =
          .ok { ret := some (-EINVAL), impl := c, sessions := sessions, _timer := _timer,
                events := [] }
      ∧ c.WriteMemory address size data sessions _timer future =
          .ok { ret := some (-EINVAL), impl := c, sessions := sessions, _timer := _timer,
                events := [] })
    ∧ ((address < 0x80000 ∧ size ≤ 0x1D) →
      (∀ r, c.ReadMemory address size data sessions _timer future = .ok r → r.ret = none)
      ∧ (∀ r, c.WriteMemory address size data sessions _timer future = .ok r → r.ret = none)
      ∧ ∀ (s : Session (List Nat)) (f : List Nat → Int),
          s.is_alive_ = true → s.push_type_ = PushType.FREE → s.remote_.sender = some f →
          (∃ r, c.ReadMemory address size data [s] _timer future = .ok r
            ∧ r.ret = none
            ∧ r.events.head? = some (Event.sender
                (((ReadMemory_output c.output_ address size).set 1 (TIMER _timer)).take
                  s.remote_.send_size))
            ∧ r.impl.results_ = [future]
            ∧ r.sessions.map (fun s1 => s1.task_queue_.length) = [s.task_queue_.length + 1])
          ∧ (∃ r, c.WriteMemory address size data [s] _timer future = .ok r
            ∧ r.ret = none
            ∧ r.events.head? = some (Event.sender
                (((WriteMemory_output c.output_ address size data).set 1 (TIMER _timer)).take
                  s.remote_.send_size))
            ∧ r.impl.results_ = [future]
            ∧ r.sessions.map (fun s1 => s1.task_queue_.length) = [s.task_queue_.length + 1])) := by
  constructor
  · intro h
    have hv : assert_flash_mem_address address = false ∨ assert_flash_mem_length size = false := by
      rcases h with h | h
      · left; simp [assert_flash_mem_address, FLASH_MEM_SIZE]; omega
      · right; simp [assert_flash_mem_length, FLASH_MEM_STEP]; omega
    rcases hv with hv | hv
    · simp [ControllerImpl.ReadMemory, ControllerImpl.WriteMemory, hv]
    · by_cases h1 : assert_flash_mem_address address = true
      · simp [ControllerImpl.ReadMemory, ControllerImpl.WriteMemory, hv, h1]
      · simp [ControllerImpl.ReadMemory, ControllerImpl.WriteMemory, hv, h1]
  · intro h
    have h1 : assert_flash_mem_address address = true := by
      simp [assert_flash_mem_address, FLASH_MEM_SIZE]; omega
    have h2 : assert_flash_mem_length size = true := by
      simp [assert_flash_mem_length, FLASH_MEM_STEP]; omega
    refine ⟨?_, ?_, ?_⟩
    · intro r hr
      simp only [ControllerImpl.ReadMemory, h1, h2, Bool.not_true, Bool.false_eq_true,
        if_false] at hr
      split at hr
      · cases hr
      · cases hr; rfl
    · intro r hr
      simp only [ControllerImpl.WriteMemory, h1, h2, Bool.not_true, Bool.false_eq_true,
        if_false] at hr
      split at hr
      · cases hr
      · cases hr; rfl
    · intro s f ha hp hs
      constructor
      · obtain ⟨r, e, eb, et, ev, eq⟩ := Transmit_of_request s ha hp f hs
          (session.Task.new (List Nat) future) future RETRY
          (ReadMemory_output c.output_ address size)
          (ReadMemory_inspector address size data) _timer
        refine ⟨{ ret := none,
                  impl := { output_ := r.buffer.getD (ReadMemory_output c.output_ address size),
                            results_ := [future] },
                  sessions := [r.session], _timer := r._timer, events := r.events ++ [] },
                ?_, ?_⟩
        · simp only [ControllerImpl.ReadMemory, h1, h2, Bool.not_true, Bool.false_eq_true,
            if_false, ControllerImpl.Transmit, transmit, e]
        · simp [ev, eq]
      · obtain ⟨r, e, eb, et, ev, eq⟩ := Transmit_of_request s ha hp f hs
          (session.Task.new (List Nat) future) future RETRY
          (WriteMemory_output c.output_ address size data)
          (WriteMemory_inspector data) _timer
        refine ⟨{ ret := none,
                  impl := { output_ :=
                              r.buffer.getD (WriteMemory_output c.output_ address size data),
                            results_ := [future] },
                  sessions := [r.session], _timer := r._timer, events := r.events ++ [] },
                ?_, ?_⟩
        · simp only [ControllerImpl.WriteMemory, h1, h2, Bool.not_true, Bool.false_eq_true,
            if_false, ControllerImpl.Transmit, transmit, e]
        · simp [ev, eq]

/-- Instances of C9: address `0x80000` is rejected; address `0x7FFFF` with
length `0x1D` is sent on a new session. -/
theorem ControllerImpl.flash_bounds_witness :
    ((ControllerImpl.mk (List.replicate 49 0) []).ReadMemory 0x80000 0x1D [] [] 0 1 =
        .ok { ret := some (-EINVAL), impl := ControllerImpl.mk (List.replicate 49 0) [],
              sessions := [], _timer := 0, events := [] }
      ∧ (ControllerImpl.mk (List.replicate 49 0) []).WriteMemory 0x80000 0x1D [] [] 0 1 =
        .ok { ret := some (-EINVAL), impl := ControllerImpl.mk (List.replicate 49 0) [],
              sessions := [], _timer := 0, events := [] })
    ∧ (∃ r, (ControllerImpl.mk (List.replicate 49 0) []).ReadMemory 0x7FFFF 0x1D []
          [Session.new (List Nat) ⟨some (fun _ => 49), 49, 64⟩] 0 1 = .ok r
        ∧ r.ret = none
        ∧ r.events.head? = some (Event.sender
            (((ReadMemory_output (List.replicate 49 0) 0x7FFFF 0x1D).set 1 (TIMER 0)).take 49))
        ∧ r.impl.results_ = [1]
        ∧ r.sessions.map (fun s1 => s1.task_queue_.length) = [0 + 1]) :=
  ⟨(ControllerImpl.flash_bounds (ControllerImpl.mk (List.replicate 49 0) []) 0x80000 0x1D [] []
      0 1).1 (Or.inl (by decide)),
   (((ControllerImpl.flash_bounds (ControllerImpl.mk (List.replicate 49 0) []) 0x7FFFF 0x1D [] []
      0 1).2 ⟨by decide, by decide⟩).2.2
      (Session.new (List Nat) ⟨some (fun _ => 49), 49, 64⟩) (fun _ => 49) rfl rfl rfl).1⟩

set_option maxRecDepth 100000 in
theorem and_ff_of_byte (a : Nat) (h : a < 256) : a &&& 0x000000FF = a := by
  revert a
  decide

set_option maxRecDepth 100000 in
theorem shl8_of_byte (a : Nat) (h : a < 256) : (a <<< 8) &&& 0x0000FF00 = 2 ^ 8 * a := by
  revert a
  decide

set_option maxRecDepth 100000 in
theorem shl16_of_byte (a : Nat) (h : a < 256) : (a <<< 16) &&& 0x00FF0000 = 2 ^ 16 * a := by
  revert a
  decide

set_option maxRecDepth 100000 in
theorem shl24_of_byte (a : Nat) (h : a < 256) : (a <<< 24) &&& 0xFF000000 = 2 ^ 24 * a := by
  revert a
  decide

theorem getD_lt_of_bytes (l : List Nat) (h : ∀ x ∈ l, x < 256) (i : Nat) : l.getD i 0 < 256 := by
  rw [List.getD_eq_getElem?_getD]
  cases hi : l[i]? with
  | none => simp
  | some x => simpa using h x (List.getElem?_mem hi)

/-- On bytes, `le32` is the little-endian value of the first four bytes. -/
theorem le32_of_bytes (raw : List Nat) (h : ∀ x ∈ raw, x < 256) :
    le32 raw = raw.getD 0 0 + 256 * raw.getD 1 0 + 65536 * raw.getD 2 0
      + 16777216 * raw.getD 3 0 := by
  have ha := getD_lt_of_bytes raw h 0
  have hb := getD_lt_of_bytes raw h 1
  have hc := getD_lt_of_bytes raw h 2
  have hd := getD_lt_of_bytes raw h 3
  unfold le32
  generalize raw.getD 0 0 = a at *
  generalize raw.getD 1 0 = b at *
  generalize raw.getD 2 0 = c at *
  generalize raw.getD 3 0 = d at *
  rw [and_ff_of_byte a ha, shl8_of_byte b hb, shl16_of_byte c hc, shl24_of_byte d hd]
  have e1 : a ||| 2 ^ 8 * b = 2 ^ 8 * b + a := by
    rw [Nat.or_comm]; exact (Nat.mul_add_lt_is_or (by omega) b).symm
  have e2 : (2 ^ 8 * b + a) ||| 2 ^ 16 * c = 2 ^ 16 * c + (2 ^ 8 * b + a) := by
    rw [Nat.or_comm]; exact (Nat.mul_add_lt_is_or (by omega) c).symm
  have e3 : (2 ^ 16 * c + (2 ^ 8 * b + a)) ||| 2 ^ 24 * d
      = 2 ^ 24 * d + (2 ^ 16 * c + (2 ^ 8 * b + a)) := by
    rw [Nat.or_comm]; exact (Nat.mul_add_lt_is_or (by omega) d).symm
  rw [e1, e2, e3]
  omega

/-- Counterexample to C10 as stated: on a matching reply whose `data[5]` is
`0xAA` and `data[6]` is `0xBB`, a read of length 1 puts `0xAA`, the byte
`data[5]`, into the caller's buffer, not `data[6]`. -/
theorem ReadMemory_inspector_offset :
    (ReadMemory_inspector 0 1 [0]).call [0]
        ([0x21] ++ List.replicate 13 0 ++ [0x10] ++ [0, 0, 0, 0, 1, 0xAA, 0xBB]
          ++ List.replicate 42 0)
      = (DONE, [0xAA])
    ∧ ((InputReport.reply_data
        ([0x21] ++ List.replicate 13 0 ++ [0x10] ++ [0, 0, 0, 0, 1, 0xAA, 0xBB]
          ++ List.replicate 42 0)).drop 6).take 1 = [0xBB] := by
  decide

/-- C10 (amended): on a report of bytes, the `ReadMemory` inspector returns
`DONE` exactly when the report has id `0x21`, reply sub-command id `0x10`, and
reply data echoing `address` (little-endian `u32` in `data[0..4)`) and `size`
(`data[4]`); in that case it copies the `size` bytes `data[5 .. 5+size)` of
the reply over the first `size` bytes of the caller's buffer; on every other
report it returns `WAITING` and leaves the caller's buffer unchanged. -/
theorem ReadMemory_inspector_verdict (address size : Nat) (data0 data input : List Nat)
    (hb : ∀ x ∈ input, x < 256) :
    ((InputReport.id input = 0x21 ∧ InputReport.reply_subcmd_id input = 0x10
        ∧ (InputReport.reply_data input).getD 0 0 + 256 * (InputReport.reply_data input).getD 1 0
            + 65536 * (InputReport.reply_data input).getD 2 0
            + 16777216 * (InputReport.reply_data input).getD 3 0 = address
        ∧ (InputReport.reply_data input).getD 4 0 = size) →
      (ReadMemory_inspector address size data0).call data input =
        (DONE, ((InputReport.reply_data input).drop 5).take size ++ data.drop size))
    ∧ (¬ (InputReport.id input = 0x21 ∧ InputReport.reply_subcmd_id input = 0x10
        ∧ (InputReport.reply_data input).getD 0 0 + 256 * (InputReport.reply_data input).getD 1 0
            + 65536 * (InputReport.reply_data input).getD 2 0
            + 16777216 * (InputReport.reply_data input).getD 3 0 = address
        ∧ (InputReport.reply_data input).getD 4 0 = size) →
      (ReadMemory_inspector address size data0).call data input = (WAITING, data))
    ∧ WAITING ≠ DONE := by
  have hd : ∀ x ∈ InputReport.reply_data input, x < 256 := by
    intro x hx
    exact hb x (List.mem_of_mem_drop hx)
  have hle := le32_of_bytes (InputReport.reply_data input) hd
  refine ⟨?_, ?_, by decide⟩
  · rintro ⟨h1, h2, h3, h4⟩
    have h5 : le32 (InputReport.reply_data input) = address := by rw [hle]; exact h3
    simp only [ReadMemory_inspector, h1, h2, h4, h5, SUBCMD_10, memmove, and_self, if_true]
  · intro hn
    by_cases h12 : InputReport.id input = 0x21 ∧ InputReport.reply_subcmd_id input = SUBCMD_10
    · have h34 : ¬ (le32 (InputReport.reply_data input) = address
          ∧ (InputReport.reply_data input).getD 4 0 = size) := by
        rintro ⟨h3, h4⟩
        exact hn ⟨h12.1, h12.2, by rw [← hle]; exact h3, h4⟩
      simp only [ReadMemory_inspector, h12, and_self, if_true, h34, if_false]
    · simp only [ReadMemory_inspector, h12, if_false]

/-- An instance of the amended C10: the first flash window of the backup
scenario, a reply to `(0, 0x1D)` carrying 29 bytes `0xAA`. -/
theorem ReadMemory_inspector_verdict_witness :
    (ReadMemory_inspector 0 0x1D (List.replicate 29 0)).call (List.replicate 29 0)
        ([0x21] ++ List.replicate 13 0 ++ [0x10] ++ [0, 0, 0, 0, 0x1D]
          ++ List.replicate 29 0xAA ++ List.replicate 15 0)
      = (DONE, List.replicate 29 0xAA) :=
  ((ReadMemory_inspector_verdict 0 0x1D (List.replicate 29 0) (List.replicate 29 0)
      ([0x21] ++ List.replicate 13 0 ++ [0x10] ++ [0, 0, 0, 0, 0x1D]
          ++ List.replicate 29 0xAA ++ List.replicate 15 0) (by decide)).1
      (by decide)).trans (by decide)

theorem bzero_replicate (n : Nat) : bzero (List.replicate n 0) n = List.replicate n 0 := by
  simp [bzero]

theorem BackupMemory_loop_of_lt {ω : Type}
    (R : Nat → Nat → List Nat → ω → Int × List Nat × ω) (p : Bool) (address : Nat) (w : ω)
    (h : address < 0x80000) :
    BackupMemory.loop R p address w =
      if (R address (min (0x80000 - address) 0x1D) (List.replicate 0x1D 0) w).1 ≠ DONE then
        ((R address (min (0x80000 - address) 0x1D) (List.replicate 0x1D 0) w).1,
         [BackupEvent.ReadMemory address (min (0x80000 - address) 0x1D)],
         (R address (min (0x80000 - address) 0x1D) (List.replicate 0x1D 0) w).2.2)
      else
        ((BackupMemory.loop R p (address + min (0x80000 - address) 0x1D)
            (R address (min (0x80000 - address) 0x1D) (List.replicate 0x1D 0) w).2.2).1,
         BackupEvent.ReadMemory address (min (0x80000 - address) 0x1D) ::
           (if p then [BackupEvent.progress 0x80000 (address + min (0x80000 - address) 0x1D)]
            else []) ++
           (BackupMemory.loop R p (address + min (0x80000 - address) 0x1D)
            (R address (min (0x80000 - address) 0x1D) (List.replicate 0x1D 0) w).2.2).2.1,
         (BackupMemory.loop R p (address + min (0x80000 - address) 0x1D)
            (R address (min (0x80000 - address) 0x1D) (List.replicate 0x1D 0) w).2.2).2.2) := by
  rw [BackupMemory.loop]
  simp only [FLASH_MEM_SIZE, FLASH_MEM_STEP, h, if_true, bzero_replicate]

theorem BackupMemory_loop_of_ge {ω : Type}
    (R : Nat → Nat → List Nat → ω → Int × List Nat × ω) (p : Bool) (address : Nat) (w : ω)
    (h : 0x80000 ≤ address) :
    BackupMemory.loop R p address w = ((address : Int), [], w) := by
  rw [BackupMemory.loop]
  have h1 : ¬ address < FLASH_MEM_SIZE := by simp only [FLASH_MEM_SIZE]; omega
  simp only [h1, if_false]

theorem BackupMemory_loop_eq_spec {ω : Type}
    (R : Nat → Nat → List Nat → ω → Int × List Nat × ω) (p : Bool) :
    ∀ (n k : Nat) (w : ω), k + n = 18079 →
      BackupMemory.loop R p (min (k * 0x1D) 0x80000) w =
        BackupMemory.spec R p
          ((List.range' k n).map (fun k => (k * 0x1D, min 0x1D (0x80000 - k * 0x1D)))) w := by
  intro n
  induction n with
  | zero =>
    intro k w hk
    have e : min (k * 0x1D) 0x80000 = 0x80000 := by omega
    rw [e, BackupMemory_loop_of_ge R p _ w (le_refl _)]
    simp [BackupMemory.spec]
  | succ n ih =>
    intro k w hk
    have e : min (k * 0x1D) 0x80000 = k * 0x1D := by omega
    have e1 : min (0x80000 - k * 0x1D) 0x1D = min 0x1D (0x80000 - k * 0x1D) := Nat.min_comm _ _
    have e2 : k * 0x1D + min 0x1D (0x80000 - k * 0x1D) = min ((k + 1) * 0x1D) 0x80000 := by
      omega
    rw [e, BackupMemory_loop_of_lt R p _ w (by omega), e1, e2]
    simp only [List.range', List.map_cons, BackupMemory.spec]
    rw [ih (k + 1) _ (by omega)]
    rw [← e2]

theorem BackupMemory_spec_of_done {ω : Type}
    (R : Nat → Nat → List Nat → ω → Int × List Nat × ω) (p : Bool)
    (hR : ∀ a n b w, (R a n b w).1 = DONE) :
    ∀ (l : List (Nat × Nat)) (w : ω),
      (BackupMemory.spec R p l w).1 = 0x80000
      ∧ (BackupMemory.spec R p l w).2.1 =
          l.flatMap (fun x => BackupEvent.ReadMemory x.1 x.2 ::
            (if p then [BackupEvent.progress 0x80000 (x.1 + x.2)] else [])) := by
  intro l
  induction l with
  | nil => intro w; simp [BackupMemory.spec]
  | cons x rest ih =>
    intro w
    obtain ⟨a, n⟩ := x
    have h := ih (R a n (List.replicate 0x1D 0) w).2.2
    simp only [BackupMemory.spec, hR, ne_eq, not_true_eq_false, if_false, List.flatMap_cons]
    exact ⟨h.1, by rw [h.2]⟩

theorem BackupMemory_spec_of_failure {ω : Type}
    (R : Nat → Nat → List Nat → ω → Int × List Nat × ω) (p : Bool) (res : Nat → Int)
    (hR : ∀ a n b w, (R a n b w).1 = res a) :
    ∀ (pre : List (Nat × Nat)) (x : Nat × Nat) (post : List (Nat × Nat)) (w : ω),
      (∀ y ∈ pre, res y.1 = DONE) → res x.1 ≠ DONE →
      (BackupMemory.spec R p (pre ++ x :: post) w).1 = res x.1
      ∧ (BackupMemory.spec R p (pre ++ x :: post) w).2.1 =
          pre.flatMap (fun x => BackupEvent.ReadMemory x.1 x.2 ::
            (if p then [BackupEvent.progress 0x80000 (x.1 + x.2)] else []))
          ++ [BackupEvent.ReadMemory x.1 x.2] := by
  intro pre
  induction pre with
  | nil =>
    intro x post w _ hx
    obtain ⟨a, n⟩ := x
    simp only [List.nil_append, BackupMemory.spec, hR, ne_eq]
    simp only [ne_eq] at hx
    simp [hx]
  | cons y rest ih =>
    intro x post w hpre hx
    obtain ⟨a, n⟩ := y
    have hy : res a = DONE := hpre (a, n) (List.mem_cons_self _ _)
    have h := ih x post (R a n (List.replicate 0x1D 0) w).2.2
      (fun z hz => hpre z (List.mem_cons_of_mem _ hz)) hx
    simp only [List.cons_append, BackupMemory.spec, hR, hy, ne_eq, not_true_eq_false, if_false,
      List.flatMap_cons, List.append_eq]
    exact ⟨h.1, by rw [h.2]; simp⟩

theorem BackupMemory_windows_split (j : Nat) (hj : j < 18079) :
    BackupMemory.windows =
      (List.range j).map (fun k => (k * 0x1D, min 0x1D (0x80000 - k * 0x1D)))
        ++ (j * 0x1D, min 0x1D (0x80000 - j * 0x1D))
        :: (List.range' (j + 1) (18078 - j)).map
            (fun k => (k * 0x1D, min 0x1D (0x80000 - k * 0x1D))) := by
  have h1 : List.range 18079 = List.range' 0 j ++ List.range' j (18079 - j) := by
    rw [List.range_eq_range']
    have := List.range'_append 0 j (18079 - j) 1
    simp only [Nat.zero_add, Nat.one_mul] at this
    rw [this]
    congr 1
    omega
  have h2 : List.range' j (18079 - j) = j :: List.range' (j + 1) (18078 - j) := by
    have e : 18079 - j = (18078 - j) + 1 := by omega
    rw [e, List.range'_succ]
  unfold BackupMemory.windows
  rw [h1, h2, ← List.range_eq_range']
  simp

theorem BackupMemory_eq_spec {ω : Type}
    (R : Nat → Nat → List Nat → ω → Int × List Nat × ω) (p : Bool) (w : ω) :
    ControllerImpl.BackupMemory R p w = BackupMemory.spec R p BackupMemory.windows w := by
  have h := BackupMemory_loop_eq_spec R p 18079 0 w (by omega)
  simp only [Nat.zero_mul, Nat.zero_min] at h
  unfold ControllerImpl.BackupMemory BackupMemory.windows
  rw [h, List.range_eq_range']

/-- C11: `BackupMemory` behaves as the specification says over the windows
`(k * 0x1D, min(0x1D, 0x80000 - k * 0x1D))`, `k = 0, ..., 18078`, read in this
order into a zeroed buffer: it stops at the first window whose `ReadMemory`
result is not `DONE` and returns that result with no progress call for that
window, calls `progress(0x80000, addr + len)` after each successful window,
and terminates with `0x80000` when all 18079 windows succeed. The windows have
at least one byte, end at or before `0x80000`, each starts where the previous
one ends, passes the range checks of `ReadMemory`, and the last one is 26
bytes at `0x7FFE6`. -/
theorem ControllerImpl.BackupMemory_windows {ω : Type}
    (R : Nat → Nat → List Nat → ω → Int × List Nat × ω) (p : Bool) (w : ω) :
    ControllerImpl.BackupMemory R p w = BackupMemory.spec R p BackupMemory.windows w
    ∧ BackupMemory.windows.length = 18079
    ∧ (∀ k, k < 18079 →
        BackupMemory.windows[k]? = some (k * 0x1D, min 0x1D (0x80000 - k * 0x1D))
        ∧ 1 ≤ min 0x1D (0x80000 - k * 0x1D)
        ∧ k * 0x1D + min 0x1D (0x80000 - k * 0x1D) ≤ 0x80000
        ∧ (k + 1 < 18079 → k * 0x1D + min 0x1D (0x80000 - k * 0x1D) = (k + 1) * 0x1D)
        ∧ assert_flash_mem_address (k * 0x1D) = true
        ∧ assert_flash_mem_length (min 0x1D (0x80000 - k * 0x1D)) = true)
    ∧ BackupMemory.windows[18078]? = some (0x7FFE6, 26)
    ∧ ((∀ a n b w1, (R a n b w1).1 = DONE) →
        (ControllerImpl.BackupMemory R p w).1 = 0x80000
        ∧ (ControllerImpl.BackupMemory R p w).2.1 =
            BackupMemory.windows.flatMap (fun x => BackupEvent.ReadMemory x.1 x.2 ::
              (if p then [BackupEvent.progress 0x80000 (x.1 + x.2)] else [])))
    ∧ (∀ (res : Nat → Int) (j : Nat), (∀ a n b w1, (R a n b w1).1 = res a) → j < 18079 →
        (∀ i, i < j → res (i * 0x1D) = DONE) → res (j * 0x1D) ≠ DONE →
        (ControllerImpl.BackupMemory R p w).1 = res (j * 0x1D)
        ∧ (ControllerImpl.BackupMemory R p w).2.1 =
            ((List.range j).map (fun k => (k * 0x1D, min 0x1D (0x80000 - k * 0x1D)))).flatMap
              (fun x => BackupEvent.ReadMemory x.1 x.2 ::
                (if p then [BackupEvent.progress 0x80000 (x.1 + x.2)] else []))
            ++ [BackupEvent.ReadMemory (j * 0x1D) (min 0x1D (0x80000 - j * 0x1D))]) := by
  have href := BackupMemory_eq_spec R p w
  have hget : ∀ k, k < 18079 →
      BackupMemory.windows[k]? = some (k * 0x1D, min 0x1D (0x80000 - k * 0x1D)) := by
    intro k hk
    unfold BackupMemory.windows
    rw [List.getElem?_map, List.getElem?_range hk]
    rfl
  refine ⟨href, by simp [BackupMemory.windows], ?_, ?_, ?_, ?_⟩
  · intro k hk
    refine ⟨hget k hk, by omega, by omega, by omega, ?_, ?_⟩
    · simp only [assert_flash_mem_address, FLASH_MEM_SIZE, ge_iff_le, Nat.zero_le,
        decide_True, Bool.and_true, decide_eq_true_eq]
      omega
    · simp only [assert_flash_mem_length, FLASH_MEM_STEP, ge_iff_le, Nat.zero_le,
        decide_True, Bool.and_true, decide_eq_true_eq]
      omega
  · rw [hget 18078 (by omega)]
    rfl
  · intro hR
    rw [href]
    exact BackupMemory_spec_of_done R p hR _ w
  · intro res j hR hj hpre hfail
    rw [href, BackupMemory_windows_split j hj]
    refine BackupMemory_spec_of_failure R p res hR _ _ _ w ?_ hfail
    intro y hy
    simp only [List.mem_map, List.mem_range] at hy
    obtain ⟨i, hi, rfl⟩ := hy
    exact hpre i hi

/-- Instances of C11: a run in which every window succeeds returns `0x80000`;
a run whose third window (address 58) fails with `ERROR` returns it after two
progress calls; the last window is 26 bytes at `0x7FFE6`. -/
theorem ControllerImpl.BackupMemory_windows_witness :
    (ControllerImpl.BackupMemory
        (fun _ n _ (w : Unit) => (DONE, List.replicate n 0xAA, w)) true ()).1 = 0x80000
    ∧ ((ControllerImpl.BackupMemory
          (fun a n _ (w : Unit) => (if a = 58 then ERROR else DONE, List.replicate n 0xAA, w))
          true ()).1 = ERROR
      ∧ (ControllerImpl.BackupMemory
          (fun a n _ (w : Unit) => (if a = 58 then ERROR else DONE, List.replicate n 0xAA, w))
          true ()).2.1 =
        [BackupEvent.ReadMemory 0 29, BackupEvent.progress 0x80000 29,
         BackupEvent.ReadMemory 29 29, BackupEvent.progress 0x80000 58,
         BackupEvent.ReadMemory 58 29])
    ∧ BackupMemory.windows[18078]? = some (0x7FFE6, 26) :=
  ⟨((ControllerImpl.BackupMemory_windows
        (fun _ n _ (w : Unit) => (DONE, List.replicate n 0xAA, w)) true ()).2.2.2.2.1
        (fun _ _ _ _ => rfl)).1,
   (ControllerImpl.BackupMemory_windows
        (fun a n _ (w : Unit) => (if a = 58 then ERROR else DONE, List.replicate n 0xAA, w))
        true ()).2.2.2.2.2 (fun a => if a = 58 then ERROR else DONE) 2 (fun _ _ _ _ => rfl)
        (by decide) (by intro i hi; interval_cases i <;> decide) (by decide),
   (ControllerImpl.BackupMemory_windows
        (fun _ n _ (w : Unit) => (DONE, List.replicate n 0xAA, w)) true ()).2.2.2.1⟩

theorem BackupMemory_spec_congr {ω : Type}
    (R1 R2 : Nat → Nat → List Nat → ω → Int × List Nat × ω) (p : Bool)
    (h : ∀ a n b w, (R1 a n b w).1 = (R2 a n b w).1 ∧ (R1 a n b w).2.2 = (R2 a n b w).2.2) :
    ∀ (l : List (Nat × Nat)) (w : ω), BackupMemory.spec R1 p l w = BackupMemory.spec R2 p l w := by
  intro l
  induction l with
  | nil => intro w; rfl
  | cons x rest ih =>
    intro w
    obtain ⟨a, n⟩ := x
    simp only [BackupMemory.spec, (h a n (List.replicate 0x1D 0) w).1,
      (h a n (List.replicate 0x1D 0) w).2, ih]

/-- Counterexample to C12 as stated: a run over a flash whose windows read as
bytes `0xAA` and a run over a flash whose windows read as bytes `0x55` both
succeed and hand the caller exactly the same result and the same progress
calls, although `ReadMemory` delivered different bytes. -/
theorem ControllerImpl.BackupMemory_drops_data :
    ControllerImpl.BackupMemory (fun _ n _ (w : Unit) => (DONE, List.replicate n 0xAA, w)) true ()
      = ControllerImpl.BackupMemory
          (fun _ n _ (w : Unit) => (DONE, List.replicate n 0x55, w)) true ()
    ∧ (ControllerImpl.BackupMemory
        (fun _ n _ (w : Unit) => (DONE, List.replicate n 0xAA, w)) true ()).1 = 0x80000
    ∧ List.replicate 29 0xAA ≠ List.replicate 29 0x55 := by
  refine ⟨?_, ?_, by decide⟩
  · rw [BackupMemory_eq_spec, BackupMemory_eq_spec]
    exact BackupMemory_spec_congr
      (fun _ n _ (w : Unit) => (DONE, List.replicate n 0xAA, w))
      (fun _ n _ (w : Unit) => (DONE, List.replicate n 0x55, w)) true
      (fun _ _ _ _ => ⟨rfl, rfl⟩) BackupMemory.windows ()
  · rw [BackupMemory_eq_spec]
    exact (BackupMemory_spec_of_done
      (fun _ n _ (w : Unit) => (DONE, List.replicate n 0xAA, w)) true
      (fun _ _ _ _ => rfl) BackupMemory.windows ()).1

/-- C12 (amended): the bytes of each window are read into a 29-byte buffer
that is local to `BackupMemory`, zeroed before each read and never handed on:
what `BackupMemory` gives its caller (the returned value, the `ReadMemory`
and `progress` calls, the final state) is the same for any two behaviours of
`ReadMemory` that differ only in the bytes they leave in the buffer. -/
theorem ControllerImpl.BackupMemory_data_independent {ω : Type}
    (R1 R2 : Nat → Nat → List Nat → ω → Int × List Nat × ω) (p : Bool) (w : ω)
    (h : ∀ a n b w1, (R1 a n b w1).1 = (R2 a n b w1).1 ∧ (R1 a n b w1).2.2 = (R2 a n b w1).2.2) :
    ControllerImpl.BackupMemory R1 p w = ControllerImpl.BackupMemory R2 p w := by
  rw [BackupMemory_eq_spec, BackupMemory_eq_spec]
  exact BackupMemory_spec_congr R1 R2 p h _ w

/-- An instance of the amended C12: windows reading as `1, 2, 3, ...` and
windows reading as zeros give the caller the same outcome. -/
theorem ControllerImpl.BackupMemory_data_independent_witness :
    ControllerImpl.BackupMemory (fun _ n _ (w : Unit) => (DONE, List.range n, w)) false ()
      = ControllerImpl.BackupMemory
          (fun _ n _ (w : Unit) => (DONE, List.replicate n 0, w)) false () :=
  ControllerImpl.BackupMemory_data_independent
    (fun _ n _ (w : Unit) => (DONE, List.range n, w))
    (fun _ n _ (w : Unit) => (DONE, List.replicate n 0, w)) false ()
    (fun _ _ _ _ => ⟨rfl, rfl⟩)

theorem or_or_self_left (a b : Nat) : a ||| (a ||| b) = a ||| b := by
  rw [← Nat.or_assoc, Nat.or_self]

/-- C13: `controller_data_merge` is commutative and OR-idempotent on all nine
bytes of buttons and sticks: `merge(a, b) = merge(b, a)` and
`merge(a, merge(a, b)) = merge(a, b)`, where `merge(x, y)` is the value left
in `x`; and the merge is the bytewise OR. -/
theorem controller_data_merge_comm_idem (a b : ControllerData) :
    controller_data_merge a b = controller_data_merge b a
    ∧ controller_data_merge a (controller_data_merge a b) = controller_data_merge a b
    ∧ controller_data_merge a b =
        { button := { left := a.button.left ||| b.button.left,
                      shared := a.button.shared ||| b.button.shared,
                      right := a.button.right ||| b.button.right },
          left_stick := { raw_0 := a.left_stick.raw_0 ||| b.left_stick.raw_0,
                          raw_1 := a.left_stick.raw_1 ||| b.left_stick.raw_1,
                          raw_2 := a.left_stick.raw_2 ||| b.left_stick.raw_2 },
          right_stick := { raw_0 := a.right_stick.raw_0 ||| b.right_stick.raw_0,
                           raw_1 := a.right_stick.raw_1 ||| b.right_stick.raw_1,
                           raw_2 := a.right_stick.raw_2 ||| b.right_stick.raw_2 } } := by
  refine ⟨?_, ?_, rfl⟩
  · simp only [controller_data_merge, button_merge, stick_merge]
    simp only [Nat.or_comm]
  · simp only [controller_data_merge, button_merge, stick_merge, or_or_self_left]

/-- C14: the `GetData` inspector returns `DONE` exactly for reports whose id is
`0x30`, `0x21` or `0x31` and `WAITING`, the caller's data unchanged, for every
other id; on a match, the caller's data becomes the report bytes 3..11 when
the category field of byte 2 is `PRO_GRIP`, and otherwise the bytewise OR of
its previous value with those nine bytes. -/
theorem GetData_inspector_verdict (data0 data : ControllerData) (input : List Nat) :
    ((input.getD 0 0 = 0x30 ∨ input.getD 0 0 = 0x21 ∨ input.getD 0 0 = 0x31) →
      (input.getD 2 0 / 2 % 4 = 0 →
        (GetData_inspector data0).call data input =
          (DONE,
           { button := { left := input.getD 3 0, shared := input.getD 4 0,
                         right := input.getD 5 0 },
             left_stick := { raw_0 := input.getD 6 0, raw_1 := input.getD 7 0,
                             raw_2 := input.getD 8 0 },
             right_stick := { raw_0 := input.getD 9 0, raw_1 := input.getD 10 0,
                              raw_2 := input.getD 11 0 } }))
      ∧ (input.getD 2 0 / 2 % 4 ≠ 0 →
        (GetData_inspector data0).call data input =
          (DONE,
           { button := { left := data.button.left ||| input.getD 3 0,
                         shared := data.button.shared ||| input.getD 4 0,
                         right := data.button.right ||| input.getD 5 0 },
             left_stick := { raw_0 := data.left_stick.raw_0 ||| input.getD 6 0,
                             raw_1 := data.left_stick.raw_1 ||| input.getD 7 0,
                             raw_2 := data.left_stick.raw_2 ||| input.getD 8 0 },
             right_stick := { raw_0 := data.right_stick.raw_0 ||| input.getD 9 0,
                              raw_1 := data.right_stick.raw_1 ||| input.getD 10 0,
                              raw_2 := data.right_stick.raw_2 ||| input.getD 11 0 } })))
    ∧ (¬ (input.getD 0 0 = 0x30 ∨ input.getD 0 0 = 0x21 ∨ input.getD 0 0 = 0x31) →
        (GetData_inspector data0).call data input = (WAITING, data))
    ∧ WAITING ≠ DONE := by
  refine ⟨?_, ?_, by decide⟩
  · intro hid
    constructor
    · intro hc
      simp only [GetData_inspector, InputReport.id, hid, if_true,
        InputReport.controller_state_category, hc, PRO_GRIP, InputReport.controller_data]
    · intro hc
      simp only [GetData_inspector, InputReport.id, hid, if_true,
        InputReport.controller_state_category, hc, PRO_GRIP, if_false,
        InputReport.controller_data, controller_data_merge, button_merge, stick_merge]
  · intro hid
    simp only [GetData_inspector, InputReport.id, hid, if_false]

/-- Instances of C14: a standard report (id `0x30`) of a left Joy-Con
(category 1) is merged into the caller's data; a report with id `0x3F` is not
taken. -/
theorem GetData_inspector_verdict_witness :
    (GetData_inspector ⟨⟨0, 0, 0⟩, ⟨0, 0, 0⟩, ⟨0, 0, 0⟩⟩).call
        ⟨⟨1, 2, 4⟩, ⟨0, 0, 0⟩, ⟨8, 8, 8⟩⟩ [0x30, 0, 0x82, 8, 0, 0, 1, 2, 3, 0, 0, 0]
      = (DONE, ⟨⟨9, 2, 4⟩, ⟨1, 2, 3⟩, ⟨8, 8, 8⟩⟩)
    ∧ (GetData_inspector ⟨⟨0, 0, 0⟩, ⟨0, 0, 0⟩, ⟨0, 0, 0⟩⟩).call
        ⟨⟨1, 2, 4⟩, ⟨0, 0, 0⟩, ⟨8, 8, 8⟩⟩ [0x3F, 0, 0x82, 8, 0, 0, 1, 2, 3, 0, 0, 0]
      = (WAITING, ⟨⟨1, 2, 4⟩, ⟨0, 0, 0⟩, ⟨8, 8, 8⟩⟩) :=
  ⟨(((GetData_inspector_verdict ⟨⟨0, 0, 0⟩, ⟨0, 0, 0⟩, ⟨0, 0, 0⟩⟩
        ⟨⟨1, 2, 4⟩, ⟨0, 0, 0⟩, ⟨8, 8, 8⟩⟩ [0x30, 0, 0x82, 8, 0, 0, 1, 2, 3, 0, 0, 0]).1
        (Or.inl (by decide))).2 (by decide)).trans (by decide),
   (GetData_inspector_verdict ⟨⟨0, 0, 0⟩, ⟨0, 0, 0⟩, ⟨0, 0, 0⟩⟩
        ⟨⟨1, 2, 4⟩, ⟨0, 0, 0⟩, ⟨8, 8, 8⟩⟩ [0x3F, 0, 0x82, 8, 0, 0, 1, 2, 3, 0, 0, 0]).2.1
        (by decide)⟩

/-- C15: the inspectors of `Pair`, `SetPlayer`, `SetRumble`, `SetLowPower`,
`SetImu`, `SetElapsedTime`, `SetHomeLight`, `SetMcuState` and `Poll` return
`DONE` exactly when the inbound report has id `0x21` in byte 0 and, in byte
14, the sub-command id `0x01`, `0x30`, `0x48`, `0x08`, `0x40`, `0x04`, `0x38`,
`0x22`, `0x03` respectively, and `WAITING` for every other report. -/
theorem reply_inspectors_verdict (e : Unit) (input : List Nat) :
    (Pair_inspector.call e input).1 =
        (if input.getD 0 0 = 0x21 ∧ input.getD 14 0 = 0x01 then DONE else WAITING)
    ∧ (SetPlayer_inspector.call e input).1 =
        (if input.getD 0 0 = 0x21 ∧ input.getD 14 0 = 0x30 then DONE else WAITING)
    ∧ (SetRumble_inspector.call e input).1 =
        (if input.getD 0 0 = 0x21 ∧ input.getD 14 0 = 0x48 then DONE else WAITING)
    ∧ (SetLowPower_inspector.call e input).1 =
        (if input.getD 0 0 = 0x21 ∧ input.getD 14 0 = 0x08 then DONE else WAITING)
    ∧ (SetImu_inspector.call e input).1 =
        (if input.getD 0 0 = 0x21 ∧ input.getD 14 0 = 0x40 then DONE else WAITING)
    ∧ (SetElapsedTime_inspector.call e input).1 =
        (if input.getD 0 0 = 0x21 ∧ input.getD 14 0 = 0x04 then DONE else WAITING)
    ∧ (SetHomeLight_inspector.call e input).1 =
        (if input.getD 0 0 = 0x21 ∧ input.getD 14 0 = 0x38 then DONE else WAITING)
    ∧ (SetMcuState_inspector.call e input).1 =
        (if input.getD 0 0 = 0x21 ∧ input.getD 14 0 = 0x22 then DONE else WAITING)
    ∧ (Poll_inspector.call e input).1 =
        (if input.getD 0 0 = 0x21 ∧ input.getD 14 0 = 0x03 then DONE else WAITING)
    ∧ WAITING ≠ DONE := by
  refine ⟨?_, ?_, ?_, ?_, ?_, ?_, ?_, ?_, ?_, by decide⟩
  · simp only [Pair_inspector, InputReport.id, InputReport.reply_subcmd_id, SUBCMD_01]
    split <;> rfl
  · simp only [SetPlayer_inspector, InputReport.id, InputReport.reply_subcmd_id, SUBCMD_30]
    split <;> rfl
  · simp only [SetRumble_inspector, InputReport.id, InputReport.reply_subcmd_id, SUBCMD_48]
    split <;> rfl
  · simp only [SetLowPower_inspector, InputReport.id, InputReport.reply_subcmd_id, SUBCMD_08]
    split <;> rfl
  · simp only [SetImu_inspector, InputReport.id, InputReport.reply_subcmd_id, SUBCMD_40]
    split <;> rfl
  · simp only [SetElapsedTime_inspector, InputReport.id, InputReport.reply_subcmd_id, SUBCMD_04]
    split <;> rfl
  · simp only [SetHomeLight_inspector, InputReport.id, InputReport.reply_subcmd_id, SUBCMD_38]
    split <;> rfl
  · simp only [SetMcuState_inspector, InputReport.id, InputReport.reply_subcmd_id, SUBCMD_22]
    split <;> rfl
  · simp only [Poll_inspector, InputReport.id, InputReport.reply_subcmd_id, SUBCMD_03]
    split <;> rfl

set_option maxRecDepth 100000 in
theorem nibble_high (b : Nat) (hb : b < 16) : (0 ||| (b <<< 4)) % 256 = 16 * b := by
  revert b; decide

set_option maxRecDepth 100000 in
theorem nibble_low : ∀ a, a < 16 → ∀ b, b < 16 →
    ((16 * a) ||| (b <<< 0)) % 256 = 16 * a + b := by
  decide

set_option maxRecDepth 100000 in
theorem nibble_pair : ∀ t, t < 16 → ∀ d, d < 16 →
    ((t <<< 4) ||| (d &&& 0x0F)) % 256 = 16 * t + d := by
  decide

theorem getD_map_range (f : Nat → Nat) (n j : Nat) (h : j < n) :
    ((List.range n).map f).getD j 0 = f j := by
  simp [List.getD_eq_getElem?_getD, List.getElem?_map, List.getElem?_range h]

theorem home_light_fields_small (patterns : List HomeLightPattern)
    (h : ∀ x ∈ patterns, x.intensity < 16 ∧ x.duration < 16 ∧ x.transition < 16) (i : Nat) :
    (patterns.getD i ⟨0, 0, 0⟩).intensity < 16 ∧ (patterns.getD i ⟨0, 0, 0⟩).duration < 16
      ∧ (patterns.getD i ⟨0, 0, 0⟩).transition < 16 := by
  rw [List.getD_eq_getElem?_getD]
  cases hi : patterns[i]? with
  | none => simp
  | some x => simpa using h x (List.getElem?_mem hi)

theorem home_light_step (patterns : List HomeLightPattern)
    (h : ∀ x ∈ patterns, x.intensity < 16 ∧ x.duration < 16 ∧ x.transition < 16)
    (k : Nat) (hk : k < 15) :
    (((List.range 23).map (home_light_bytes patterns k)).set (3 * (k / 2))
        ((((List.range 23).map (home_light_bytes patterns k)).getD (3 * (k / 2)) 0
          ||| ((patterns.getD k ⟨0, 0, 0⟩).intensity <<< (4 * (1 - k % 2)))) % 256)).set
      (3 * (k / 2) + k % 2 + 1)
      ((((patterns.getD k ⟨0, 0, 0⟩).transition <<< 4)
          ||| ((patterns.getD k ⟨0, 0, 0⟩).duration &&& 0x0F)) % 256)
    = (List.range 23).map (home_light_bytes patterns (k + 1)) := by
  have hs := home_light_fields_small patterns h
  have h1 : 3 * (k / 2) < 23 := by omega
  have h2 : 3 * (k / 2) + k % 2 + 1 < 23 := by omega
  rw [getD_map_range _ _ _ h1, nibble_pair _ (hs k).2.2 _ (hs k).2.1]
  apply List.ext_getElem?
  intro j
  by_cases hj : j < 23
  · rw [List.getElem?_set, List.getElem?_set]
    simp only [List.length_set, List.length_map, List.length_range, h1, h2, if_true,
      List.getElem?_map, List.getElem?_range hj, Option.map_some']
    by_cases e2 : 3 * (k / 2) + k % 2 + 1 = j
    · simp only [e2, if_true]
      have hm : j % 3 ≠ 0 := by omega
      have hidx : 2 * (j / 3) + (j % 3 - 1) = k := by omega
      simp only [home_light_bytes, hm, if_false, hidx, Nat.lt_succ_self, if_true]
    · simp only [e2, if_false]
      by_cases e1 : 3 * (k / 2) = j
      · rw [if_pos e1]
        subst e1
        have hm : 3 * (k / 2) % 3 = 0 := by omega
        have hd : 3 * (k / 2) / 3 = k / 2 := by omega
        simp only [home_light_bytes, hm, if_true, hd]
        rcases Nat.mod_two_eq_zero_or_one k with hr | hr
        · have c1 : ¬ 2 * (k / 2) < k := by omega
          have c2 : ¬ 2 * (k / 2) + 1 < k := by omega
          have c3 : 2 * (k / 2) < k + 1 := by omega
          have c4 : ¬ 2 * (k / 2) + 1 < k + 1 := by omega
          have e : 2 * (k / 2) = k := by omega
          rw [if_neg c1, if_neg c2, if_pos c3, if_neg c4, e, hr]
          exact congrArg some (nibble_high _ (hs k).1)
        · have c1 : 2 * (k / 2) < k := by omega
          have c2 : ¬ 2 * (k / 2) + 1 < k := by omega
          have c3 : 2 * (k / 2) < k + 1 := by omega
          have c4 : 2 * (k / 2) + 1 < k + 1 := by omega
          have e : 2 * (k / 2) + 1 = k := by omega
          rw [if_pos c1, if_neg c2, if_pos c3, if_pos c4, e, hr]
          exact congrArg some (nibble_low _ (hs _).1 _ (hs k).1)
      · rw [if_neg e1]
        congr 1
        simp only [home_light_bytes]
        by_cases hm : j % 3 = 0
        · have c1 : (2 * (j / 3) < k + 1) = (2 * (j / 3) < k) := by
            apply propext; constructor <;> intro <;> omega
          have c2 : (2 * (j / 3) + 1 < k + 1) = (2 * (j / 3) + 1 < k) := by
            apply propext; constructor <;> intro <;> omega
          simp only [hm, if_true, c1, c2]
        · have c1 : (2 * (j / 3) + (j % 3 - 1) < k + 1) = (2 * (j / 3) + (j % 3 - 1) < k) := by
            apply propext; constructor <;> intro <;> omega
          simp only [hm, if_false, c1]
  · have hl1 : ∀ l : List Nat, l.length = 23 → l[j]? = none := by
      intro l hl
      exact List.getElem?_eq_none (by omega)
    rw [hl1 _ (by simp), hl1 _ (by simp)]

theorem home_light_pattern_eq_bytes (patterns : List HomeLightPattern)
    (h : ∀ x ∈ patterns, x.intensity < 16 ∧ x.duration < 16 ∧ x.transition < 16) :
    ∀ k, k ≤ 15 →
      home_light_pattern patterns k = (List.range 23).map (home_light_bytes patterns k) := by
  intro k
  induction k with
  | zero =>
    intro _
    have hz : home_light_bytes patterns 0 = fun _ => 0 := by
      funext j
      simp [home_light_bytes]
    rw [hz]
    rfl
  | succ k ih =>
    intro hk
    have e : home_light_pattern patterns (k + 1) =
        ((home_light_pattern patterns k).set (3 * (k / 2))
          (((home_light_pattern patterns k).getD (3 * (k / 2)) 0
            ||| ((patterns.getD k ⟨0, 0, 0⟩).intensity <<< (4 * (1 - k % 2)))) % 256)).set
        (3 * (k / 2) + k % 2 + 1)
        ((((patterns.getD k ⟨0, 0, 0⟩).transition <<< 4)
            ||| ((patterns.getD k ⟨0, 0, 0⟩).duration &&& 0x0F)) % 256) := by
      simp only [home_light_pattern, List.range_succ, List.foldl_append, List.foldl_cons,
        List.foldl_nil]
    rw [e, ih (by omega)]
    exact home_light_step patterns h k (by omega)

set_option maxRecDepth 100000 in
theorem nibble_pair_value : ∀ t, t < 16 → ∀ d, d < 16 →
    (t <<< 4) ||| (d &&& 0x0F) = 16 * t + d := by
  decide

/-- C16: for every list of `n <= 15` home-light triples with 4-bit fields,
`home_light_pattern` writes only at indices below 23 of the 23-byte array;
`raw[3*(i/2)]` holds `intensity_i` in its high nibble when `i` is even and in
its low nibble when `i` is odd; `raw[3*(i/2) + (i%2) + 1]` is
`(transition_i << 4) | (duration_i & 0x0F)`; and every byte that no triple
addresses is zero. -/
theorem home_light_pattern_packing (patterns : List HomeLightPattern) (hn : patterns.length ≤ 15)
    (h : ∀ x ∈ patterns, x.intensity < 16 ∧ x.duration < 16 ∧ x.transition < 16) :
    (home_light_pattern patterns patterns.length).length = 23
    ∧ (∀ i, i < patterns.length →
        3 * (i / 2) < 23 ∧ 3 * (i / 2) + i % 2 + 1 < 23
        ∧ (i % 2 = 0 →
            (home_light_pattern patterns patterns.length).getD (3 * (i / 2)) 0 / 16
              = (patterns.getD i ⟨0, 0, 0⟩).intensity)
        ∧ (i % 2 = 1 →
            (home_light_pattern patterns patterns.length).getD (3 * (i / 2)) 0 % 16
              = (patterns.getD i ⟨0, 0, 0⟩).intensity)
        ∧ (home_light_pattern patterns patterns.length).getD (3 * (i / 2) + i % 2 + 1) 0
            = ((patterns.getD i ⟨0, 0, 0⟩).transition <<< 4)
              ||| ((patterns.getD i ⟨0, 0, 0⟩).duration &&& 0x0F))
    ∧ (∀ j, j < 23 → (∀ i, i < patterns.length → j ≠ 3 * (i / 2) ∧ j ≠ 3 * (i / 2) + i % 2 + 1) →
        (home_light_pattern patterns patterns.length).getD j 0 = 0) := by
  have hs := home_light_fields_small patterns h
  rw [home_light_pattern_eq_bytes patterns h _ hn]
  refine ⟨by simp, ?_, ?_⟩
  · intro i hi
    have h1 : 3 * (i / 2) < 23 := by omega
    have h2 : 3 * (i / 2) + i % 2 + 1 < 23 := by omega
    refine ⟨h1, h2, ?_, ?_, ?_⟩
    · intro hr
      rw [getD_map_range _ _ _ h1]
      have hm : 3 * (i / 2) % 3 = 0 := by omega
      have hd : 3 * (i / 2) / 3 = i / 2 := by omega
      have e : 2 * (i / 2) = i := by omega
      simp only [home_light_bytes, hm, if_true, hd, e, hi]
      have := (hs (i + 1)).1
      split <;> omega
    · intro hr
      rw [getD_map_range _ _ _ h1]
      have hm : 3 * (i / 2) % 3 = 0 := by omega
      have hd : 3 * (i / 2) / 3 = i / 2 := by omega
      have e : 2 * (i / 2) + 1 = i := by omega
      have c : 2 * (i / 2) < patterns.length := by omega
      simp only [home_light_bytes, hm, if_true, hd, e, hi, c]
      have := (hs i).1
      omega
    · rw [getD_map_range _ _ _ h2]
      have hm : (3 * (i / 2) + i % 2 + 1) % 3 ≠ 0 := by omega
      have hidx : 2 * ((3 * (i / 2) + i % 2 + 1) / 3) + ((3 * (i / 2) + i % 2 + 1) % 3 - 1) = i := by
        omega
      simp only [home_light_bytes, hm, if_false, hidx, hi, if_true]
      exact (nibble_pair_value _ (hs i).2.2 _ (hs i).2.1).symm
  · intro j hj hun
    rw [getD_map_range _ _ _ hj]
    by_cases hm : j % 3 = 0
    · have c1 : ¬ 2 * (j / 3) < patterns.length := by
        intro hc
        have := (hun (2 * (j / 3)) hc).1
        omega
      have c2 : ¬ 2 * (j / 3) + 1 < patterns.length := by omega
      simp only [home_light_bytes, hm, if_true, c1, c2, if_false]
    · have c1 : ¬ 2 * (j / 3) + (j % 3 - 1) < patterns.length := by
        intro hc
        have := (hun (2 * (j / 3) + (j % 3 - 1)) hc).2
        omega
      simp only [home_light_bytes, hm, if_false, c1]

/-- An instance of C16: the table `double_blink_pattern` of the source. -/
theorem home_light_pattern_packing_witness :
    (home_light_pattern double_blink_pattern double_blink_pattern.length).length = 23
    ∧ home_light_pattern double_blink_pattern double_blink_pattern.length =
        [0xF0, 0xF0, 0xF0, 0xF0, 0xF0, 0xF0, 0x00, 0xF0, 0xF0, 0, 0, 0, 0, 0, 0, 0, 0, 0, 0, 0,
         0, 0, 0] :=
  ⟨(home_light_pattern_packing double_blink_pattern (by decide) (by decide)).1, by decide⟩

theorem bzero_of_length (o : List Nat) (n : Nat) (h : o.length ≤ n) :
    bzero o n = List.replicate n 0 := by
  simp [bzero, List.drop_eq_nil_of_le h]

theorem bitfield_store_led (P F : Nat) :
    bitfield_store (bitfield_store (bitfield_store (bitfield_store 0 0 4 PLAYER_0) 4 4
      PLAYER_FLASH_0) 0 4 P) 4 4 F = F % 16 * 16 + P % 16 := by
  have h0 : bitfield_store (bitfield_store 0 0 4 PLAYER_0) 4 4 PLAYER_FLASH_0 = 0 := by decide
  rw [h0]
  simp only [bitfield_store]
  norm_num
  omega

/-- The report that `SetPlayer` builds in a 49-byte `output_`. -/
theorem SetPlayer_output_eq (o : List Nat) (P F : Nat) (h : o.length = 49) :
    SetPlayer_output o P F =
      (((List.replicate 49 0).set 0 0x01).set 10 0x30).set 11 (F % 16 * 16 + P % 16) := by
  unfold SetPlayer_output
  rw [bzero_of_length o OUTPUT_REPORT_SIZE (by simp [OUTPUT_REPORT_SIZE, h])]
  rw [← bitfield_store_led P F]
  rfl

set_option maxRecDepth 100000 in
theorem shl4_or_of_nibbles : ∀ p, p < 16 → ∀ f, f < 16 →
    f % 16 * 16 + p % 16 = (f <<< 4) ||| p := by
  decide

/-- C17: for player and flash bitmaps `p`, `f` in `0..15`, `SetPlayer(p, f)`
builds in the 49-byte `output_` a report with byte 0 = `0x01`, byte 10 =
`0x30`, byte 11 = `(f << 4) | p` and every other byte zero, and sends it with
the timer stamped into byte 1. -/
theorem ControllerImpl.SetPlayer_report (c : ControllerImpl) (p f : Nat) (hp : p < 16)
    (hf : f < 16) (hlen : c.output_.length = 49) :
    SetPlayer_output c.output_ p f =
        (((List.replicate 49 0).set 0 0x01).set 10 0x30).set 11 ((f <<< 4) ||| p)
    ∧ (SetPlayer_output c.output_ p f).length = 49
    ∧ ∀ (s : Session Unit) (g : List Nat → Int) (_timer future : Nat),
        s.is_alive_ = true → s.push_type_ = PushType.FREE → s.remote_.sender = some g →
        ∃ r, c.SetPlayer p f [s] _timer future = .ok r
          ∧ r.ret = none
          ∧ r.events.head? = some (Event.sender
              ((((((List.replicate 49 0).set 0 0x01).set 10 0x30).set 11 ((f <<< 4) ||| p)).set 1
                (TIMER _timer)).take s.remote_.send_size)) := by
  have e : SetPlayer_output c.output_ p f =
      (((List.replicate 49 0).set 0 0x01).set 10 0x30).set 11 ((f <<< 4) ||| p) := by
    rw [SetPlayer_output_eq c.output_ p f hlen, shl4_or_of_nibbles p hp f hf]
  refine ⟨e, by rw [e]; simp, ?_⟩
  intro s g _timer future ha hpt hs
  obtain ⟨r, e1, _, _, ev, _⟩ := Transmit_of_request s ha hpt g hs
    (session.Task.new Unit future) future RETRY (SetPlayer_output c.output_ p f)
    SetPlayer_inspector _timer
  refine ⟨{ ret := none,
            impl := { output_ := r.buffer.getD (SetPlayer_output c.output_ p f),
                      results_ := [future] },
            sessions := [r.session], _timer := r._timer, events := r.events ++ [] }, ?_, rfl, ?_⟩
  · simp only [ControllerImpl.SetPlayer, ControllerImpl.submit, ControllerImpl.Transmit,
      transmit, e1]
  · rw [List.append_nil, ev, e]

/-- The instance of C17 in the specification: `p = 0b0101`, `f = 0b1010` gives
byte 11 = `0xA5`. -/
theorem ControllerImpl.SetPlayer_report_witness :
    SetPlayer_output (List.replicate 49 0) 0b0101 0b1010 =
      (((List.replicate 49 0).set 0 0x01).set 10 0x30).set 11 0xA5 :=
  (ControllerImpl.SetPlayer_report ⟨List.replicate 49 0, []⟩ 0b0101 0b1010 (by decide)
    (by decide) rfl).1

/-- Instance of C18: `Controller_set_player` with player value 2 and flash
value 0 sends a report whose LED byte is 3, two LEDs lit, not the bitmask
2. -/
theorem Controller_set_player_not_literal :
    ∃ r, Controller_set_player ⟨List.replicate 49 0, []⟩ 2 0
          [Session.new Unit ⟨some (fun _ => 49), 49, 64⟩] 0 1 = .ok r
      ∧ r.events.head? = some (Event.sender
          (((((List.replicate 49 0).set 0 0x01).set 1 1).set 10 0x30).set 11 3))
      ∧ r.impl.output_.getD 11 0 % 16 = 3
      ∧ r.impl.output_.getD 11 0 % 16 ≠ 2 :=
  ⟨_, rfl, rfl, rfl, by decide⟩

theorem and_0xf_eq_mod (x : Nat) : x &&& 0xf = x % 16 :=
  Nat.and_pow_two_sub_one_eq_mod x 4

theorem n_lit_nibble (n : Nat) :
    ((0x1 <<< (n % 16)) - 1) % 16 = if n % 16 < 4 then 2 ^ (n % 16) - 1 else 15 := by
  have h : n % 16 < 16 := Nat.mod_lt _ (by decide)
  generalize n % 16 = m at h
  interval_cases m <;> rfl

/-- C18 (the code differs): `Controller_set_player(player, flash)` does not
hand the two values on as bitmaps. It masks each value to four bits and turns
the result `n` into the bitmap `(1 << n) - 1`, which the 4-bit field
truncates: the LED byte of the report it builds has the low nibble `2^n - 1`
for `n = player & 0xf` below 4 and `0xF` for `n >= 4`, and the high nibble
computed in the same way from `flash`. Of the sixteen values only 0, 1 and 15
come out as they went in. -/
theorem Controller_set_player_led (c : ControllerImpl) (player flash : Nat)
    (sessions : List (Session Unit)) (_timer future : Nat) (hlen : c.output_.length = 49) :
    Controller_set_player c player flash sessions _timer future =
        c.SetPlayer ((0x1 <<< (player % 16)) - 1) ((0x1 <<< (flash % 16)) - 1) sessions
          _timer future
    ∧ SetPlayer_output c.output_ ((0x1 <<< (player % 16)) - 1) ((0x1 <<< (flash % 16)) - 1) =
        (((List.replicate 49 0).set 0 0x01).set 10 0x30).set 11
          ((if flash % 16 < 4 then 2 ^ (flash % 16) - 1 else 15) * 16
            + (if player % 16 < 4 then 2 ^ (player % 16) - 1 else 15))
    ∧ (player < 16 →
        ((SetPlayer_output c.output_ ((0x1 <<< (player % 16)) - 1)
            ((0x1 <<< (flash % 16)) - 1)).getD 11 0 % 16 = player
          ↔ player = 0 ∨ player = 1 ∨ player = 15)) := by
  have hout : SetPlayer_output c.output_ ((0x1 <<< (player % 16)) - 1)
      ((0x1 <<< (flash % 16)) - 1) =
        (((List.replicate 49 0).set 0 0x01).set 10 0x30).set 11
          ((if flash % 16 < 4 then 2 ^ (flash % 16) - 1 else 15) * 16
            + (if player % 16 < 4 then 2 ^ (player % 16) - 1 else 15)) := by
    rw [SetPlayer_output_eq _ _ _ hlen, n_lit_nibble, n_lit_nibble]
  refine ⟨?_, hout, ?_⟩
  · simp only [Controller_set_player, Player_, PlayerFlash_, _PLAYER, _PLAYER_FLASH,
      and_0xf_eq_mod]
  · intro hp
    rw [hout, List.getD_eq_getElem?_getD, List.getElem?_set_self (by simp)]
    show ((if flash % 16 < 4 then 2 ^ (flash % 16) - 1 else 15) * 16
      + (if player % 16 < 4 then 2 ^ (player % 16) - 1 else 15)) % 16 = player ↔ _
    rw [Nat.mul_add_mod']
    interval_cases player <;> decide

/-- Instance of C18: player value 5 and flash value 2 give the LED byte
`0x3F`. -/
theorem Controller_set_player_led_witness :
    SetPlayer_output (List.replicate 49 0) ((0x1 <<< (5 % 16)) - 1) ((0x1 <<< (2 % 16)) - 1) =
      (((List.replicate 49 0).set 0 0x01).set 10 0x30).set 11 0x3F :=
  (Controller_set_player_led ⟨List.replicate 49 0, []⟩ 5 2 [] 0 1 rfl).2.1

/-- What `Session::Transmit` does on a live session in push type `FREE` whose
sender accepts the report, for a task without inspector: the report is
stamped and sent, the future resolves `DONE`, nothing is queued. -/
theorem Transmit_of_bytes {σ : Type} (s : Session σ) (ha : s.is_alive_ = true)
    (hp : s.push_type_ = PushType.FREE) (f : List Nat → Int) (hs : s.remote_.sender = some f)
    (hf : ∀ x, 0 ≤ f x) (sp : session.Task σ) (future retry : Nat) (b : List Nat)
    (_timer : Nat) :
    s.Transmit sp future retry (some b) none _timer =
      .ok { session := s, buffer := some (b.set 1 (TIMER _timer)), _timer := TIMER _timer,
            task := { sp.Reset future retry none with
                      promise_ := { future := future, value := some DONE } },
            events := [Event.sender ((b.set 1 (TIMER _timer)).take s.remote_.send_size),
                       Event.set_value future DONE] } := by
  have hf1 : ¬ f ((b.set 1 (TIMER _timer)).take s.remote_.send_size) < 0 := by
    have := hf ((b.set 1 (TIMER _timer)).take s.remote_.send_size)
    omega
  simp [Session.Transmit, ha, hp, Session.Send, hs, hf1, Task.Done, Promise.set_value,
    Task.Reset]

/-- The fan-out of a report without inspector over live sessions whose senders
accept it: one send and one `DONE` per session, in order, with successive
timers; the sessions are left as they were. -/
theorem transmit_of_bytes {σ : Type} (retry : Nat) (b : List Nat) (tm fut : Nat) :
    ∀ (sessions : List (Session σ)) (b0 : List Nat) (k : Nat),
      (∀ x, b0.set 1 x = b.set 1 x) →
      (∀ s ∈ sessions, s.is_alive_ = true ∧ s.push_type_ = PushType.FREE
        ∧ ∃ f, s.remote_.sender = some f ∧ ∀ x, 0 ≤ f x) →
      ∃ r, transmit retry (none : Option (Inspector σ)) sessions (some b0) ((tm + k) % 256)
            (fut + k) = .ok r
        ∧ r.sessions = sessions
        ∧ r.results_ = List.range' (fut + k) sessions.length
        ∧ r.events =
            (List.zipWith (fun s i =>
                [Event.sender ((b.set 1 ((tm + i + 1) % 256)).take s.remote_.send_size),
                 Event.set_value (fut + i) DONE])
              sessions (List.range' k sessions.length)).flatten := by
  intro sessions
  induction sessions with
  | nil =>
    intro b0 k _ _
    exact ⟨_, rfl, rfl, rfl, rfl⟩
  | cons s rest ih =>
    intro b0 k hb hall
    obtain ⟨ha, hp, f, hs, hf⟩ := hall s (List.mem_cons_self _ _)
    have ht : TIMER ((tm + k) % 256) = (tm + (k + 1)) % 256 := by
      rw [TIMER_eq _ (Nat.mod_lt _ (by decide))]
      omega
    have e1 := Transmit_of_bytes s ha hp f hs hf (session.Task.new σ (fut + k)) (fut + k)
      retry b0 ((tm + k) % 256)
    rw [ht] at e1
    obtain ⟨r, e2, rs, rr, re⟩ := ih (b0.set 1 ((tm + (k + 1)) % 256)) (k + 1)
      (by intro x; rw [List.set_set]; exact hb x)
      (fun u hu => hall u (List.mem_cons_of_mem _ hu))
    have e3 : fut + (k + 1) = fut + k + 1 := by omega
    rw [e3] at e2
    refine ⟨{ sessions := s :: r.sessions, buffer := r.buffer, _timer := r._timer,
              results_ := (fut + k) :: r.results_,
              events := [Event.sender ((b0.set 1 ((tm + (k + 1)) % 256)).take
                          s.remote_.send_size),
                         Event.set_value (fut + k) DONE] ++ r.events }, ?_, ?_, ?_, ?_⟩
    · simp only [transmit, e1, e2]
    · simp only [rs]
    · simp only [rr, List.length_cons, List.range'_succ, e3]
    · simp only [re, List.length_cons, List.range'_succ, List.zipWith_cons_cons,
        List.flatten_cons, hb]
      rfl

theorem Rumble_output_eq (o : List Nat) (left right : Option RumbleData) (h : o.length = 49) :
    Rumble_output o left right =
      [0x10, 0] ++ (left.getD ⟨0, 0, 0, 0⟩).bytes ++ (right.getD ⟨0, 0, 0, 0⟩).bytes
        ++ List.replicate 39 0 := by
  unfold Rumble_output
  rw [bzero_of_length o OUTPUT_REPORT_SIZE (by simp [OUTPUT_REPORT_SIZE, h])]
  cases left <;> cases right <;> rfl

/-- C19: `Rumble(left, right)` with both arguments absent returns 0 and
builds and sends nothing; otherwise, on live sessions (push type `FREE`) whose
senders accept the report, it sends exactly one report per session, in order,
each with byte 0 = `0x10`, the timer in byte 1, bytes 2..5 the left rumble
bytes (zeros if left is absent), bytes 6..9 the right rumble bytes (zeros if
right is absent) and bytes 10..48 zero; each future resolves `DONE` and no
task is queued, the sessions being left as they were. -/
theorem ControllerImpl.Rumble_report {σ : Type} (c : ControllerImpl)
    (sessions : List (Session σ)) (_timer future : Nat) :
    c.Rumble none none sessions _timer future =
        .ok { ret := some 0, impl := c, sessions := sessions, _timer := _timer, events := [] }
    ∧ ∀ (left right : Option RumbleData), ¬ (left = none ∧ right = none) →
        c.output_.length = 49 → _timer < 256 →
        (∀ s ∈ sessions, s.is_alive_ = true ∧ s.push_type_ = PushType.FREE
          ∧ ∃ f, s.remote_.sender = some f ∧ ∀ x, 0 ≤ f x) →
        ∃ r, c.Rumble left right sessions _timer future = .ok r
          ∧ r.ret = none
          ∧ r.sessions = sessions
          ∧ r.impl.results_ = List.range' future sessions.length
          ∧ r.events =
              (List.zipWith (fun s i =>
                  [Event.sender
                    ((([0x10, 0] ++ (left.getD ⟨0, 0, 0, 0⟩).bytes
                        ++ (right.getD ⟨0, 0, 0, 0⟩).bytes ++ List.replicate 39 0).set 1
                      ((_timer + i + 1) % 256)).take s.remote_.send_size),
                   Event.set_value (future + i) DONE])
                sessions (List.range sessions.length)).flatten := by
  constructor
  · simp [ControllerImpl.Rumble]
  · intro left right hne hlen htm hall
    have hc : (left.isNone && right.isNone) = false := by
      cases left <;> cases right <;> simp at hne ⊢
    obtain ⟨r, e, rs, rr, re⟩ := transmit_of_bytes (σ := σ) RETRY
      (Rumble_output c.output_ left right) _timer future sessions
      (Rumble_output c.output_ left right) 0 (fun _ => rfl) hall
    simp only [Nat.add_zero, Nat.mod_eq_of_lt htm] at e rr
    refine ⟨{ ret := none,
              impl := { output_ := r.buffer.getD (Rumble_output c.output_ left right),
                        results_ := r.results_ },
              sessions := r.sessions, _timer := r._timer, events := r.events }, ?_, rfl, rs, rr,
            ?_⟩
    · simp only [ControllerImpl.Rumble, hc, ControllerImpl.submit, ControllerImpl.Transmit, e]
      rfl
    · simp only [re, Rumble_output_eq c.output_ left right hlen, List.range_eq_range']

/-- Instances of C19: with both arguments absent nothing is sent; a left
rumble on the two sessions of a dual controller is sent once to each. -/
theorem ControllerImpl.Rumble_report_witness :
    (ControllerImpl.mk (List.replicate 49 0) []).Rumble none none
        [Session.new Unit ⟨some (fun _ => 49), 12, 64⟩] 0 1 =
      .ok { ret := some 0, impl := ControllerImpl.mk (List.replicate 49 0) [],
            sessions := [Session.new Unit ⟨some (fun _ => 49), 12, 64⟩], _timer := 0,
            events := [] }
    ∧ ∃ r, (ControllerImpl.mk (List.replicate 49 0) []).Rumble (some ⟨1, 2, 3, 4⟩) none
          [Session.new Unit ⟨some (fun _ => 49), 12, 64⟩,
           Session.new Unit ⟨some (fun _ => 49), 12, 64⟩] 0 1 = .ok r
        ∧ r.ret = none
        ∧ r.events =
            [Event.sender [0x10, 1, 1, 2, 3, 4, 0, 0, 0, 0, 0, 0], Event.set_value 1 DONE,
             Event.sender [0x10, 2, 1, 2, 3, 4, 0, 0, 0, 0, 0, 0], Event.set_value 2 DONE] := by
  refine ⟨(ControllerImpl.Rumble_report (ControllerImpl.mk (List.replicate 49 0) [])
      [Session.new Unit ⟨some (fun _ => 49), 12, 64⟩] 0 1).1, ?_⟩
  obtain ⟨r, e, hr, _, _, ev⟩ :=
    (ControllerImpl.Rumble_report (ControllerImpl.mk (List.replicate 49 0) [])
      [Session.new Unit ⟨some (fun _ => 49), 12, 64⟩,
       Session.new Unit ⟨some (fun _ => 49), 12, 64⟩] 0 1).2 (some ⟨1, 2, 3, 4⟩) none
      (by simp) rfl (by decide)
      (by
        intro s hs
        simp only [List.mem_cons, List.mem_singleton, List.not_mem_nil, or_false, or_self] at hs
        subst hs
        exact ⟨rfl, rfl, _, rfl, fun _ => by decide⟩)
  exact ⟨r, e, hr, ev.trans (by decide)⟩

/-- C20: `CalcRumblef`, exported as `calc_rumble_data`, returns `-EINVAL`
exactly when `freq_h < 80` or `freq_h > 1252` or `freq_l < 40` or
`freq_l > 626` or an amplitude is `< 0` or `> 1` (in the comparison of
`float`), and then leaves the rumble bytes unchanged; on every other input it
returns 0. -/
theorem CalcRumblef_range {F : Type} (ops : FloatOps F) (rumble : RumbleData)
    (freq_h freq_h_amp freq_l freq_l_amp : F) :
    ((ops.lt freq_h (ops.lit 80 1) = true ∨ ops.lt (ops.lit 1252 1) freq_h = true
        ∨ ops.lt freq_l (ops.lit 40 1) = true ∨ ops.lt (ops.lit 626 1) freq_l = true
        ∨ ops.lt freq_h_amp (ops.lit 0 1) = true ∨ ops.lt (ops.lit 1 1) freq_h_amp = true
        ∨ ops.lt freq_l_amp (ops.lit 0 1) = true ∨ ops.lt (ops.lit 1 1) freq_l_amp = true) →
      CalcRumblef ops rumble freq_h freq_h_amp freq_l freq_l_amp = (-EINVAL, rumble))
    ∧ (¬ (ops.lt freq_h (ops.lit 80 1) = true ∨ ops.lt (ops.lit 1252 1) freq_h = true
        ∨ ops.lt freq_l (ops.lit 40 1) = true ∨ ops.lt (ops.lit 626 1) freq_l = true
        ∨ ops.lt freq_h_amp (ops.lit 0 1) = true ∨ ops.lt (ops.lit 1 1) freq_h_amp = true
        ∨ ops.lt freq_l_amp (ops.lit 0 1) = true ∨ ops.lt (ops.lit 1 1) freq_l_amp = true) →
      (CalcRumblef ops rumble freq_h freq_h_amp freq_l freq_l_amp).1 = 0)
    ∧ calc_rumble_data ops ⟨freq_h, freq_h_amp, freq_l, freq_l_amp⟩ rumble =
        CalcRumblef ops rumble freq_h freq_h_amp freq_l freq_l_amp
    ∧ -EINVAL ≠ 0 := by
  refine ⟨?_, ?_, rfl, by decide⟩
  · intro h
    unfold CalcRumblef
    by_cases h1 : (ops.lt freq_h (ops.lit 80 1) || ops.lt (ops.lit 1252 1) freq_h
        || ops.lt freq_h_amp (ops.lit 0 1) || ops.lt (ops.lit 1 1) freq_h_amp) = true
    · rw [if_pos h1]
    · rw [if_neg h1]
      have h2 : (ops.lt freq_l (ops.lit 40 1) || ops.lt (ops.lit 626 1) freq_l
          || ops.lt freq_l_amp (ops.lit 0 1) || ops.lt (ops.lit 1 1) freq_l_amp) = true := by
        simp only [Bool.or_eq_true, not_or] at h1 ⊢
        tauto
      rw [if_pos h2]
  · intro h
    unfold CalcRumblef
    have h1 : ¬ (ops.lt freq_h (ops.lit 80 1) || ops.lt (ops.lit 1252 1) freq_h
        || ops.lt freq_h_amp (ops.lit 0 1) || ops.lt (ops.lit 1 1) freq_h_amp) = true := by
      simp only [Bool.or_eq_true, not_or] at h ⊢
      tauto
    have h2 : ¬ (ops.lt freq_l (ops.lit 40 1) || ops.lt (ops.lit 626 1) freq_l
        || ops.lt freq_l_amp (ops.lit 0 1) || ops.lt (ops.lit 1 1) freq_l_amp) = true := by
      simp only [Bool.or_eq_true, not_or] at h ⊢
      tauto
    rw [if_neg h1, if_neg h2]

/-- Instances of C20 on whole numbers: a high frequency of 79 is rejected and
the rumble bytes stay; the frequencies 320 and 160 with amplitudes 1 are
accepted. -/
theorem CalcRumblef_range_witness :
    CalcRumblef FloatOps.integers ⟨1, 2, 3, 4⟩ 79 1 160 1 = (-EINVAL, ⟨1, 2, 3, 4⟩)
    ∧ (CalcRumblef FloatOps.integers ⟨1, 2, 3, 4⟩ 320 1 160 1).1 = 0 :=
  ⟨(CalcRumblef_range FloatOps.integers ⟨1, 2, 3, 4⟩ 79 1 160 1).1 (Or.inl (by decide)),
   (CalcRumblef_range FloatOps.integers ⟨1, 2, 3, 4⟩ 320 1 160 1).2.1 (by decide)⟩

/-! ## `Await` -/

theorem Await_fold_none (get : Nat → Option Int) (l : List Nat) :
    l.foldl
      (fun (acc : Option (Int × List Nat)) it =>
        match acc with
        | none => none
        | some (_, waited) =>
          match get it with
          | none => none
          | some v => some (v, waited ++ [it]))
      none = none := by
  induction l with
  | nil => rfl
  | cons a l ih => simpa only [List.foldl_cons] using ih

theorem Await_fold_some (get : Nat → Option Int) :
    ∀ (l : List Nat) (v0 : Int) (w : List Nat), (∀ it ∈ l, (get it).isSome = true) →
      l.foldl
        (fun (acc : Option (Int × List Nat)) it =>
          match acc with
          | none => none
          | some (_, waited) =>
            match get it with
            | none => none
            | some v => some (v, waited ++ [it]))
        (some (v0, w)) = some ((l.getLast?.bind get).getD v0, w ++ l) := by
  intro l
  induction l with
  | nil => intro v0 w _; simp
  | cons a l ih =>
    intro v0 w h
    obtain ⟨v, hv⟩ := Option.isSome_iff_exists.mp (h a (List.mem_cons_self _ _))
    have hl : ∀ it ∈ l, (get it).isSome = true := fun it hit => h it (List.mem_cons_of_mem _ hit)
    simp only [List.foldl_cons, hv]
    rw [ih v (w ++ [a]) hl]
    cases l with
    | nil => simp [hv]
    | cons b l1 =>
      have hne : (b :: l1) ≠ [] := by simp
      obtain ⟨u, hu⟩ := Option.isSome_iff_exists.mp
        (hl ((b :: l1).getLast hne) (List.getLast_mem hne))
      simp [List.getLast?_eq_getLast _ hne, hu]

theorem Await_fold_blocked (get : Nat → Option Int) :
    ∀ (l : List Nat) (acc : Option (Int × List Nat)), (∃ it ∈ l, get it = none) →
      l.foldl
        (fun (acc : Option (Int × List Nat)) it =>
          match acc with
          | none => none
          | some (_, waited) =>
            match get it with
            | none => none
            | some v => some (v, waited ++ [it]))
        acc = none := by
  intro l
  induction l with
  | nil => intro _ h; simp at h
  | cons a l ih =>
    intro acc h
    obtain ⟨it, hit, hn⟩ := h
    rw [List.foldl_cons]
    rcases List.mem_cons.mp hit with e | e
    · subst e
      cases acc with
      | none => exact Await_fold_none get l
      | some p => simp only [hn]; exact Await_fold_none get l
    · exact ih _ ⟨it, e, hn⟩

/-- The futures that the fan-out over two sessions records, in order. -/
theorem submit_two_results {σ : Type} (c : ControllerImpl) (output : List Nat)
    (inspector : Option (Inspector σ)) (s1 s2 : Session σ) (_timer future : Nat)
    (r : Call σ) (h : c.submit output inspector [s1, s2] _timer future = .ok r) :
    r.ret = none ∧ r.impl.results_ = [future, future + 1] := by
  simp only [ControllerImpl.submit, ControllerImpl.Transmit, transmit] at h
  split at h
  · cases h
  · rename_i r0 h0
    split at h0
    · cases h0
    · rename_i r1 _
      split at h0
      · cases h0
      · rename_i r2 h2
        split at h2
        · cases h2
        · cases h2
          cases h0
          cases h
          exact ⟨rfl, rfl⟩

/-- C24: `Await` returns when every recorded future delivers a value; it then
has waited on the futures of `results_` in the order they were recorded and
returns the value of the last one, 0 when there is none, whatever the earlier
values were; a future that never delivers keeps `Await` from returning. After
a fan-out over the two sessions of a dual controller the futures are recorded
in the order of the transmits and the caller gets the value of the second
one, also when the first one failed. -/
theorem ControllerImpl.Await_last (c : ControllerImpl) (get : Nat → Option Int) :
    ((∀ it ∈ c.results_, (get it).isSome = true) →
      c.Await get = some ((c.results_.getLast?.bind get).getD 0, c.results_))
    ∧ ((∃ it ∈ c.results_, get it = none) → c.Await get = none)
    ∧ (c.results_ = [] → c.Await get = some (0, []))
    ∧ (∀ (a b : Nat) (v1 v2 : Int), c.results_ = [a, b] → get a = some v1 → get b = some v2 →
        c.Await get = some (v2, [a, b]))
    ∧ (∀ (σ : Type) (output : List Nat) (inspector : Option (Inspector σ))
        (s1 s2 : Session σ) (_timer future : Nat) (r : Call σ) (v1 v2 : Int),
        c.submit output inspector [s1, s2] _timer future = .ok r →
        get future = some v1 → get (future + 1) = some v2 →
        r.impl.results_ = [future, future + 1] ∧ r.result get = some v2) := by
  refine ⟨?_, ?_, ?_, ?_, ?_⟩
  · intro h
    have := Await_fold_some get c.results_ 0 [] h
    simpa only [List.nil_append] using this
  · intro h
    exact Await_fold_blocked get c.results_ _ h
  · intro h
    simp [ControllerImpl.Await, h]
  · intro a b v1 v2 h ha hb
    simp [ControllerImpl.Await, h, ha, hb]
  · intro σ output inspector s1 s2 _timer future r v1 v2 h h1 h2
    obtain ⟨hr, hres⟩ := submit_two_results c output inspector s1 s2 _timer future r h
    refine ⟨hres, ?_⟩
    simp [Call.result, hr, ControllerImpl.Await, hres, h1, h2]

/-- Instances of C24: three futures with the values `TIMEDOUT`, `ERROR`, `DONE`
give `DONE`; on the two sessions of a dual controller whose first future
delivers `TIMEDOUT` and whose second delivers `DONE`, the caller gets `DONE`. -/
theorem ControllerImpl.Await_last_witness :
    (ControllerImpl.mk [] [4, 5, 6]).Await
        (fun it => if it = 4 then some TIMEDOUT else if it = 5 then some ERROR else some DONE) =
      some (DONE, [4, 5, 6])
    ∧ (ControllerImpl.mk [] [4, 5]).Await (fun it => if it = 4 then some DONE else none) = none
    ∧ (ControllerImpl.mk [] [4, 5]).Await
        (fun it => if it = 4 then some TIMEDOUT else some DONE) = some (DONE, [4, 5])
    ∧ ∃ r, (ControllerImpl.mk (List.replicate 49 0) []).submit (List.replicate 49 0)
          (some (⟨(), fun _ _ => (DONE, ())⟩ : Inspector Unit))
          [Session.new Unit ⟨some (fun _ => 49), 49, 64⟩,
           Session.new Unit ⟨some (fun _ => 49), 49, 64⟩] 0 7 = .ok r
        ∧ r.impl.results_ = [7, 8]
        ∧ r.result (fun it => if it = 7 then some TIMEDOUT else some DONE) = some DONE := by
  refine ⟨?_, ?_, ?_, ?_⟩
  · exact (ControllerImpl.Await_last (ControllerImpl.mk [] [4, 5, 6]) _).1 (by decide)
  · exact (ControllerImpl.Await_last (ControllerImpl.mk [] [4, 5]) _).2.1 ⟨5, by decide, rfl⟩
  · exact (ControllerImpl.Await_last (ControllerImpl.mk [] [4, 5]) _).2.2.2.1 4 5 TIMEDOUT DONE
      rfl rfl rfl
  · refine ⟨_, rfl, ?_⟩
    exact (ControllerImpl.Await_last (ControllerImpl.mk (List.replicate 49 0) [])
      (fun it => if it = 7 then some TIMEDOUT else some DONE)).2.2.2.2 Unit
      (List.replicate 49 0) (some (⟨(), fun _ _ => (DONE, ())⟩ : Inspector Unit))
      (Session.new Unit ⟨some (fun _ => 49), 49, 64⟩)
      (Session.new Unit ⟨some (fun _ => 49), 49, 64⟩) 0 7 _ TIMEDOUT DONE rfl rfl rfl

/-! ## `Rumblef` and the façades -/

theorem CalcRumblef_of_einval {F : Type} (ops : FloatOps F) (rumble : RumbleData)
    (freq_h freq_h_amp freq_l freq_l_amp : F)
    (h : (CalcRumblef ops rumble freq_h freq_h_amp freq_l freq_l_amp).1 = -EINVAL) :
    (CalcRumblef ops rumble freq_h freq_h_amp freq_l freq_l_amp).2 = rumble := by
  unfold CalcRumblef at h ⊢
  split_ifs at h ⊢
  · rfl
  · rfl
  · have h0 : (0 : Int) = -EINVAL := h
    exact absurd h0 (by decide)

theorem Await_of_done (c : ControllerImpl) (get : Nat → Option Int)
    (h : ∀ it ∈ c.results_, get it = some DONE) : c.Await get = some (0, c.results_) := by
  have key : ∀ (l w : List Nat), (∀ it ∈ l, get it = some DONE) →
      l.foldl
        (fun (acc : Option (Int × List Nat)) it =>
          match acc with
          | none => none
          | some (_, waited) =>
            match get it with
            | none => none
            | some v => some (v, waited ++ [it]))
        (some (0, w)) = some (0, w ++ l) := by
    intro l
    induction l with
    | nil => intro w _; simp
    | cons a l ih =>
      intro w h
      have ha := h a (List.mem_cons_self _ _)
      simp only [List.foldl_cons, ha]
      have := ih (w ++ [a]) (fun it hit => h it (List.mem_cons_of_mem _ hit))
      simpa [DONE] using this
  have := key c.results_ [] h
  simpa [ControllerImpl.Await] using this

/-- The futures of a fan-out without inspector are all resolved `DONE` by the
events of the fan-out. -/
theorem future_value_of_fanout {σ : Type} (g : Session σ → Nat → List Nat) (fut : Nat) :
    ∀ (sessions : List (Session σ)) (k j : Nat), k ≤ j → j < k + sessions.length →
      future_value
        (List.zipWith (fun s i => [Event.sender (g s i), Event.set_value (fut + i) DONE])
          sessions (List.range' k sessions.length)).flatten (fut + j) = some DONE := by
  intro sessions
  induction sessions with
  | nil => intro k j h1 h2; simp at h2; omega
  | cons s rest ih =>
    intro k j h1 h2
    simp only [List.length_cons, List.range'_succ, List.zipWith_cons_cons, List.flatten_cons]
    by_cases hj : j = k
    · subst hj
      simp [future_value, List.findSome?]
    · have h3 : ¬ (fut + k = fut + j) := by omega
      have := ih (k + 1) j (by omega) (by simp only [List.length_cons] at h2; omega)
      simp only [future_value] at this ⊢
      simp [List.findSome?, h3, this]

/-- What `Rumble` does on live sessions (push type `FREE`) whose senders accept
the report, when a side is supplied. -/
theorem Rumble_of_sessions {σ : Type} (c : ControllerImpl) (left right : Option RumbleData)
    (sessions : List (Session σ)) (_timer future : Nat)
    (hne : ¬ (left = none ∧ right = none)) (hlen : c.output_.length = 49)
    (htm : _timer < 256)
    (hall : ∀ s ∈ sessions, s.is_alive_ = true ∧ s.push_type_ = PushType.FREE
      ∧ ∃ f, s.remote_.sender = some f ∧ ∀ x, 0 ≤ f x) :
    ∃ r, c.Rumble left right sessions _timer future = .ok r
      ∧ r.ret = none
      ∧ r.sessions = sessions
      ∧ r.impl.results_ = List.range' future sessions.length
      ∧ r.events =
          (List.zipWith (fun s i =>
              [Event.sender
                ((([0x10, 0] ++ (left.getD ⟨0, 0, 0, 0⟩).bytes
                    ++ (right.getD ⟨0, 0, 0, 0⟩).bytes ++ List.replicate 39 0).set 1
                  ((_timer + i + 1) % 256)).take s.remote_.send_size),
               Event.set_value (future + i) DONE])
            sessions (List.range' 0 sessions.length)).flatten := by
  have hc : (left.isNone && right.isNone) = false := by
    cases left <;> cases right <;> simp at hne ⊢
  obtain ⟨r, e, rs, rr, re⟩ := transmit_of_bytes (σ := σ) RETRY
    (Rumble_output c.output_ left right) _timer future sessions
    (Rumble_output c.output_ left right) 0 (fun _ => rfl) hall
  simp only [Nat.add_zero, Nat.mod_eq_of_lt htm] at e rr
  refine ⟨{ ret := none,
            impl := { output_ := r.buffer.getD (Rumble_output c.output_ left right),
                      results_ := r.results_ },
            sessions := r.sessions, _timer := r._timer, events := r.events }, ?_, rfl, rs, rr,
          ?_⟩
  · simp only [ControllerImpl.Rumble, hc, ControllerImpl.submit, ControllerImpl.Transmit, e]
    rfl
  · simp only [re, Rumble_output_eq c.output_ left right hlen]

/-- C21 (the code differs): `Rumblef` does not use the value `CalcRumblef`
returns. Whatever the sides are, in range or not, `Rumblef` on live sessions
sends one rumble report to each session and the value the caller gets is 0
(`DONE`), which is not `-EINVAL`; the four bytes of a side that `CalcRumblef`
rejects with `-EINVAL` are zero in the report. -/
theorem ControllerImpl.Rumblef_discards_range {σ F : Type} (ops : FloatOps F)
    (c : ControllerImpl) (left right : Option (RumbleDataF F)) (sessions : List (Session σ))
    (_timer future : Nat)
    (hlen : c.output_.length = 49) (htm : _timer < 256)
    (hall : ∀ s ∈ sessions, s.is_alive_ = true ∧ s.push_type_ = PushType.FREE
      ∧ ∃ f, s.remote_.sender = some f ∧ ∀ x, 0 ≤ f x) :
    ∃ r, c.Rumblef ops left right sessions _timer future = .ok r
      ∧ r.events =
          (List.zipWith (fun s i =>
              [Event.sender
                ((([0x10, 0]
                    ++ ((left.map fun (l : RumbleDataF F) => (CalcRumblef ops ⟨0, 0, 0, 0⟩ l.freq_h
                          l.freq_h_amp l.freq_l l.freq_l_amp).2).getD ⟨0, 0, 0, 0⟩).bytes
                    ++ ((right.map fun (l : RumbleDataF F) => (CalcRumblef ops ⟨0, 0, 0, 0⟩ l.freq_h
                          l.freq_h_amp l.freq_l l.freq_l_amp).2).getD ⟨0, 0, 0, 0⟩).bytes
                    ++ List.replicate 39 0).set 1
                  ((_timer + i + 1) % 256)).take s.remote_.send_size),
               Event.set_value (future + i) DONE])
            sessions (List.range' 0 sessions.length)).flatten
      ∧ r.result (future_value r.events) = some 0
      ∧ (0 : Int) ≠ -EINVAL
      ∧ (∀ l, left = some l →
          (CalcRumblef ops ⟨0, 0, 0, 0⟩ l.freq_h l.freq_h_amp l.freq_l l.freq_l_amp).1 = -EINVAL →
          (CalcRumblef ops ⟨0, 0, 0, 0⟩ l.freq_h l.freq_h_amp l.freq_l l.freq_l_amp).2.bytes
            = [0, 0, 0, 0])
      ∧ (∀ l, right = some l →
          (CalcRumblef ops ⟨0, 0, 0, 0⟩ l.freq_h l.freq_h_amp l.freq_l l.freq_l_amp).1 = -EINVAL →
          (CalcRumblef ops ⟨0, 0, 0, 0⟩ l.freq_h l.freq_h_amp l.freq_l l.freq_l_amp).2.bytes
            = [0, 0, 0, 0]) := by
  obtain ⟨r, e, hret, _, hres, hev⟩ := Rumble_of_sessions c
    (some ((left.map fun (l : RumbleDataF F) => (CalcRumblef ops ⟨0, 0, 0, 0⟩ l.freq_h l.freq_h_amp
      l.freq_l l.freq_l_amp).2).getD ⟨0, 0, 0, 0⟩))
    (some ((right.map fun (l : RumbleDataF F) => (CalcRumblef ops ⟨0, 0, 0, 0⟩ l.freq_h
      l.freq_h_amp l.freq_l l.freq_l_amp).2).getD ⟨0, 0, 0, 0⟩))
    sessions _timer future (by simp) hlen htm hall
  refine ⟨r, ?_, hev, ?_, by decide, ?_, ?_⟩
  · rw [← e]
    cases left <;> cases right <;> rfl
  · have hget : ∀ it ∈ r.impl.results_, future_value r.events it = some DONE := by
      intro it hit
      rw [hres, List.mem_range'_1] at hit
      have e1 : it = future + (it - future) := by omega
      rw [e1, hev]
      exact future_value_of_fanout _ future sessions 0 (it - future) (by omega) (by omega)
    simp only [Call.result, hret, Await_of_done r.impl _ hget]
    rfl
  · intro l _ h
    rw [CalcRumblef_of_einval ops _ _ _ _ _ h]
    rfl
  · intro l _ h
    rw [CalcRumblef_of_einval ops _ _ _ _ _ h]
    rfl

/-- Instance of C21: a high frequency of 79 Hz on the left side, which
`CalcRumblef` rejects, with no right side, on one session: the report
`10 01 00 …` is sent and the caller gets 0. -/
theorem ControllerImpl.Rumblef_discards_range_witness :
    (CalcRumblef FloatOps.fixed ⟨0, 0, 0, 0⟩ (FloatOps.fixed.lit 79 1) (FloatOps.fixed.lit 5 10)
        (FloatOps.fixed.lit 160 1) (FloatOps.fixed.lit 5 10)).1 = -EINVAL
    ∧ ∃ r, (ControllerImpl.mk (List.replicate 49 0) []).Rumblef FloatOps.fixed
          (some ⟨FloatOps.fixed.lit 79 1, FloatOps.fixed.lit 5 10, FloatOps.fixed.lit 160 1,
                 FloatOps.fixed.lit 5 10⟩) none
          [Session.new Unit ⟨some (fun _ => 49), 12, 64⟩] 0 1 = .ok r
        ∧ r.events =
            [Event.sender [0x10, 1, 0, 0, 0, 0, 0, 0, 0, 0, 0, 0], Event.set_value 1 DONE]
        ∧ r.result (future_value r.events) = some 0 := by
  refine ⟨by decide, ?_⟩
  obtain ⟨r, e, ev, hr, _⟩ :=
    ControllerImpl.Rumblef_discards_range FloatOps.fixed
      (ControllerImpl.mk (List.replicate 49 0) [])
      (some ⟨FloatOps.fixed.lit 79 1, FloatOps.fixed.lit 5 10, FloatOps.fixed.lit 160 1,
             FloatOps.fixed.lit 5 10⟩) none
      [Session.new Unit ⟨some (fun _ => 49), 12, 64⟩] 0 1 rfl (by decide)
      (by
        intro s hs
        simp only [List.mem_singleton] at hs
        subst hs
        exact ⟨rfl, rfl, _, rfl, fun _ => by decide⟩)
  exact ⟨r, e, ev.trans (by decide), hr⟩

/-! ## The IR camera -/

/-- C29: the four IR presets have the documented parameters (240p: fragments
`0xFF`, update time `0x32`, 320x240; 120p: `0x3F`, `0x32`, 160x120; 60p:
`0x0F`, `0x32`, 80x60; 30p: `0x03`, `0x2D`, 40x30), and for each of them the
frame of `fragments + 1` slices of 300 bytes has `width * height` bytes,
76800 for 240p. -/
theorem ir_config_presets :
    (ir_config_240p.fragments = 0xFF ∧ ir_config_240p.update_time = 0x32
      ∧ ir_config_240p.width = 320 ∧ ir_config_240p.height = 240)
    ∧ (ir_config_120p.fragments = 0x3F ∧ ir_config_120p.update_time = 0x32
      ∧ ir_config_120p.width = 160 ∧ ir_config_120p.height = 120)
    ∧ (ir_config_60p.fragments = 0x0F ∧ ir_config_60p.update_time = 0x32
      ∧ ir_config_60p.width = 80 ∧ ir_config_60p.height = 60)
    ∧ (ir_config_30p.fragments = 0x03 ∧ ir_config_30p.update_time = 0x2D
      ∧ ir_config_30p.width = 40 ∧ ir_config_30p.height = 30)
    ∧ (∀ fixed ∈ [ir_config_240p, ir_config_120p, ir_config_60p, ir_config_30p],
        fixed.frame_size = fixed.width * fixed.height
        ∧ fixed.mode = IR_MODE_IMG_TRANSFER)
    ∧ ir_config_240p.frame_size = 76800
    ∧ ir_test_config.fixed = ir_config_30p := by
  refine ⟨by decide, by decide, by decide, by decide, ?_, by decide, rfl⟩
  intro fixed h
  simp only [List.mem_cons, List.mem_singleton, List.not_mem_nil, or_false] at h
  rcases h with h | h | h | h <;> subst h <;> decide

/-- C30 (the code differs): `category()` is `JOYCON_L` for `JoyCon_L`,
`JOYCON_R` for `JoyCon_R` and `PRO_GRIP` for `ProController`, but for
`JoyCon_Dual` it is `PRO_GRIP` too and not `JOYCON`: the dual controller and
the Pro controller report the same category, and no variant reports
`JOYCON`. -/
theorem JoyCon_Dual.category_pro_grip {σ : Type} (l : JoyCon_L σ) (r : JoyCon_R σ)
    (p : ProController σ) (d : JoyCon_Dual σ) :
    l.category = JOYCON_L ∧ r.category = JOYCON_R ∧ p.category = PRO_GRIP
    ∧ d.category = PRO_GRIP ∧ d.category ≠ JOYCON ∧ d.category = p.category
    ∧ l.category ≠ JOYCON ∧ r.category ≠ JOYCON ∧ p.category ≠ JOYCON
    ∧ l.category ≠ r.category ∧ l.category ≠ p.category ∧ r.category ≠ p.category := by
  refine ⟨rfl, rfl, rfl, rfl, ?_, rfl, ?_, ?_, ?_, ?_, ?_, ?_⟩ <;>
    simp [JoyCon_L.category, JoyCon_R.category, ProController.category, JoyCon_Dual.category,
      JOYCON_L, JOYCON_R, JOYCON, PRO_GRIP]

/-- C23 (the code differs): `JoyCon_L::Rumble` and `JoyCon_R::Rumble` drop
the argument of the other side, but `JoyCon_L::Rumblef` and
`JoyCon_R::Rumblef` hand both arguments to `ControllerImpl::Rumblef`: with a
right side of (320 Hz, 0.5, 160 Hz, 0.5) and no left side, the report of
`JoyCon_L::Rumblef` has the bytes `00 89 40 62` in the right slot (bytes
6..9), and with that left side and no right side the report of
`JoyCon_R::Rumblef` has them in the left slot (bytes 2..5). -/
theorem JoyCon_Rumblef_other_side :
    (∀ (σ : Type) (j : JoyCon_L σ) (left right : Option RumbleData) (_timer future : Nat),
        j.Rumble left right _timer future = j.Rumble left none _timer future)
    ∧ (∀ (σ : Type) (j : JoyCon_R σ) (left right : Option RumbleData) (_timer future : Nat),
        j.Rumble left right _timer future = j.Rumble none right _timer future)
    ∧ (∃ r, (JoyCon_L.mk (ControllerImpl.mk (List.replicate 49 0) [])
            (Session.new Unit ⟨some (fun _ => 49), 12, 64⟩)).Rumblef FloatOps.fixed none
          (some ⟨FloatOps.fixed.lit 320 1, FloatOps.fixed.lit 5 10, FloatOps.fixed.lit 160 1,
                 FloatOps.fixed.lit 5 10⟩) 0 1 = .ok r
        ∧ r.events =
            [Event.sender [0x10, 1, 0, 0, 0, 0, 0x00, 0x89, 0x40, 0x62, 0, 0],
             Event.set_value 1 DONE])
    ∧ (∃ r, (JoyCon_R.mk (ControllerImpl.mk (List.replicate 49 0) [])
            (Session.new Unit ⟨some (fun _ => 49), 12, 64⟩)).Rumblef FloatOps.fixed
          (some ⟨FloatOps.fixed.lit 320 1, FloatOps.fixed.lit 5 10, FloatOps.fixed.lit 160 1,
                 FloatOps.fixed.lit 5 10⟩) none 0 1 = .ok r
        ∧ r.events =
            [Event.sender [0x10, 1, 0x00, 0x89, 0x40, 0x62, 0, 0, 0, 0, 0, 0],
             Event.set_value 1 DONE]) := by
  refine ⟨fun _ _ _ _ _ _ => rfl, fun _ _ _ _ _ _ => rfl, ⟨_, rfl, ?_⟩, ⟨_, rfl, ?_⟩⟩
  · decide
  · decide

/-! ## The integer stage of the rumble encoding -/

set_option maxRecDepth 100000 in
theorem rumble_low_amp_of_byte :
    ∀ k, k < 256 →
      (((k >>> 1) ||| ((k &&& 0x1) <<< 15) % 65536) + 0x0040) % 65536
        = ((k >>> 1) ||| ((k &&& 1) <<< 15)) + 0x40 := by
  decide

theorem rumble_bytes_eq (h l kh kl : Nat) (h1 : 0x60 ≤ h) (h2 : h < 256) (l1 : 0x40 ≤ l)
    (l2 : l < 256) (k1 : kh < 128) (k2 : kl < 256) :
    (((((h : Int) - 0x60) * 4) % 65536).toNat &&& 0xff) % 256 = ((h - 0x60) <<< 2) &&& 0xFF
    ∧ ((kh * 2) % 256 ||| ((((((h : Int) - 0x60) * 4) % 65536).toNat >>> 8) &&& 0xff)) % 256
        = (2 * kh) ||| ((((h - 0x60) <<< 2) >>> 8) &&& 0xFF)
    ∧ ((((l : Int) - 0x40) % 256).toNat
          ||| ((((((kl >>> 1) ||| ((kl &&& 0x1) <<< 15) % 65536) + 0x0040) % 65536) >>> 8)
                &&& 0xff)) % 256
        = (l - 0x40) ||| (((((kl >>> 1) ||| ((kl &&& 1) <<< 15)) + 0x40) >>> 8) &&& 0xFF)
    ∧ (((((kl >>> 1) ||| ((kl &&& 0x1) <<< 15) % 65536) + 0x0040) % 65536) &&& 0xff) % 256
        = (((kl >>> 1) ||| ((kl &&& 1) <<< 15)) + 0x40) &&& 0xFF := by
  have eA : ((((h : Int) - 0x60) * 4) % 65536).toNat = (h - 0x60) <<< 2 := by
    rw [Nat.shiftLeft_eq]
    omega
  have eL : (((l : Int) - 0x40) % 256).toNat = l - 0x40 := by omega
  have eK := rumble_low_amp_of_byte kl k2
  have b255 : ∀ x : Nat, x &&& 0xff < 2 ^ 8 := fun x =>
    Nat.lt_of_le_of_lt Nat.and_le_right (by decide)
  rw [eA, eL, eK]
  refine ⟨Nat.mod_eq_of_lt (b255 _), ?_, ?_, Nat.mod_eq_of_lt (b255 _)⟩
  · have e2 : kh * 2 % 256 = 2 * kh := by omega
    rw [e2]
    exact Nat.mod_eq_of_lt (Nat.or_lt_two_pow (by omega) (b255 _))
  · exact Nat.mod_eq_of_lt (Nat.or_lt_two_pow (by omega) (b255 _))

/-! ## `SetIrConfig` -/

theorem step_2_of_timedout (NDEBUG : Bool) (config : IrConfig) (results : List Int) :
    ∀ (k : Nat) (trace : List IrStep),
      SetIrConfig.step_2 NDEBUG config (List.replicate k TIMEDOUT ++ results) trace =
        SetIrConfig.step_2 NDEBUG config results
          (trace ++ List.replicate k (IrStep.CheckMcuMode MCU_MODE_STANDBY)) := by
  intro k
  induction k with
  | zero => intro trace; simp
  | succ k ih =>
    intro trace
    rw [List.replicate_succ, List.cons_append, SetIrConfig.step_2]
    simp only [if_true]
    rw [ih, List.append_assoc, List.singleton_append, ← List.replicate_succ]

theorem step_6_of_timedout (NDEBUG : Bool) (config : IrConfig) (results : List Int) :
    ∀ (k : Nat) (trace : List IrStep),
      SetIrConfig.step_6 NDEBUG config (List.replicate k TIMEDOUT ++ results) trace =
        SetIrConfig.step_6 NDEBUG config results
          (trace ++ List.replicate k (IrStep.CheckMcuIrMode IR_MODE_IMG_TRANSFER)) := by
  intro k
  induction k with
  | zero => intro trace; simp
  | succ k ih =>
    intro trace
    rw [List.replicate_succ, List.cons_append]
    conv_lhs => simp only [SetIrConfig.step_6, if_true]
    rw [ih, List.append_assoc, List.singleton_append, ← List.replicate_succ]

theorem assert_fails_of_true (NDEBUG : Bool) : assert_fails NDEBUG true = false := by
  cases NDEBUG <;> rfl

theorem assert_fails_of_ndebug (cond : Bool) : assert_fails true cond = false := rfl

theorem assert_fails_of_false : assert_fails false false = true := rfl

theorem step_10_of_done (NDEBUG : Bool) (trace : List IrStep) (rest : List Int) :
    SetIrConfig.step_10 NDEBUG trace (DONE :: DONE :: rest) =
      some (Exit.returned DONE,
        trace ++ [IrStep.SetMcuState MCU_STATE_SUSPEND, IrStep.Poll POLL_STANDARD]) := by
  simp [SetIrConfig.step_10, assert_fails_of_true]

theorem done_ne_timedout : ¬ (DONE = TIMEDOUT) := by decide

/-- C25: when every step returns `DONE`, `SetIrConfig` calls exactly
`Poll(NFC_IR)`, `SetMcuState(RESUME)`, `CheckMcuMode(STANDBY)`,
`SetMcuMode(IR)`, `CheckMcuMode(IR)`, `SetMcuIrConfig(fixed)`,
`CheckMcuIrMode(IMG_TRANSFER)`, `SetMcuIrConfig(live)`, `GetIrImage(fixed)`,
`SetMcuState(SUSPEND)`, `Poll(STANDARD)`, in this order, and returns `DONE`;
each `TIMEDOUT` from `CheckMcuMode(STANDBY)` or from
`CheckMcuIrMode(IMG_TRANSFER)` makes it call that same check again (`k`, `j`
times `TIMEDOUT` give `k + 1`, `j + 1` calls), and any other result that is
not `DONE` from one of the two makes it go on with `SetMcuState(SUSPEND)`,
`Poll(STANDARD)` at once. This holds with and without `NDEBUG`. -/
theorem ControllerImpl.SetIrConfig_sequence (NDEBUG : Bool) (config : IrConfig) :
    ControllerImpl.SetIrConfig NDEBUG config (List.replicate 11 DONE) =
      some (Exit.returned DONE,
        [IrStep.Poll POLL_NFC_IR, IrStep.SetMcuState MCU_STATE_RESUME,
         IrStep.CheckMcuMode MCU_MODE_STANDBY, IrStep.SetMcuMode MCU_MODE_IR,
         IrStep.CheckMcuMode MCU_MODE_IR, IrStep.SetMcuIrConfig_fixed config.fixed,
         IrStep.CheckMcuIrMode IR_MODE_IMG_TRANSFER, IrStep.SetMcuIrConfig_live config.live,
         IrStep.GetIrImage config.fixed, IrStep.SetMcuState MCU_STATE_SUSPEND,
         IrStep.Poll POLL_STANDARD])
    ∧ (∀ (k j : Nat) (g : Int) (rest : List Int),
        ControllerImpl.SetIrConfig NDEBUG config
          (DONE :: DONE :: (List.replicate k TIMEDOUT ++ DONE :: DONE :: DONE :: DONE ::
            (List.replicate j TIMEDOUT ++ DONE :: DONE :: g :: DONE :: DONE :: rest))) =
        some (Exit.returned DONE,
          [IrStep.Poll POLL_NFC_IR, IrStep.SetMcuState MCU_STATE_RESUME]
            ++ List.replicate (k + 1) (IrStep.CheckMcuMode MCU_MODE_STANDBY)
            ++ [IrStep.SetMcuMode MCU_MODE_IR, IrStep.CheckMcuMode MCU_MODE_IR,
                IrStep.SetMcuIrConfig_fixed config.fixed]
            ++ List.replicate (j + 1) (IrStep.CheckMcuIrMode IR_MODE_IMG_TRANSFER)
            ++ [IrStep.SetMcuIrConfig_live config.live, IrStep.GetIrImage config.fixed,
                IrStep.SetMcuState MCU_STATE_SUSPEND, IrStep.Poll POLL_STANDARD]))
    ∧ (∀ (k : Nat) (e : Int) (rest : List Int), e ≠ DONE → e ≠ TIMEDOUT →
        ControllerImpl.SetIrConfig NDEBUG config
          (DONE :: DONE :: (List.replicate k TIMEDOUT ++ e :: DONE :: DONE :: rest)) =
        some (Exit.returned DONE,
          [IrStep.Poll POLL_NFC_IR, IrStep.SetMcuState MCU_STATE_RESUME]
            ++ List.replicate (k + 1) (IrStep.CheckMcuMode MCU_MODE_STANDBY)
            ++ [IrStep.SetMcuState MCU_STATE_SUSPEND, IrStep.Poll POLL_STANDARD]))
    ∧ (∀ (k j : Nat) (e : Int) (rest : List Int), e ≠ DONE → e ≠ TIMEDOUT →
        ControllerImpl.SetIrConfig NDEBUG config
          (DONE :: DONE :: (List.replicate k TIMEDOUT ++ DONE :: DONE :: DONE :: DONE ::
            (List.replicate j TIMEDOUT ++ e :: DONE :: DONE :: rest))) =
        some (Exit.returned DONE,
          [IrStep.Poll POLL_NFC_IR, IrStep.SetMcuState MCU_STATE_RESUME]
            ++ List.replicate (k + 1) (IrStep.CheckMcuMode MCU_MODE_STANDBY)
            ++ [IrStep.SetMcuMode MCU_MODE_IR, IrStep.CheckMcuMode MCU_MODE_IR,
                IrStep.SetMcuIrConfig_fixed config.fixed]
            ++ List.replicate (j + 1) (IrStep.CheckMcuIrMode IR_MODE_IMG_TRANSFER)
            ++ [IrStep.SetMcuState MCU_STATE_SUSPEND, IrStep.Poll POLL_STANDARD])) := by
  have full : ∀ (k j : Nat) (g : Int) (rest : List Int),
      ControllerImpl.SetIrConfig NDEBUG config
        (DONE :: DONE :: (List.replicate k TIMEDOUT ++ DONE :: DONE :: DONE :: DONE ::
          (List.replicate j TIMEDOUT ++ DONE :: DONE :: g :: DONE :: DONE :: rest))) =
      some (Exit.returned DONE,
        [IrStep.Poll POLL_NFC_IR, IrStep.SetMcuState MCU_STATE_RESUME]
          ++ List.replicate (k + 1) (IrStep.CheckMcuMode MCU_MODE_STANDBY)
          ++ [IrStep.SetMcuMode MCU_MODE_IR, IrStep.CheckMcuMode MCU_MODE_IR,
              IrStep.SetMcuIrConfig_fixed config.fixed]
          ++ List.replicate (j + 1) (IrStep.CheckMcuIrMode IR_MODE_IMG_TRANSFER)
          ++ [IrStep.SetMcuIrConfig_live config.live, IrStep.GetIrImage config.fixed,
              IrStep.SetMcuState MCU_STATE_SUSPEND, IrStep.Poll POLL_STANDARD]) := by
    intro k j g rest
    simp only [ControllerImpl.SetIrConfig, decide_True, assert_fails_of_true, Bool.false_eq_true,
      if_false]
    rw [step_2_of_timedout]
    simp only [SetIrConfig.step_2, done_ne_timedout, if_false, ne_eq, not_true_eq_false,
      SetIrConfig.step_3, decide_True, assert_fails_of_true, Bool.false_eq_true]
    rw [step_6_of_timedout]
    simp only [SetIrConfig.step_6, done_ne_timedout, if_false, ne_eq, not_true_eq_false,
      decide_True, assert_fails_of_true, Bool.false_eq_true, step_10_of_done]
    simp [List.replicate_succ']
  refine ⟨?_, full, ?_, ?_⟩
  · exact full 0 0 DONE []
  · intro k e rest h1 h2
    simp only [ControllerImpl.SetIrConfig, decide_True, assert_fails_of_true, Bool.false_eq_true,
      if_false]
    rw [step_2_of_timedout]
    simp only [SetIrConfig.step_2, h2, if_false, ne_eq, h1, not_false_eq_true, if_true,
      step_10_of_done]
    simp [List.replicate_succ']
  · intro k j e rest h1 h2
    simp only [ControllerImpl.SetIrConfig, decide_True, assert_fails_of_true, Bool.false_eq_true,
      if_false]
    rw [step_2_of_timedout]
    simp only [SetIrConfig.step_2, done_ne_timedout, if_false, ne_eq, not_true_eq_false,
      SetIrConfig.step_3, decide_True, assert_fails_of_true, Bool.false_eq_true]
    rw [step_6_of_timedout]
    simp only [SetIrConfig.step_6, h2, if_false, ne_eq, h1, not_false_eq_true, if_true,
      step_10_of_done]
    simp [List.replicate_succ']

/-- Instances of C25: two `TIMEDOUT` from `CheckMcuMode(STANDBY)` and one from
`CheckMcuIrMode(IMG_TRANSFER)`, everything else `DONE`; and an `ERROR` from
`CheckMcuMode(STANDBY)`. -/
theorem ControllerImpl.SetIrConfig_sequence_witness :
    ControllerImpl.SetIrConfig false ir_test_config
        [DONE, DONE, TIMEDOUT, TIMEDOUT, DONE, DONE, DONE, DONE, TIMEDOUT, DONE, DONE, DONE,
         DONE, DONE] =
      some (Exit.returned DONE,
        [IrStep.Poll POLL_NFC_IR, IrStep.SetMcuState MCU_STATE_RESUME,
         IrStep.CheckMcuMode MCU_MODE_STANDBY, IrStep.CheckMcuMode MCU_MODE_STANDBY,
         IrStep.CheckMcuMode MCU_MODE_STANDBY, IrStep.SetMcuMode MCU_MODE_IR,
         IrStep.CheckMcuMode MCU_MODE_IR, IrStep.SetMcuIrConfig_fixed ir_config_30p,
         IrStep.CheckMcuIrMode IR_MODE_IMG_TRANSFER, IrStep.CheckMcuIrMode IR_MODE_IMG_TRANSFER,
         IrStep.SetMcuIrConfig_live ir_test_config.live, IrStep.GetIrImage ir_config_30p,
         IrStep.SetMcuState MCU_STATE_SUSPEND, IrStep.Poll POLL_STANDARD])
    ∧ ControllerImpl.SetIrConfig false ir_test_config [DONE, DONE, ERROR, DONE, DONE] =
      some (Exit.returned DONE,
        [IrStep.Poll POLL_NFC_IR, IrStep.SetMcuState MCU_STATE_RESUME,
         IrStep.CheckMcuMode MCU_MODE_STANDBY, IrStep.SetMcuState MCU_STATE_SUSPEND,
         IrStep.Poll POLL_STANDARD]) :=
  ⟨(ControllerImpl.SetIrConfig_sequence false ir_test_config).2.1 2 1 DONE [],
   (ControllerImpl.SetIrConfig_sequence false ir_test_config).2.2.1 0 ERROR [] (by decide)
     (by decide)⟩

theorem assert_fails_false_iff (cond : Bool) :
    assert_fails false cond = false ↔ cond = true := by
  cases cond <;> simp [assert_fails]

theorem step_10_returned (NDEBUG : Bool) (trace : List IrStep) (results : List Int) (r : Int)
    (t : List IrStep) (h : SetIrConfig.step_10 NDEBUG trace results = some (Exit.returned r, t)) :
    t = trace ++ [IrStep.SetMcuState MCU_STATE_SUSPEND, IrStep.Poll POLL_STANDARD]
    ∧ (NDEBUG = false → r = DONE) := by
  cases results with
  | nil => simp [SetIrConfig.step_10] at h
  | cons r1 rest =>
    simp only [SetIrConfig.step_10] at h
    by_cases c1 : assert_fails NDEBUG (decide (r1 = DONE)) = true
    · simp [c1] at h
    · rw [if_neg c1] at h
      cases rest with
      | nil => simp at h
      | cons r2 rest =>
        simp only at h
        by_cases c2 : assert_fails NDEBUG (decide (r2 = DONE)) = true
        · simp [c2] at h
        · rw [if_neg c2] at h
          simp only [Option.some.injEq, Prod.mk.injEq, Exit.returned.injEq] at h
          obtain ⟨hr, ht⟩ := h
          subst hr
          refine ⟨by rw [← ht]; simp, ?_⟩
          intro hn
          subst hn
          exact of_decide_eq_true ((assert_fails_false_iff _).mp (by simpa using c2))

theorem step_6_returned (NDEBUG : Bool) (config : IrConfig) (r : Int) (t : List IrStep) :
    ∀ (results : List Int) (trace : List IrStep),
      SetIrConfig.step_6 NDEBUG config results trace = some (Exit.returned r, t) →
      (∃ pre, t = pre ++ [IrStep.SetMcuState MCU_STATE_SUSPEND, IrStep.Poll POLL_STANDARD])
      ∧ (NDEBUG = false → r = DONE) := by
  intro results
  induction results with
  | nil => intro trace h; simp [SetIrConfig.step_6] at h
  | cons r1 rest ih =>
    intro trace h
    simp only [SetIrConfig.step_6] at h
    by_cases h1 : r1 = TIMEDOUT
    · rw [if_pos h1] at h
      exact ih _ h
    · rw [if_neg h1] at h
      by_cases h2 : r1 ≠ DONE
      · rw [if_pos h2] at h
        obtain ⟨e, hd⟩ := step_10_returned _ _ _ _ _ h
        exact ⟨⟨_, e⟩, hd⟩
      · rw [if_neg h2] at h
        cases rest with
        | nil => simp at h
        | cons r2 rest =>
          simp only at h
          by_cases c2 : assert_fails NDEBUG (decide (r2 = DONE)) = true
          · simp [c2] at h
          · rw [if_neg c2] at h
            cases rest with
            | nil => simp at h
            | cons r3 rest =>
              simp only at h
              obtain ⟨e, hd⟩ := step_10_returned _ _ _ _ _ h
              exact ⟨⟨_, e⟩, hd⟩

theorem step_3_returned (NDEBUG : Bool) (config : IrConfig) (r : Int) (t : List IrStep)
    (results : List Int) (trace : List IrStep)
    (h : SetIrConfig.step_3 NDEBUG config trace results = some (Exit.returned r, t)) :
    (∃ pre, t = pre ++ [IrStep.SetMcuState MCU_STATE_SUSPEND, IrStep.Poll POLL_STANDARD])
    ∧ (NDEBUG = false → r = DONE) := by
  cases results with
  | nil => simp [SetIrConfig.step_3] at h
  | cons r1 rest =>
    simp only [SetIrConfig.step_3] at h
    by_cases c1 : assert_fails NDEBUG (decide (r1 = DONE)) = true
    · simp [c1] at h
    · rw [if_neg c1] at h
      cases rest with
      | nil => simp at h
      | cons r2 rest =>
        simp only at h
        by_cases c2 : assert_fails NDEBUG (decide (r2 = DONE)) = true
        · simp [c2] at h
        · rw [if_neg c2] at h
          cases rest with
          | nil => simp at h
          | cons r3 rest =>
            simp only at h
            by_cases c3 : assert_fails NDEBUG (decide (r3 = DONE)) = true
            · simp [c3] at h
            · rw [if_neg c3] at h
              exact step_6_returned _ _ _ _ _ _ h

theorem step_2_returned (NDEBUG : Bool) (config : IrConfig) (r : Int) (t : List IrStep) :
    ∀ (results : List Int) (trace : List IrStep),
      SetIrConfig.step_2 NDEBUG config results trace = some (Exit.returned r, t) →
      (∃ pre, t = pre ++ [IrStep.SetMcuState MCU_STATE_SUSPEND, IrStep.Poll POLL_STANDARD])
      ∧ (NDEBUG = false → r = DONE) := by
  intro results
  induction results with
  | nil => intro trace h; simp [SetIrConfig.step_2] at h
  | cons r1 rest ih =>
    intro trace h
    simp only [SetIrConfig.step_2] at h
    by_cases h1 : r1 = TIMEDOUT
    · rw [if_pos h1] at h
      exact ih _ h
    · rw [if_neg h1] at h
      by_cases h2 : r1 ≠ DONE
      · rw [if_pos h2] at h
        obtain ⟨e, hd⟩ := step_10_returned _ _ _ _ _ h
        exact ⟨⟨_, e⟩, hd⟩
      · rw [if_neg h2] at h
        exact step_3_returned _ _ _ _ _ _ h

theorem SetIrConfig_returned (NDEBUG : Bool) (config : IrConfig) (r : Int) (t : List IrStep)
    (results : List Int)
    (h : ControllerImpl.SetIrConfig NDEBUG config results = some (Exit.returned r, t)) :
    (∃ pre, t = pre ++ [IrStep.SetMcuState MCU_STATE_SUSPEND, IrStep.Poll POLL_STANDARD])
    ∧ (NDEBUG = false → r = DONE) := by
  cases results with
  | nil => simp [ControllerImpl.SetIrConfig] at h
  | cons r1 rest =>
    simp only [ControllerImpl.SetIrConfig] at h
    by_cases c1 : assert_fails NDEBUG (decide (r1 = DONE)) = true
    · simp [c1] at h
    · rw [if_neg c1] at h
      cases rest with
      | nil => simp at h
      | cons r2 rest =>
        simp only at h
        by_cases c2 : assert_fails NDEBUG (decide (r2 = DONE)) = true
        · simp [c2] at h
        · rw [if_neg c2] at h
          exact step_2_returned _ _ _ _ _ _ h

theorem step_10_total (NDEBUG : Bool) (trace : List IrStep) (results : List Int) (n : Nat) :
    (SetIrConfig.step_10 NDEBUG trace (results ++ List.replicate (n + 2) DONE)).isSome
      = true := by
  cases results with
  | nil => simp [List.replicate_succ, SetIrConfig.step_10, assert_fails_of_true]
  | cons r1 rest =>
    cases rest with
    | nil =>
      simp only [List.replicate_succ, SetIrConfig.step_10, List.cons_append, List.nil_append,
        decide_True, assert_fails_of_true]
      split_ifs <;> rfl
    | cons r2 rest =>
      simp only [SetIrConfig.step_10, List.cons_append]
      split_ifs <;> rfl

theorem step_6_total (NDEBUG : Bool) (config : IrConfig) (n : Nat) :
    ∀ (results : List Int) (trace : List IrStep),
      (SetIrConfig.step_6 NDEBUG config (results ++ List.replicate (n + 5) DONE) trace).isSome
        = true := by
  intro results
  induction results with
  | nil =>
    intro trace
    simp [List.replicate_succ, SetIrConfig.step_6, done_ne_timedout, assert_fails_of_true,
      step_10_of_done]
  | cons r1 rest ih =>
    intro trace
    simp only [List.cons_append, SetIrConfig.step_6]
    by_cases h1 : r1 = TIMEDOUT
    · rw [if_pos h1]
      exact ih _
    · rw [if_neg h1]
      by_cases h2 : r1 ≠ DONE
      · rw [if_pos h2]
        exact step_10_total NDEBUG _ rest (n + 3)
      · rw [if_neg h2]
        cases rest with
        | nil =>
          simp [List.replicate_succ, assert_fails_of_true, step_10_of_done]
        | cons r2 rest =>
          try simp only [List.append_eq, List.cons_append]
          split_ifs
          · rfl
          · cases rest with
            | nil =>
              simp [List.replicate_succ, step_10_of_done]
            | cons r3 rest =>
              exact step_10_total NDEBUG _ rest (n + 3)

theorem step_3_total (NDEBUG : Bool) (config : IrConfig) (n : Nat) (results : List Int)
    (trace : List IrStep) :
    (SetIrConfig.step_3 NDEBUG config trace (results ++ List.replicate (n + 8) DONE)).isSome
      = true := by
  have h6 := step_6_total NDEBUG config
  cases results with
  | nil =>
    simp only [List.nil_append, List.replicate_succ, SetIrConfig.step_3, decide_True,
      assert_fails_of_true, Bool.false_eq_true, if_false]
    have := h6 n [] (trace ++ [IrStep.SetMcuMode MCU_MODE_IR] ++ [IrStep.CheckMcuMode MCU_MODE_IR]
      ++ [IrStep.SetMcuIrConfig_fixed config.fixed])
    simpa [List.replicate_succ] using this
  | cons r1 rest =>
    simp only [List.cons_append, SetIrConfig.step_3]
    split_ifs
    · rfl
    · cases rest with
      | nil =>
        simp only [List.nil_append, List.replicate_succ, decide_True, assert_fails_of_true,
          Bool.false_eq_true, if_false]
        have := h6 (n + 1) [] (trace ++ [IrStep.SetMcuMode MCU_MODE_IR]
          ++ [IrStep.CheckMcuMode MCU_MODE_IR] ++ [IrStep.SetMcuIrConfig_fixed config.fixed])
        simpa [List.replicate_succ] using this
      | cons r2 rest =>
        try simp only [List.append_eq, List.cons_append]
        split_ifs
        · rfl
        · cases rest with
          | nil =>
            simp only [List.nil_append, List.replicate_succ, decide_True, assert_fails_of_true,
              Bool.false_eq_true, if_false]
            have := h6 (n + 2) [] (trace ++ [IrStep.SetMcuMode MCU_MODE_IR]
              ++ [IrStep.CheckMcuMode MCU_MODE_IR] ++ [IrStep.SetMcuIrConfig_fixed config.fixed])
            simpa [List.replicate_succ] using this
          | cons r3 rest =>
            try simp only [List.append_eq, List.cons_append]
            split_ifs
            · rfl
            · exact h6 (n + 3) rest _

theorem step_2_total (NDEBUG : Bool) (config : IrConfig) (n : Nat) :
    ∀ (results : List Int) (trace : List IrStep),
      (SetIrConfig.step_2 NDEBUG config (results ++ List.replicate (n + 9) DONE) trace).isSome
        = true := by
  intro results
  induction results with
  | nil =>
    intro trace
    rw [List.nil_append, List.replicate_succ]
    simp only [SetIrConfig.step_2, done_ne_timedout, if_false, ne_eq, not_true_eq_false]
    exact step_3_total NDEBUG config n [] _
  | cons r1 rest ih =>
    intro trace
    simp only [List.cons_append, SetIrConfig.step_2]
    by_cases h1 : r1 = TIMEDOUT
    · rw [if_pos h1]
      exact ih _
    · rw [if_neg h1]
      by_cases h2 : r1 ≠ DONE
      · rw [if_pos h2]
        exact step_10_total NDEBUG _ rest (n + 7)
      · rw [if_neg h2]
        exact step_3_total NDEBUG config (n + 1) rest _

theorem SetIrConfig_total (NDEBUG : Bool) (config : IrConfig) (results : List Int) :
    (ControllerImpl.SetIrConfig NDEBUG config (results ++ List.replicate 11 DONE)).isSome
      = true := by
  cases results with
  | nil =>
    simp only [List.nil_append, List.replicate_succ, ControllerImpl.SetIrConfig, decide_True,
      assert_fails_of_true, Bool.false_eq_true, if_false]
    have := step_2_total NDEBUG config 0 []
      ([IrStep.Poll POLL_NFC_IR] ++ [IrStep.SetMcuState MCU_STATE_RESUME])
    simpa [List.replicate_succ] using this
  | cons r1 rest =>
    simp only [List.cons_append, ControllerImpl.SetIrConfig]
    split_ifs
    · rfl
    · cases rest with
      | nil =>
        simp only [List.nil_append, List.replicate_succ, decide_True, assert_fails_of_true,
          Bool.false_eq_true, if_false]
        have := step_2_total NDEBUG config 1 []
          ([IrStep.Poll POLL_NFC_IR] ++ [IrStep.SetMcuState MCU_STATE_RESUME])
        simpa [List.replicate_succ] using this
      | cons r2 rest =>
        try simp only [List.append_eq, List.cons_append]
        split_ifs
        · rfl
        · exact step_2_total NDEBUG config 2 rest _

theorem step_10_ndebug (trace : List IrStep) (results : List Int) (exit : Exit)
    (t : List IrStep) (h : SetIrConfig.step_10 true trace results = some (exit, t)) :
    ∃ r, exit = Exit.returned r := by
  cases results with
  | nil => simp [SetIrConfig.step_10] at h
  | cons r1 rest =>
    cases rest with
    | nil => simp [SetIrConfig.step_10, assert_fails] at h
    | cons r2 rest =>
      simp only [SetIrConfig.step_10, assert_fails_of_ndebug, Bool.false_eq_true, if_false,
        Option.some.injEq, Prod.mk.injEq] at h
      exact ⟨r2, h.1.symm⟩

theorem step_6_ndebug (config : IrConfig) (exit : Exit) (t : List IrStep) :
    ∀ (results : List Int) (trace : List IrStep),
      SetIrConfig.step_6 true config results trace = some (exit, t) →
      ∃ r, exit = Exit.returned r := by
  intro results
  induction results with
  | nil => intro trace h; simp [SetIrConfig.step_6] at h
  | cons r1 rest ih =>
    intro trace h
    simp only [SetIrConfig.step_6, assert_fails_of_ndebug, Bool.false_eq_true, if_false] at h
    by_cases h1 : r1 = TIMEDOUT
    · rw [if_pos h1] at h
      exact ih _ h
    · rw [if_neg h1] at h
      by_cases h2 : r1 ≠ DONE
      · rw [if_pos h2] at h
        exact step_10_ndebug _ _ _ _ h
      · rw [if_neg h2] at h
        cases rest with
        | nil => simp at h
        | cons r2 rest =>
          cases rest with
          | nil => simp at h
          | cons r3 rest => exact step_10_ndebug _ _ _ _ h

theorem step_2_ndebug (config : IrConfig) (exit : Exit) (t : List IrStep) :
    ∀ (results : List Int) (trace : List IrStep),
      SetIrConfig.step_2 true config results trace = some (exit, t) →
      ∃ r, exit = Exit.returned r := by
  intro results
  induction results with
  | nil => intro trace h; simp [SetIrConfig.step_2] at h
  | cons r1 rest ih =>
    intro trace h
    simp only [SetIrConfig.step_2] at h
    by_cases h1 : r1 = TIMEDOUT
    · rw [if_pos h1] at h
      exact ih _ h
    · rw [if_neg h1] at h
      by_cases h2 : r1 ≠ DONE
      · rw [if_pos h2] at h
        exact step_10_ndebug _ _ _ _ h
      · rw [if_neg h2] at h
        cases rest with
        | nil => simp [SetIrConfig.step_3] at h
        | cons r2 rest =>
          cases rest with
          | nil => simp [SetIrConfig.step_3, assert_fails] at h
          | cons r3 rest =>
            cases rest with
            | nil => simp [SetIrConfig.step_3, assert_fails] at h
            | cons r4 rest =>
              simp only [SetIrConfig.step_3, assert_fails_of_ndebug, Bool.false_eq_true,
                if_false] at h
              exact step_6_ndebug _ _ _ _ _ h

theorem SetIrConfig_ndebug (config : IrConfig) (results : List Int) (exit : Exit)
    (t : List IrStep) (h : ControllerImpl.SetIrConfig true config results = some (exit, t)) :
    ∃ r, exit = Exit.returned r := by
  cases results with
  | nil => simp [ControllerImpl.SetIrConfig] at h
  | cons r1 rest =>
    cases rest with
    | nil => simp [ControllerImpl.SetIrConfig, assert_fails] at h
    | cons r2 rest =>
      simp only [ControllerImpl.SetIrConfig, assert_fails_of_ndebug, Bool.false_eq_true,
        if_false] at h
      exact step_2_ndebug _ _ _ _ _ h

theorem assert_fails_of_ne (e : Int) (h : e ≠ DONE) :
    assert_fails false (decide (e = DONE)) = true := by
  simp [assert_fails, h]

/-- C26 (the code differs): `SetIrConfig` calls `SetMcuState(SUSPEND)` and then
`Poll(STANDARD)` as its last two operations whenever it returns, and it
finishes once the steps answer `DONE`; but it does not return on every
combination of results. Built as the sources are (no `NDEBUG`), a result
other than `DONE` from `Poll(NFC_IR)`, `SetMcuState(RESUME)`,
`SetMcuMode(IR)`, `CheckMcuMode(IR)`, `SetMcuIrConfig(fixed)` or
`SetMcuIrConfig(live)` fails the `assert` after that step, which ends the
process there, with no teardown; a return then means `DONE` from the
teardown. Only with `NDEBUG` does every call that ends end by returning,
after the teardown. -/
theorem ControllerImpl.SetIrConfig_teardown (config : IrConfig) :
    (∀ (NDEBUG : Bool) (results : List Int) (r : Int) (t : List IrStep),
        ControllerImpl.SetIrConfig NDEBUG config results = some (Exit.returned r, t) →
        (∃ pre, t = pre ++ [IrStep.SetMcuState MCU_STATE_SUSPEND, IrStep.Poll POLL_STANDARD])
        ∧ (NDEBUG = false → r = DONE))
    ∧ (∀ (results : List Int) (exit : Exit) (t : List IrStep),
        ControllerImpl.SetIrConfig true config results = some (exit, t) →
        ∃ r, exit = Exit.returned r)
    ∧ (∀ (NDEBUG : Bool) (results : List Int),
        (ControllerImpl.SetIrConfig NDEBUG config (results ++ List.replicate 11 DONE)).isSome
          = true)
    ∧ (∀ (e : Int) (rest : List Int), e ≠ DONE →
        ControllerImpl.SetIrConfig false config (e :: rest) =
          some (Exit.assertion_failed, [IrStep.Poll POLL_NFC_IR])
        ∧ ControllerImpl.SetIrConfig false config (DONE :: e :: rest) =
          some (Exit.assertion_failed,
            [IrStep.Poll POLL_NFC_IR, IrStep.SetMcuState MCU_STATE_RESUME])
        ∧ ControllerImpl.SetIrConfig false config (DONE :: DONE :: DONE :: e :: rest) =
          some (Exit.assertion_failed,
            [IrStep.Poll POLL_NFC_IR, IrStep.SetMcuState MCU_STATE_RESUME,
             IrStep.CheckMcuMode MCU_MODE_STANDBY, IrStep.SetMcuMode MCU_MODE_IR])
        ∧ ControllerImpl.SetIrConfig false config (DONE :: DONE :: DONE :: DONE :: e :: rest) =
          some (Exit.assertion_failed,
            [IrStep.Poll POLL_NFC_IR, IrStep.SetMcuState MCU_STATE_RESUME,
             IrStep.CheckMcuMode MCU_MODE_STANDBY, IrStep.SetMcuMode MCU_MODE_IR,
             IrStep.CheckMcuMode MCU_MODE_IR])
        ∧ ControllerImpl.SetIrConfig false config
            (DONE :: DONE :: DONE :: DONE :: DONE :: e :: rest) =
          some (Exit.assertion_failed,
            [IrStep.Poll POLL_NFC_IR, IrStep.SetMcuState MCU_STATE_RESUME,
             IrStep.CheckMcuMode MCU_MODE_STANDBY, IrStep.SetMcuMode MCU_MODE_IR,
             IrStep.CheckMcuMode MCU_MODE_IR, IrStep.SetMcuIrConfig_fixed config.fixed])
        ∧ ControllerImpl.SetIrConfig false config
            (DONE :: DONE :: DONE :: DONE :: DONE :: DONE :: DONE :: e :: rest) =
          some (Exit.assertion_failed,
            [IrStep.Poll POLL_NFC_IR, IrStep.SetMcuState MCU_STATE_RESUME,
             IrStep.CheckMcuMode MCU_MODE_STANDBY, IrStep.SetMcuMode MCU_MODE_IR,
             IrStep.CheckMcuMode MCU_MODE_IR, IrStep.SetMcuIrConfig_fixed config.fixed,
             IrStep.CheckMcuIrMode IR_MODE_IMG_TRANSFER,
             IrStep.SetMcuIrConfig_live config.live])) := by
  refine ⟨fun N results r t h => SetIrConfig_returned N config r t results h,
    fun results exit t h => SetIrConfig_ndebug config results exit t h,
    fun N results => SetIrConfig_total N config results, ?_⟩
  intro e rest he
  have ha := assert_fails_of_ne e he
  refine ⟨?_, ?_, ?_, ?_, ?_, ?_⟩ <;>
    simp [ControllerImpl.SetIrConfig, SetIrConfig.step_2, SetIrConfig.step_3,
      SetIrConfig.step_6, assert_fails_of_true, done_ne_timedout, ha]

/-- Instances of C26: a run that returns ends with the teardown; a `TIMEDOUT`
from `SetMcuMode(IR)` ends the process after four operations. -/
theorem ControllerImpl.SetIrConfig_teardown_witness :
    (ControllerImpl.SetIrConfig false ir_test_config [DONE, DONE, ERROR, DONE, DONE] =
        some (Exit.returned DONE,
          [IrStep.Poll POLL_NFC_IR, IrStep.SetMcuState MCU_STATE_RESUME,
           IrStep.CheckMcuMode MCU_MODE_STANDBY, IrStep.SetMcuState MCU_STATE_SUSPEND,
           IrStep.Poll POLL_STANDARD])
      ∧ ∃ pre,
          [IrStep.Poll POLL_NFC_IR, IrStep.SetMcuState MCU_STATE_RESUME,
           IrStep.CheckMcuMode MCU_MODE_STANDBY, IrStep.SetMcuState MCU_STATE_SUSPEND,
           IrStep.Poll POLL_STANDARD] =
          pre ++ [IrStep.SetMcuState MCU_STATE_SUSPEND, IrStep.Poll POLL_STANDARD])
    ∧ ControllerImpl.SetIrConfig false ir_test_config [DONE, DONE, DONE, TIMEDOUT] =
        some (Exit.assertion_failed,
          [IrStep.Poll POLL_NFC_IR, IrStep.SetMcuState MCU_STATE_RESUME,
           IrStep.CheckMcuMode MCU_MODE_STANDBY, IrStep.SetMcuMode MCU_MODE_IR]) :=
  ⟨⟨by decide,
    ((ControllerImpl.SetIrConfig_teardown ir_test_config).1 false
      [DONE, DONE, ERROR, DONE, DONE] DONE _ (by decide)).1⟩,
   ((ControllerImpl.SetIrConfig_teardown ir_test_config).2.2.2 TIMEDOUT [] (by decide)).2.2.1⟩

/-- Instance of C26: `Poll(NFC_IR)` returns `TIMEDOUT`; the `assert` after it
fails and no other operation is called, whatever the later steps would have
returned. -/
theorem ControllerImpl.SetIrConfig_abort_without_teardown :
    ControllerImpl.SetIrConfig false ir_test_config
        [TIMEDOUT, DONE, DONE, DONE, DONE, DONE, DONE, DONE, DONE, DONE, DONE] =
      some (Exit.assertion_failed, [IrStep.Poll POLL_NFC_IR]) := by
  decide

/-- C27 (the code differs): `SetIrConfig` does not return the result of the
step that failed. After an error other than `TIMEDOUT` from
`CheckMcuMode(STANDBY)` or from `CheckMcuIrMode(IMG_TRANSFER)`, and after any
result of `GetIrImage`, `ret` is overwritten by the results of
`SetMcuState(SUSPEND)` and `Poll(STANDARD)`: with these two `DONE` the call
returns `DONE`. Built without `NDEBUG` it returns nothing but `DONE`. -/
theorem ControllerImpl.SetIrConfig_masks_failure (NDEBUG : Bool) (config : IrConfig) :
    (∀ e : Int, e ≠ DONE → e ≠ TIMEDOUT →
        ControllerImpl.SetIrConfig NDEBUG config [DONE, DONE, e, DONE, DONE] =
          some (Exit.returned DONE,
            [IrStep.Poll POLL_NFC_IR, IrStep.SetMcuState MCU_STATE_RESUME,
             IrStep.CheckMcuMode MCU_MODE_STANDBY, IrStep.SetMcuState MCU_STATE_SUSPEND,
             IrStep.Poll POLL_STANDARD])
        ∧ ControllerImpl.SetIrConfig NDEBUG config
            [DONE, DONE, DONE, DONE, DONE, DONE, e, DONE, DONE] =
          some (Exit.returned DONE,
            [IrStep.Poll POLL_NFC_IR, IrStep.SetMcuState MCU_STATE_RESUME,
             IrStep.CheckMcuMode MCU_MODE_STANDBY, IrStep.SetMcuMode MCU_MODE_IR,
             IrStep.CheckMcuMode MCU_MODE_IR, IrStep.SetMcuIrConfig_fixed config.fixed,
             IrStep.CheckMcuIrMode IR_MODE_IMG_TRANSFER, IrStep.SetMcuState MCU_STATE_SUSPEND,
             IrStep.Poll POLL_STANDARD]))
    ∧ (∀ g : Int,
        ControllerImpl.SetIrConfig NDEBUG config
            [DONE, DONE, DONE, DONE, DONE, DONE, DONE, DONE, g, DONE, DONE] =
          some (Exit.returned DONE,
            [IrStep.Poll POLL_NFC_IR, IrStep.SetMcuState MCU_STATE_RESUME,
             IrStep.CheckMcuMode MCU_MODE_STANDBY, IrStep.SetMcuMode MCU_MODE_IR,
             IrStep.CheckMcuMode MCU_MODE_IR, IrStep.SetMcuIrConfig_fixed config.fixed,
             IrStep.CheckMcuIrMode IR_MODE_IMG_TRANSFER, IrStep.SetMcuIrConfig_live config.live,
             IrStep.GetIrImage config.fixed, IrStep.SetMcuState MCU_STATE_SUSPEND,
             IrStep.Poll POLL_STANDARD]))
    ∧ (∀ (results : List Int) (r : Int) (t : List IrStep),
        ControllerImpl.SetIrConfig false config results = some (Exit.returned r, t) →
        r = DONE) := by
  refine ⟨?_, ?_, ?_⟩
  · intro e h1 h2
    constructor <;>
      simp [ControllerImpl.SetIrConfig, SetIrConfig.step_2, SetIrConfig.step_3,
        SetIrConfig.step_6, SetIrConfig.step_10, assert_fails_of_true, done_ne_timedout, h1, h2]
  · intro g
    simp [ControllerImpl.SetIrConfig, SetIrConfig.step_2, SetIrConfig.step_3,
      SetIrConfig.step_6, SetIrConfig.step_10, assert_fails_of_true, done_ne_timedout]
  · intro results r t h
    exact (SetIrConfig_returned false config r t results h).2 rfl

/-- Instances of C27: `ERROR` from `CheckMcuMode(STANDBY)`, `ABORT` from
`CheckMcuIrMode(IMG_TRANSFER)` and `TIMEDOUT` from `GetIrImage` all end in
`DONE`, which is none of them. -/
theorem ControllerImpl.SetIrConfig_masks_failure_witness :
    (ControllerImpl.SetIrConfig false ir_test_config [DONE, DONE, ERROR, DONE, DONE]).map
        Prod.fst = some (Exit.returned DONE)
    ∧ (ControllerImpl.SetIrConfig false ir_test_config
        [DONE, DONE, DONE, DONE, DONE, DONE, ABORT, DONE, DONE]).map
        Prod.fst = some (Exit.returned DONE)
    ∧ (ControllerImpl.SetIrConfig false ir_test_config
        [DONE, DONE, DONE, DONE, DONE, DONE, DONE, DONE, TIMEDOUT, DONE, DONE]).map
        Prod.fst = some (Exit.returned DONE)
    ∧ DONE ≠ ERROR ∧ DONE ≠ ABORT ∧ DONE ≠ TIMEDOUT := by
  refine ⟨?_, ?_, ?_, by decide, by decide, by decide⟩
  · rw [((ControllerImpl.SetIrConfig_masks_failure false ir_test_config).1 ERROR (by decide)
      (by decide)).1]
    rfl
  · rw [((ControllerImpl.SetIrConfig_masks_failure false ir_test_config).1 ABORT (by decide)
      (by decide)).2]
    rfl
  · rw [(ControllerImpl.SetIrConfig_masks_failure false ir_test_config).2.1 TIMEDOUT]
    rfl

/-! ## The IR image inspector -/

theorem ir_payload_length (input : List Nat) : (InputReport.ir_payload input).length = 300 := by
  simp [InputReport.ir_payload]

theorem ir_payload_getElem? (input : List Nat) (k : Nat) (h : k < 300) :
    (InputReport.ir_payload input)[k]? = some (InputReport.ir input (10 + k)) := by
  simp [InputReport.ir_payload, List.getElem?_map, List.getElem?_range h]

theorem store_length (buf bytes : List Nat) (off : Nat) (h : off + bytes.length ≤ buf.length) :
    (store buf off bytes).length = buf.length := by
  simp only [store, memmove, List.length_append, List.length_take, List.length_drop]
  omega

theorem store_getElem? (buf bytes : List Nat) (off k : Nat)
    (h : off + bytes.length ≤ buf.length) :
    (store buf off bytes)[k]? =
      if off ≤ k ∧ k < off + bytes.length then bytes[k - off]? else buf[k]? := by
  have h1 : (buf.take off).length = off := by
    rw [List.length_take]; omega
  simp only [store, memmove, List.take_length]
  by_cases c1 : k < off
  · rw [List.getElem?_append_left (by omega), if_neg (by omega), List.getElem?_take_of_lt c1]
  · rw [List.getElem?_append_right (by omega), h1]
    by_cases c2 : k < off + bytes.length
    · rw [List.getElem?_append_left (by omega), if_pos ⟨by omega, c2⟩]
    · rw [List.getElem?_append_right (by omega), if_neg (by omega), List.getElem?_drop,
        List.getElem?_drop]
      congr 1
      omega

theorem run_append {κ ω : Type} (crc8 : List Nat → Nat)
    (transmit0 : List Nat → ω → List Nat × ω) (cb : Option (κ → Int × κ)) (m : Nat) :
    ∀ (l1 l2 : List (List Nat)) (env : IrInspector κ ω),
      GetIrImage_inspector.run crc8 transmit0 cb m env (l1 ++ l2) =
        ((GetIrImage_inspector.run crc8 transmit0 cb m env l1).1
            ++ (GetIrImage_inspector.run crc8 transmit0 cb m
                  (GetIrImage_inspector.run crc8 transmit0 cb m env l1).2 l2).1,
         (GetIrImage_inspector.run crc8 transmit0 cb m
            (GetIrImage_inspector.run crc8 transmit0 cb m env l1).2 l2).2) := by
  intro l1
  induction l1 with
  | nil => intro l2 env; rfl
  | cons a l1 ih =>
    intro l2 env
    simp only [List.cons_append, GetIrImage_inspector.run, List.append_eq, ih]

/-- A data report that carries fragment 0, or the fragment after the previous
one and not the last one: it is stored and acknowledged. -/
theorem inspector_of_next {κ ω : Type} (crc8 : List Nat → Nat)
    (transmit0 : List Nat → ω → List Nat × ω) (cb : Option (κ → Int × κ)) (m a : Nat)
    (env : IrInspector κ ω) (input : List Nat)
    (h1 : InputReport.id input = 0x31) (h2 : InputReport.ir input 0 = 0x3)
    (h3 : InputReport.ir input 3 = a) (ha : a = 0 ∨ env.pre_frag_no + 1 = a) (hm : a < m) :
    (GetIrImage_inspector crc8 transmit0 cb m env input).1 = AGAIN
    ∧ (GetIrImage_inspector crc8 transmit0 cb m env input).2.pre_frag_no = a
    ∧ (GetIrImage_inspector crc8 transmit0 cb m env input).2.callback = env.callback
    ∧ (GetIrImage_inspector crc8 transmit0 cb m env input).2.image =
        store env.image (300 * a) (InputReport.ir_payload input) := by
  by_cases c0 : a = 0
  · subst c0
    simp [GetIrImage_inspector, h1, h2, h3]
  · have e1 : env.pre_frag_no + 1 = a := by
      rcases ha with h | h
      · exact absurd h c0
      · exact h
    have c1 : ¬ a = env.pre_frag_no := by omega
    have c2 : ¬ a = m := by omega
    simp [GetIrImage_inspector, h1, h2, h3, c0, c1, c2, e1]

/-- The data report that carries the last fragment, when the callback returns
a value other than 0: it is stored, the callback is called, nothing is
acknowledged. -/
theorem inspector_of_last {κ ω : Type} (crc8 : List Nat → Nat)
    (transmit0 : List Nat → ω → List Nat × ω) (f : κ → Int × κ) (m : Nat)
    (env : IrInspector κ ω) (input : List Nat)
    (h1 : InputReport.id input = 0x31) (h2 : InputReport.ir input 0 = 0x3)
    (h3 : InputReport.ir input 3 = m) (hm : m ≠ 0) (hp : env.pre_frag_no ≠ m)
    (hf : (f env.callback).1 ≠ 0) :
    GetIrImage_inspector crc8 transmit0 (some f) m env input =
      (DONE, { env with
               cur_frag_no := m,
               pre_frag_no := m,
               image := store env.image (300 * m) (InputReport.ir_payload input),
               callback := (f env.callback).2 }) := by
  have c1 : ¬ m = env.pre_frag_no := fun h => hp h.symm
  simp [GetIrImage_inspector, h1, h2, h3, hm, c1, hf]

/-- The fragments `a`, …, `a + n - 1`, none of them the last one, fed in
order from a state in which `a` is 0 or the fragment after the previous one. -/
theorem run_of_fragments {κ ω : Type} (crc8 : List Nat → Nat)
    (transmit0 : List Nat → ω → List Nat × ω) (cb : Option (κ → Int × κ)) (m : Nat)
    (reports : Nat → List Nat)
    (hrep : ∀ i, i ≤ m → InputReport.id (reports i) = 0x31
      ∧ InputReport.ir (reports i) 0 = 0x3 ∧ InputReport.ir (reports i) 3 = i) :
    ∀ (n a : Nat) (env : IrInspector κ ω), (a = 0 ∨ env.pre_frag_no + 1 = a) → a + n ≤ m →
      (m + 1) * 300 ≤ env.image.length →
      (GetIrImage_inspector.run crc8 transmit0 cb m env
          ((List.range' a n).map reports)).1 = List.replicate n AGAIN
      ∧ (0 < n → (GetIrImage_inspector.run crc8 transmit0 cb m env
          ((List.range' a n).map reports)).2.pre_frag_no + 1 = a + n)
      ∧ (n = 0 → (GetIrImage_inspector.run crc8 transmit0 cb m env
          ((List.range' a n).map reports)).2.pre_frag_no = env.pre_frag_no)
      ∧ (GetIrImage_inspector.run crc8 transmit0 cb m env
          ((List.range' a n).map reports)).2.callback = env.callback
      ∧ (GetIrImage_inspector.run crc8 transmit0 cb m env
          ((List.range' a n).map reports)).2.image.length = env.image.length
      ∧ ∀ k, (GetIrImage_inspector.run crc8 transmit0 cb m env
          ((List.range' a n).map reports)).2.image[k]? =
            if 300 * a ≤ k ∧ k < 300 * (a + n) then
              some (InputReport.ir (reports (k / 300)) (10 + k % 300))
            else env.image[k]? := by
  intro n
  induction n with
  | zero =>
    intro a env _ _ _
    refine ⟨rfl, fun h => absurd h (by decide), fun _ => rfl, rfl, rfl, ?_⟩
    intro k
    rw [if_neg (by omega)]
    rfl
  | succ n ih =>
    intro a env ha hm hlen
    obtain ⟨r1, r2, r3⟩ := hrep a (by omega)
    obtain ⟨s1, s2, s3, s4⟩ := inspector_of_next crc8 transmit0 cb m a env (reports a) r1 r2 r3
      ha (by omega)
    have hl4 : (GetIrImage_inspector crc8 transmit0 cb m env (reports a)).2.image.length
        = env.image.length := by
      rw [s4, store_length _ _ _ (by rw [ir_payload_length]; omega)]
    obtain ⟨i1, i2, i3, i4, i5, i6⟩ := ih (a + 1)
      (GetIrImage_inspector crc8 transmit0 cb m env (reports a)).2
      (Or.inr (by rw [s2])) (by omega) (by rw [hl4]; exact hlen)
    simp only [List.range'_succ, List.map_cons, GetIrImage_inspector.run]
    refine ⟨?_, ?_, ?_, ?_, ?_, ?_⟩
    · rw [i1, s1, List.replicate_succ]
    · intro _
      by_cases hn : n = 0
      · subst hn
        rw [i3 rfl, s2]
      · rw [i2 (Nat.pos_of_ne_zero hn)]
        omega
    · intro h
      exact absurd h (by omega)
    · rw [i4, s3]
    · rw [i5, hl4]
    · intro k
      rw [i6 k, s4, store_getElem? _ _ _ _ (by rw [ir_payload_length]; omega),
        ir_payload_length]
      by_cases c1 : 300 * (a + 1) ≤ k ∧ k < 300 * (a + 1 + n)
      · rw [if_pos c1, if_pos (by omega)]
      · rw [if_neg c1]
        by_cases c2 : 300 * a ≤ k ∧ k < 300 * a + 300
        · rw [if_pos c2, if_pos (by omega), ir_payload_getElem? _ _ (by omega)]
          have e1 : k / 300 = a := by omega
          have e2 : k % 300 = k - 300 * a := by omega
          rw [e1, e2]
        · rw [if_neg c2, if_neg (by omega)]

/-- C28: for every number `m >= 1` of the last fragment, the inspector of
`GetIrImage`, fed the data reports (id `0x31`, `ir[0] = 0x03`) of the
fragments 0, 1, …, `m` in order, with a callback that returns a value other
than 0 and an image buffer that holds a frame, returns `AGAIN` for the
fragments 0 to `m - 1` and `DONE` for fragment `m`, calls the callback once
(the state of the callback is the one after one call), and leaves in
`image[300 * i .. 300 * (i + 1))` the bytes `ir[10 .. 310)` of fragment `i`,
for every `i` from 0 to `m`. This holds from any value of `pre_frag_no`,
fragment 0 sets it to 0. -/
theorem GetIrImage_inspector_frame {κ ω : Type} (crc8 : List Nat → Nat)
    (transmit0 : List Nat → ω → List Nat × ω) (f : κ → Int × κ) (m : Nat)
    (env : IrInspector κ ω) (reports : Nat → List Nat)
    (hm : 1 ≤ m) (hlen : (m + 1) * 300 ≤ env.image.length)
    (hcb : ∀ c, (f c).1 ≠ 0)
    (hrep : ∀ i, i ≤ m → InputReport.id (reports i) = 0x31
      ∧ InputReport.ir (reports i) 0 = 0x3 ∧ InputReport.ir (reports i) 3 = i) :
    (GetIrImage_inspector.run crc8 transmit0 (some f) m env
        ((List.range (m + 1)).map reports)).1 = List.replicate m AGAIN ++ [DONE]
    ∧ (GetIrImage_inspector.run crc8 transmit0 (some f) m env
        ((List.range (m + 1)).map reports)).2.callback = (f env.callback).2
    ∧ (GetIrImage_inspector.run crc8 transmit0 (some f) m env
        ((List.range (m + 1)).map reports)).2.pre_frag_no = m
    ∧ (GetIrImage_inspector.run crc8 transmit0 (some f) m env
        ((List.range (m + 1)).map reports)).2.image.length = env.image.length
    ∧ ∀ i, i ≤ m →
        ((GetIrImage_inspector.run crc8 transmit0 (some f) m env
          ((List.range (m + 1)).map reports)).2.image.drop (300 * i)).take 300
        = InputReport.ir_payload (reports i) := by
  obtain ⟨i1, i2, _, i4, i5, i6⟩ := run_of_fragments crc8 transmit0 (some f) m reports hrep
    m 0 env (Or.inl rfl) (by omega) hlen
  obtain ⟨r1, r2, r3⟩ := hrep m (Nat.le_refl m)
  have hp : (GetIrImage_inspector.run crc8 transmit0 (some f) m env
      ((List.range' 0 m).map reports)).2.pre_frag_no ≠ m := by
    have := i2 (by omega)
    omega
  have hl := inspector_of_last crc8 transmit0 f m
    (GetIrImage_inspector.run crc8 transmit0 (some f) m env ((List.range' 0 m).map reports)).2
    (reports m) r1 r2 r3 (by omega) hp (hcb _)
  have hrun : GetIrImage_inspector.run crc8 transmit0 (some f) m env
      ((List.range (m + 1)).map reports) =
      (List.replicate m AGAIN ++ [DONE],
       { (GetIrImage_inspector.run crc8 transmit0 (some f) m env
            ((List.range' 0 m).map reports)).2 with
         cur_frag_no := m,
         pre_frag_no := m,
         image := store (GetIrImage_inspector.run crc8 transmit0 (some f) m env
            ((List.range' 0 m).map reports)).2.image (300 * m)
            (InputReport.ir_payload (reports m)),
         callback := (f env.callback).2 }) := by
    rw [List.range_succ, List.map_append, run_append, List.range_eq_range', i1]
    simp only [List.map_cons, List.map_nil, GetIrImage_inspector.run, hl, i4]
  rw [hrun]
  refine ⟨rfl, rfl, rfl, ?_, ?_⟩
  · show (store _ _ _).length = _
    rw [store_length _ _ _ (by rw [ir_payload_length, i5]; omega), i5]
  · intro i hi
    apply List.ext_getElem?
    intro k
    show (((store _ _ _).drop (300 * i)).take 300)[k]? = _
    simp only [List.getElem?_take, List.getElem?_drop]
    by_cases hk : k < 300
    · rw [if_pos hk, store_getElem? _ _ _ _ (by rw [ir_payload_length, i5]; omega),
        ir_payload_length, ir_payload_getElem? _ _ hk]
      by_cases c : i = m
      · subst c
        rw [if_pos (by omega), ir_payload_getElem? _ _ (by omega)]
        congr 2
        omega
      · rw [if_neg (by omega), i6, if_pos (by omega)]
        have e1 : (300 * i + k) / 300 = i := by omega
        have e2 : (300 * i + k) % 300 = k := by omega
        rw [e1, e2]
    · rw [if_neg hk]
      exact (List.getElem?_eq_none (by rw [ir_payload_length]; omega)).symm

theorem ir_test_report_payload (i : Nat) :
    InputReport.ir_payload (ir_test_report i) = List.replicate 300 i := by
  apply List.ext_getElem?
  intro k
  by_cases hk : k < 300
  · rw [ir_payload_getElem? _ _ hk, List.getElem?_replicate, if_pos hk]
    have hA : ir_test_report i =
        ([0x31] ++ List.replicate 48 0 ++ [0x03, 0, 0, i] ++ List.replicate 6 0)
          ++ (List.replicate 300 i ++ List.replicate 3 0) := by
      simp only [ir_test_report, List.append_assoc]
    have hl : ([0x31] ++ List.replicate 48 0 ++ [0x03, 0, 0, i] ++ List.replicate 6 0).length
        = 59 := by simp
    simp only [InputReport.ir, List.getD_eq_getElem?_getD]
    rw [hA, List.getElem?_append_right (by rw [hl]; omega), hl,
      List.getElem?_append_left (by rw [List.length_replicate]; omega),
      List.getElem?_replicate, if_pos (by omega)]
    rfl
  · rw [List.getElem?_eq_none (by rw [ir_payload_length]; omega),
      List.getElem?_eq_none (by rw [List.length_replicate]; omega)]

/-- Instance of C28 with `m = 3` and the payload of fragment `i` filled with
`i`: three times `AGAIN`, then `DONE`; the callback, which counts its calls,
has been called once; the four blocks of 300 bytes hold 0, 1, 2, 3. -/
theorem GetIrImage_inspector_frame_witness :
    (GetIrImage_inspector.run (fun _ => 0) (fun o w => (o, w ++ [o]))
        (some fun c => (1, c + 1)) 3 (ir_test_env fun _ => 0)
        ((List.range (3 + 1)).map ir_test_report)).1 = [AGAIN, AGAIN, AGAIN, DONE]
    ∧ (GetIrImage_inspector.run (fun _ => 0) (fun o w => (o, w ++ [o]))
        (some fun c => (1, c + 1)) 3 (ir_test_env fun _ => 0)
        ((List.range (3 + 1)).map ir_test_report)).2.callback = 1
    ∧ ((GetIrImage_inspector.run (fun _ => 0) (fun o w => (o, w ++ [o]))
        (some fun c => (1, c + 1)) 3 (ir_test_env fun _ => 0)
        ((List.range (3 + 1)).map ir_test_report)).2.image.drop (300 * 0)).take 300
        = List.replicate 300 0
    ∧ ((GetIrImage_inspector.run (fun _ => 0) (fun o w => (o, w ++ [o]))
        (some fun c => (1, c + 1)) 3 (ir_test_env fun _ => 0)
        ((List.range (3 + 1)).map ir_test_report)).2.image.drop (300 * 1)).take 300
        = List.replicate 300 1
    ∧ ((GetIrImage_inspector.run (fun _ => 0) (fun o w => (o, w ++ [o]))
        (some fun c => (1, c + 1)) 3 (ir_test_env fun _ => 0)
        ((List.range (3 + 1)).map ir_test_report)).2.image.drop (300 * 2)).take 300
        = List.replicate 300 2
    ∧ ((GetIrImage_inspector.run (fun _ => 0) (fun o w => (o, w ++ [o]))
        (some fun c => (1, c + 1)) 3 (ir_test_env fun _ => 0)
        ((List.range (3 + 1)).map ir_test_report)).2.image.drop (300 * 3)).take 300
        = List.replicate 300 3 := by
  obtain ⟨h1, h2, _, _, h5⟩ := GetIrImage_inspector_frame (fun _ => 0)
    (fun (o : List Nat) (w : List (List Nat)) => (o, w ++ [o]))
    (fun (c : Nat) => ((1 : Int), c + 1)) 3 (ir_test_env fun _ => 0) ir_test_report
    (by decide)
    (by show 1200 ≤ (List.replicate 1200 0xEE).length; rw [List.length_replicate])
    (fun _ => by show (1 : Int) ≠ 0; decide)
    (by
      intro i hi
      interval_cases i <;> exact ⟨rfl, rfl, rfl⟩)
  refine ⟨h1, h2, ?_, ?_, ?_, ?_⟩
  · exact (h5 0 (by decide)).trans (ir_test_report_payload 0)
  · exact (h5 1 (by decide)).trans (ir_test_report_payload 1)
  · exact (h5 2 (by decide)).trans (ir_test_report_payload 2)
  · exact (h5 3 (by decide)).trans (ir_test_report_payload 3)


/-! ## The IR image inspector: duplicates and reports without data -/

theorem calc_crc8_03_getD (crc8 : List Nat → Nat) (o : List Nat) (k : Nat) (hk : k ≠ 47) :
    (calc_crc8_03 crc8 o).getD k 0 = o.getD k 0 := by
  simp only [calc_crc8_03, List.getD_eq_getElem?_getD, List.getElem?_set]
  rw [if_neg (fun h => hk h.symm)]

/-- C31: on a data report (id `0x31`, `ir[0] = 0x03`) whose fragment number
`cur` is the previous one `pre_frag_no` and is not 0, the inspector of
`GetIrImage` returns `AGAIN`, leaves `image`, `pre_frag_no` and the callback
as they were, and transmits once: the report is `output_` with `cur` in
`raw[3]` (byte 14) and the checksum renewed. So from `pre_frag_no = 0`, with
the last fragment above 1, fragment 1 fed twice gives `AGAIN` twice, one
copy at offset 300, `pre_frag_no = 1` and two transmitted reports. -/
theorem GetIrImage_inspector_duplicate {κ ω : Type} (crc8 : List Nat → Nat)
    (transmit0 : List Nat → ω → List Nat × ω) (cb : Option (κ → Int × κ)) (m : Nat)
    (env : IrInspector κ ω) (input : List Nat)
    (h1 : InputReport.id input = 0x31) (h2 : InputReport.ir input 0 = 0x3) :
    (InputReport.ir input 3 = env.pre_frag_no → InputReport.ir input 3 ≠ 0 →
      GetIrImage_inspector crc8 transmit0 cb m env input =
        (AGAIN,
         { env with
           cur_frag_no := InputReport.ir input 3,
           output_ := (transmit0 (calc_crc8_03 crc8
              (env.output_.set 14 (InputReport.ir input 3 % 256))) env.world).1,
           world := (transmit0 (calc_crc8_03 crc8
              (env.output_.set 14 (InputReport.ir input 3 % 256))) env.world).2 })
      ∧ (14 < env.output_.length → InputReport.ir input 3 < 256 →
          (calc_crc8_03 crc8 (env.output_.set 14 (InputReport.ir input 3 % 256))).getD 14 0
            = InputReport.ir input 3))
    ∧ (InputReport.ir input 3 = 1 → env.pre_frag_no = 0 → 1 < m →
        (GetIrImage_inspector.run crc8 transmit0 cb m env [input, input]).1 = [AGAIN, AGAIN]
        ∧ (GetIrImage_inspector.run crc8 transmit0 cb m env [input, input]).2.pre_frag_no = 1
        ∧ (GetIrImage_inspector.run crc8 transmit0 cb m env [input, input]).2.image =
            store env.image 300 (InputReport.ir_payload input)
        ∧ (GetIrImage_inspector.run crc8 transmit0 cb m env [input, input]).2.callback =
            env.callback
        ∧ (GetIrImage_inspector.run crc8 transmit0 cb m env [input, input]).2.world =
            (transmit0 (calc_crc8_03 crc8
              ((transmit0 (calc_crc8_03 crc8 (env.output_.set 14 1)) env.world).1.set 14 1))
              (transmit0 (calc_crc8_03 crc8 (env.output_.set 14 1)) env.world).2).2) := by
  have dup : ∀ (e : IrInspector κ ω), InputReport.ir input 3 = e.pre_frag_no →
      InputReport.ir input 3 ≠ 0 →
      GetIrImage_inspector crc8 transmit0 cb m e input =
        (AGAIN,
         { e with
           cur_frag_no := InputReport.ir input 3,
           output_ := (transmit0 (calc_crc8_03 crc8
              (e.output_.set 14 (InputReport.ir input 3 % 256))) e.world).1,
           world := (transmit0 (calc_crc8_03 crc8
              (e.output_.set 14 (InputReport.ir input 3 % 256))) e.world).2 }) := by
    intro e h3 h4
    simp only [GetIrImage_inspector, h1, h2, and_self, if_true]
    rw [if_neg h4, if_pos h3]
  refine ⟨fun h3 h4 => ⟨dup env h3 h4, ?_⟩, ?_⟩
  · intro hl hb
    rw [calc_crc8_03_getD _ _ _ (by decide), Nat.mod_eq_of_lt hb,
      List.getD_eq_getElem?_getD, List.getElem?_set_self hl]
    rfl
  · intro h3 hp hm
    have c1 : ¬ (1 = env.pre_frag_no) := by omega
    have c2 : ¬ (1 = m) := by omega
    have first : GetIrImage_inspector crc8 transmit0 cb m env input =
        (AGAIN,
         { env with
           cur_frag_no := 1,
           pre_frag_no := 1,
           image := store env.image 300 (InputReport.ir_payload input),
           output_ := (transmit0 (calc_crc8_03 crc8 (env.output_.set 14 1)) env.world).1,
           world := (transmit0 (calc_crc8_03 crc8 (env.output_.set 14 1)) env.world).2 }) := by
      simp [GetIrImage_inspector, h1, h2, h3, c1, c2, hp]
    have second := dup
      { env with
        cur_frag_no := 1,
        pre_frag_no := 1,
        image := store env.image 300 (InputReport.ir_payload input),
        output_ := (transmit0 (calc_crc8_03 crc8 (env.output_.set 14 1)) env.world).1,
        world := (transmit0 (calc_crc8_03 crc8 (env.output_.set 14 1)) env.world).2 }
      h3 (by omega)
    simp only [GetIrImage_inspector.run, first, second, h3, and_self]

/-- Instances of C31: from `pre_frag_no = 1` the report of fragment 1 changes
nothing but `cur_frag_no` and sends one report with 1 in byte 14; from the
start state of the fragment test, fragment 1 fed twice gives two reports. -/
theorem GetIrImage_inspector_duplicate_witness :
    (GetIrImage_inspector (fun _ => 0) (fun o w => (o, w ++ [o])) (none : Option (Nat → Int × Nat))
        3 { ir_test_env (fun _ => 0) with pre_frag_no := 1 } (ir_test_report 1)).1 = AGAIN
    ∧ (GetIrImage_inspector (fun _ => 0) (fun o w => (o, w ++ [o]))
        (none : Option (Nat → Int × Nat)) 3 { ir_test_env (fun _ => 0) with pre_frag_no := 1 }
        (ir_test_report 1)).2.image = (ir_test_env (fun _ => 0)).image
    ∧ ((GetIrImage_inspector (fun _ => 0) (fun o w => (o, w ++ [o]))
        (none : Option (Nat → Int × Nat)) 3 { ir_test_env (fun _ => 0) with pre_frag_no := 1 }
        (ir_test_report 1)).2.world.map fun r => r.getD 14 0) = [1]
    ∧ (GetIrImage_inspector.run (fun _ => 0) (fun o w => (o, w ++ [o]))
        (none : Option (Nat → Int × Nat)) 3 (ir_test_env (fun _ => 0))
        [ir_test_report 1, ir_test_report 1]).1 = [AGAIN, AGAIN]
    ∧ (GetIrImage_inspector.run (fun _ => 0) (fun o w => (o, w ++ [o]))
        (none : Option (Nat → Int × Nat)) 3 (ir_test_env (fun _ => 0))
        [ir_test_report 1, ir_test_report 1]).2.pre_frag_no = 1
    ∧ ((GetIrImage_inspector.run (fun _ => 0) (fun o w => (o, w ++ [o]))
        (none : Option (Nat → Int × Nat)) 3 (ir_test_env (fun _ => 0))
        [ir_test_report 1, ir_test_report 1]).2.world.map fun r => r.getD 14 0) = [1, 1] := by
  have h := GetIrImage_inspector_duplicate (fun _ => 0)
    (fun (o : List Nat) (w : List (List Nat)) => (o, w ++ [o])) (none : Option (Nat → Int × Nat))
    3 { ir_test_env (fun _ => 0) with pre_frag_no := 1 } (ir_test_report 1) rfl rfl
  have g := GetIrImage_inspector_duplicate (fun _ => 0)
    (fun (o : List Nat) (w : List (List Nat)) => (o, w ++ [o])) (none : Option (Nat → Int × Nat))
    3 (ir_test_env (fun _ => 0)) (ir_test_report 1) rfl rfl
  obtain ⟨h1, _⟩ := h.1 rfl (by decide)
  obtain ⟨g1, g2, _, _, g5⟩ := g.2 rfl rfl (by decide)
  refine ⟨?_, ?_, ?_, g1, g2, ?_⟩
  · rw [h1]
  · rw [h1]
  · rw [h1]
    decide
  · rw [g5]
    decide

/-- Counterexample to C32 as stated: a report with id `0x31` and
`ir[0] = 0x07`, which is none of `0x03`, `0xFF`, `0x00`: the inspector
returns `AGAIN`, not `WAITING`, and transmits `output_` once more. -/
theorem GetIrImage_inspector_other_again :
    (GetIrImage_inspector (fun _ => 0) (fun o w => (o, w ++ [o])) (none : Option (Nat → Int × Nat))
        3 (ir_test_env (fun _ => 0)) ([0x31] ++ List.replicate 48 0 ++ [0x07])).1 = AGAIN
    ∧ (GetIrImage_inspector (fun _ => 0) (fun o w => (o, w ++ [o]))
        (none : Option (Nat → Int × Nat)) 3 (ir_test_env (fun _ => 0))
        ([0x31] ++ List.replicate 48 0 ++ [0x07])).2.world =
        [GetIrImage_output (fun _ => 0) (List.replicate 49 0)]
    ∧ AGAIN ≠ WAITING := by
  refine ⟨?_, ?_, by decide⟩
  · decide
  · decide

/-- C32 (amended): on every report with id `0x31` that is not a data report
(`ir[0]` other than `0x03`) the inspector of `GetIrImage` transmits `output_`
with the checksum renewed and returns `AGAIN`: for `ir[0] = 0xFF` after
writing `0x00, 0x00, pre_frag_no` to `raw[1..3]`, for `ir[0] = 0x00` after
writing `0x01, pre_frag_no + 1, 0x00`, and for every other `ir[0]` as it is.
It returns `WAITING`, and then transmits nothing and changes nothing, exactly
on the reports whose id is not `0x31`. -/
theorem GetIrImage_inspector_no_data {κ ω : Type} (crc8 : List Nat → Nat)
    (transmit0 : List Nat → ω → List Nat × ω) (cb : Option (κ → Int × κ)) (m : Nat)
    (env : IrInspector κ ω) (input : List Nat) :
    (InputReport.id input = 0x31 → InputReport.ir input 0 ≠ 0x3 →
      GetIrImage_inspector crc8 transmit0 cb m env input =
        (AGAIN,
         { env with
           output_ := (transmit0 (calc_crc8_03 crc8
              (if InputReport.ir input 0 = 0xff then
                ((env.output_.set 12 0x0).set 13 0x0).set 14 (env.pre_frag_no % 256)
               else if InputReport.ir input 0 = 0x0 then
                ((env.output_.set 12 0x1).set 13 ((env.pre_frag_no + 1) % 256)).set 14 0x0
               else env.output_)) env.world).1,
           world := (transmit0 (calc_crc8_03 crc8
              (if InputReport.ir input 0 = 0xff then
                ((env.output_.set 12 0x0).set 13 0x0).set 14 (env.pre_frag_no % 256)
               else if InputReport.ir input 0 = 0x0 then
                ((env.output_.set 12 0x1).set 13 ((env.pre_frag_no + 1) % 256)).set 14 0x0
               else env.output_)) env.world).2 }))
    ∧ (InputReport.id input ≠ 0x31 →
        GetIrImage_inspector crc8 transmit0 cb m env input = (WAITING, env))
    ∧ ((GetIrImage_inspector crc8 transmit0 cb m env input).1 = WAITING
        ↔ InputReport.id input ≠ 0x31) := by
  have nodata : InputReport.id input = 0x31 → InputReport.ir input 0 ≠ 0x3 →
      GetIrImage_inspector crc8 transmit0 cb m env input =
        (AGAIN,
         { env with
           output_ := (transmit0 (calc_crc8_03 crc8
              (if InputReport.ir input 0 = 0xff then
                ((env.output_.set 12 0x0).set 13 0x0).set 14 (env.pre_frag_no % 256)
               else if InputReport.ir input 0 = 0x0 then
                ((env.output_.set 12 0x1).set 13 ((env.pre_frag_no + 1) % 256)).set 14 0x0
               else env.output_)) env.world).1,
           world := (transmit0 (calc_crc8_03 crc8
              (if InputReport.ir input 0 = 0xff then
                ((env.output_.set 12 0x0).set 13 0x0).set 14 (env.pre_frag_no % 256)
               else if InputReport.ir input 0 = 0x0 then
                ((env.output_.set 12 0x1).set 13 ((env.pre_frag_no + 1) % 256)).set 14 0x0
               else env.output_)) env.world).2 }) := by
    intro h1 h2
    simp only [GetIrImage_inspector, h1, h2, and_false, if_false, if_true]
  have other : InputReport.id input ≠ 0x31 →
      GetIrImage_inspector crc8 transmit0 cb m env input = (WAITING, env) := by
    intro h1
    simp only [GetIrImage_inspector, h1, false_and, if_false]
  refine ⟨nodata, other, ?_⟩
  constructor
  · intro h hid
    by_cases h2 : InputReport.ir input 0 = 0x3
    · have ha : AGAIN ≠ WAITING := by decide
      have hd : DONE ≠ WAITING := by decide
      simp only [GetIrImage_inspector, hid, h2, and_self, if_true] at h
      cases cb with
      | none =>
        simp only at h
        split_ifs at h <;> exact ha h
      | some f =>
        simp only at h
        split_ifs at h <;> first | exact ha h | exact hd h
    · rw [nodata hid h2] at h
      have ha : AGAIN ≠ WAITING := by decide
      exact ha h
  · intro hid
    rw [other hid]

/-- Instances of C32: a report with id `0x31` and `ir[0] = 0xFF` gives `AGAIN`;
a report with id `0x30` gives `WAITING` and leaves everything as it was. -/
theorem GetIrImage_inspector_no_data_witness :
    (GetIrImage_inspector (fun _ => 0) (fun o w => (o, w ++ [o])) (none : Option (Nat → Int × Nat))
        3 (ir_test_env (fun _ => 0)) ([0x31] ++ List.replicate 48 0 ++ [0xFF])).1 = AGAIN
    ∧ GetIrImage_inspector (fun _ => 0) (fun o w => (o, w ++ [o]))
        (none : Option (Nat → Int × Nat)) 3 (ir_test_env (fun _ => 0))
        ([0x30] ++ List.replicate 48 0 ++ [0x03]) = (WAITING, ir_test_env (fun _ => 0)) :=
  ⟨congrArg Prod.fst
    ((GetIrImage_inspector_no_data (fun _ => 0)
      (fun (o : List Nat) (w : List (List Nat)) => (o, w ++ [o]))
      (none : Option (Nat → Int × Nat)) 3 (ir_test_env (fun _ => 0))
      ([0x31] ++ List.replicate 48 0 ++ [0xFF])).1 (by decide) (by decide)),
   (GetIrImage_inspector_no_data (fun _ => 0)
      (fun (o : List Nat) (w : List (List Nat)) => (o, w ++ [o]))
      (none : Option (Nat → Int × Nat)) 3 (ir_test_env (fun _ => 0))
      ([0x30] ++ List.replicate 48 0 ++ [0x03])).2.1 (by decide)⟩

/-! ## The IR image inspector: what it does not check -/

theorem bzero_length (buf : List Nat) (n : Nat) (h : n ≤ buf.length) :
    (bzero buf n).length = buf.length := by
  simp only [bzero, List.length_append, List.length_replicate, List.length_drop]
  omega

/-- The data report that carries the last fragment, when there is no callback
or the callback returns 0: the fragment is stored, the frame is cleared and
the report acknowledged; `pre_frag_no` is the last fragment. -/
theorem inspector_of_last_continue {κ ω : Type} (crc8 : List Nat → Nat)
    (transmit0 : List Nat → ω → List Nat × ω) (cb : Option (κ → Int × κ)) (m : Nat)
    (env : IrInspector κ ω) (input : List Nat)
    (h1 : InputReport.id input = 0x31) (h2 : InputReport.ir input 0 = 0x3)
    (h3 : InputReport.ir input 3 = m) (hm : m ≠ 0) (hp : env.pre_frag_no ≠ m)
    (hcb : ∀ f, cb = some f → (f env.callback).1 = 0) :
    (GetIrImage_inspector crc8 transmit0 cb m env input).1 = AGAIN
    ∧ (GetIrImage_inspector crc8 transmit0 cb m env input).2.pre_frag_no = m
    ∧ (GetIrImage_inspector crc8 transmit0 cb m env input).2.image =
        bzero (store env.image (300 * m) (InputReport.ir_payload input)) ((m + 1) * 300) := by
  have c1 : ¬ m = env.pre_frag_no := fun h => hp h.symm
  cases cb with
  | none => simp [GetIrImage_inspector, h1, h2, h3, hm, c1]
  | some f =>
    have := hcb f rfl
    simp [GetIrImage_inspector, h1, h2, h3, hm, c1, this]

/-- A data report whose fragment number is the one after the previous one and
above the last fragment: it is stored like any next fragment. -/
theorem inspector_of_overrun {κ ω : Type} (crc8 : List Nat → Nat)
    (transmit0 : List Nat → ω → List Nat × ω) (cb : Option (κ → Int × κ)) (m a : Nat)
    (env : IrInspector κ ω) (input : List Nat)
    (h1 : InputReport.id input = 0x31) (h2 : InputReport.ir input 0 = 0x3)
    (h3 : InputReport.ir input 3 = a) (ha : env.pre_frag_no + 1 = a) (hm : m < a) :
    (GetIrImage_inspector crc8 transmit0 cb m env input).1 = AGAIN
    ∧ (GetIrImage_inspector crc8 transmit0 cb m env input).2.pre_frag_no = a
    ∧ (GetIrImage_inspector crc8 transmit0 cb m env input).2.image =
        store env.image (300 * a) (InputReport.ir_payload input) := by
  have c0 : ¬ a = 0 := by omega
  have c1 : ¬ a = env.pre_frag_no := by omega
  have c2 : ¬ a = m := by omega
  simp [GetIrImage_inspector, h1, h2, h3, c0, c1, c2, ha]

/-- C35 (the code differs): the inspector of `GetIrImage` does not compare the
fragment number with `ir_max_frag` before it copies. After a frame end that
does not finish the task (no callback, or a callback that returns 0)
`pre_frag_no` is `ir_max_frag`, and the data report with fragment number
`ir_max_frag + 1` is taken as the next fragment: its 300 bytes are copied to
offset `300 * (ir_max_frag + 1)`, which is behind the frame of
`(ir_max_frag + 1) * 300` bytes. -/
theorem GetIrImage_inspector_beyond_frame {κ ω : Type} (crc8 : List Nat → Nat)
    (transmit0 : List Nat → ω → List Nat × ω) (cb : Option (κ → Int × κ)) (m : Nat)
    (env : IrInspector κ ω) (reports : Nat → List Nat)
    (hm : 1 ≤ m) (hlen : (m + 2) * 300 ≤ env.image.length)
    (hcb : ∀ f, cb = some f → ∀ c, (f c).1 = 0)
    (hrep : ∀ i, i ≤ m + 1 → InputReport.id (reports i) = 0x31
      ∧ InputReport.ir (reports i) 0 = 0x3 ∧ InputReport.ir (reports i) 3 = i) :
    (GetIrImage_inspector.run crc8 transmit0 cb m env
        ((List.range (m + 2)).map reports)).1 = List.replicate (m + 2) AGAIN
    ∧ ((GetIrImage_inspector.run crc8 transmit0 cb m env
        ((List.range (m + 2)).map reports)).2.image.drop ((m + 1) * 300)).take 300
        = InputReport.ir_payload (reports (m + 1))
    ∧ (GetIrImage_inspector.run crc8 transmit0 cb m env
        ((List.range (m + 2)).map reports)).2.pre_frag_no = m + 1 := by
  have hrep1 : ∀ i, i ≤ m → InputReport.id (reports i) = 0x31
      ∧ InputReport.ir (reports i) 0 = 0x3 ∧ InputReport.ir (reports i) 3 = i :=
    fun i hi => hrep i (by omega)
  obtain ⟨i1, i2, _, _, i5, _⟩ := run_of_fragments crc8 transmit0 cb m reports hrep1
    m 0 env (Or.inl rfl) (by omega) (by omega)
  obtain ⟨r1, r2, r3⟩ := hrep m (by omega)
  obtain ⟨q1, q2, q3⟩ := hrep (m + 1) (by omega)
  have hp : (GetIrImage_inspector.run crc8 transmit0 cb m env
      ((List.range' 0 m).map reports)).2.pre_frag_no ≠ m := by
    have := i2 (by omega)
    omega
  obtain ⟨l1, l2, l3⟩ := inspector_of_last_continue crc8 transmit0 cb m
    (GetIrImage_inspector.run crc8 transmit0 cb m env ((List.range' 0 m).map reports)).2
    (reports m) r1 r2 r3 (by omega) hp (fun f hf => hcb f hf _)
  have hl3 : (GetIrImage_inspector crc8 transmit0 cb m
      (GetIrImage_inspector.run crc8 transmit0 cb m env ((List.range' 0 m).map reports)).2
      (reports m)).2.image.length = env.image.length := by
    rw [l3, bzero_length _ _ (by
      rw [store_length _ _ _ (by rw [ir_payload_length, i5]; omega), i5]; omega),
      store_length _ _ _ (by rw [ir_payload_length, i5]; omega), i5]
  obtain ⟨n1, n2, n4⟩ := inspector_of_overrun crc8 transmit0 cb m (m + 1)
    (GetIrImage_inspector crc8 transmit0 cb m
      (GetIrImage_inspector.run crc8 transmit0 cb m env ((List.range' 0 m).map reports)).2
      (reports m)).2
    (reports (m + 1)) q1 q2 q3 (by rw [l2]) (by omega)
  have e : (List.range (m + 2)).map reports =
      (List.range' 0 m).map reports ++ [reports m, reports (m + 1)] := by
    rw [List.range_succ, List.range_succ, List.range_eq_range', List.map_append,
      List.map_append, List.append_assoc]
    rfl
  have hrun : GetIrImage_inspector.run crc8 transmit0 cb m env
      ((List.range' 0 m).map reports ++ [reports m, reports (m + 1)]) =
      (List.replicate m AGAIN ++ [AGAIN, AGAIN],
       (GetIrImage_inspector crc8 transmit0 cb m
          (GetIrImage_inspector crc8 transmit0 cb m
            (GetIrImage_inspector.run crc8 transmit0 cb m env
              ((List.range' 0 m).map reports)).2
            (reports m)).2
          (reports (m + 1))).2) := by
    rw [run_append, i1]
    simp only [GetIrImage_inspector.run, l1, n1]
  rw [e, hrun]
  refine ⟨?_, ?_, n2⟩
  · show List.replicate m AGAIN ++ [AGAIN, AGAIN] = List.replicate (m + 2) AGAIN
    rw [List.replicate_add]
    rfl
  · show (List.drop ((m + 1) * 300) (GetIrImage_inspector crc8 transmit0 cb m _ _).2.image).take
      300 = _
    rw [n4]
    apply List.ext_getElem?
    intro k
    simp only [List.getElem?_take, List.getElem?_drop]
    by_cases hk : k < 300
    · have hb : 300 * (m + 1) ≤ (m + 1) * 300 + k
          ∧ (m + 1) * 300 + k < 300 * (m + 1) + 300 := by omega
      have hi : (m + 1) * 300 + k - 300 * (m + 1) = k := by omega
      rw [if_pos hk, store_getElem? _ _ _ _ (by rw [ir_payload_length, hl3]; omega),
        ir_payload_length, if_pos hb, hi]
    · rw [if_neg hk]
      exact (List.getElem?_eq_none (by rw [ir_payload_length]; omega)).symm

/-- Instance of C35 with `ir_max_frag = 3`, no callback and a buffer of 1500
bytes: the reports of the fragments 0, 1, 2, 3, 4 are all acknowledged and the
300 bytes behind the frame of 1200 bytes hold the payload of fragment 4. -/
theorem GetIrImage_inspector_beyond_frame_witness :
    (GetIrImage_inspector.run (fun _ => 0) (fun o w => (o, w ++ [o]))
        (none : Option (Nat → Int × Nat)) 3
        { ir_test_env (fun _ => 0) with image := List.replicate 1500 0xEE }
        ((List.range (3 + 2)).map ir_test_report)).1 = [AGAIN, AGAIN, AGAIN, AGAIN, AGAIN]
    ∧ ((GetIrImage_inspector.run (fun _ => 0) (fun o w => (o, w ++ [o]))
        (none : Option (Nat → Int × Nat)) 3
        { ir_test_env (fun _ => 0) with image := List.replicate 1500 0xEE }
        ((List.range (3 + 2)).map ir_test_report)).2.image.drop ((3 + 1) * 300)).take 300
        = List.replicate 300 4
    ∧ (3 + 1) * 300 = ir_config_30p.frame_size := by
  obtain ⟨h1, h2, _⟩ := GetIrImage_inspector_beyond_frame (fun _ => 0)
    (fun (o : List Nat) (w : List (List Nat)) => (o, w ++ [o]))
    (none : Option (Nat → Int × Nat)) 3
    { ir_test_env (fun _ => 0) with image := List.replicate 1500 0xEE } ir_test_report
    (by decide)
    (by show 1500 ≤ (List.replicate 1500 0xEE).length; rw [List.length_replicate])
    (fun f hf => by cases hf)
    (by
      intro i hi
      interval_cases i <;> exact ⟨rfl, rfl, rfl⟩)
  exact ⟨h1, h2.trans (ir_test_report_payload 4), by decide⟩

/-- C36 (the code differs): the inspector of `GetIrImage` calls the callback on
every data report that carries the last fragment number, provided the
previous fragment was not that one: it does not ask that the fragment before
was received. From the start state the report of fragment `ir_max_frag`
alone makes it store that fragment, call the callback and return `DONE`; the
bytes of the fragments below `ir_max_frag` in the image are then the ones
that were there before. -/
theorem GetIrImage_inspector_incomplete_frame {κ ω : Type} (crc8 : List Nat → Nat)
    (transmit0 : List Nat → ω → List Nat × ω) (f : κ → Int × κ) (m : Nat)
    (env : IrInspector κ ω) (input : List Nat)
    (h1 : InputReport.id input = 0x31) (h2 : InputReport.ir input 0 = 0x3)
    (h3 : InputReport.ir input 3 = m) (hm : m ≠ 0) (hp : env.pre_frag_no ≠ m)
    (hf : (f env.callback).1 ≠ 0) (hlen : (m + 1) * 300 ≤ env.image.length) :
    (GetIrImage_inspector crc8 transmit0 (some f) m env input).1 = DONE
    ∧ (GetIrImage_inspector crc8 transmit0 (some f) m env input).2.callback
        = (f env.callback).2
    ∧ (∀ k, k < 300 * m →
        (GetIrImage_inspector crc8 transmit0 (some f) m env input).2.image[k]?
          = env.image[k]?)
    ∧ (GetIrImage_inspector crc8 transmit0 (some f) m env input).2.world = env.world := by
  rw [inspector_of_last crc8 transmit0 f m env input h1 h2 h3 hm hp hf]
  refine ⟨rfl, rfl, ?_, rfl⟩
  intro k hk
  show (store env.image (300 * m) (InputReport.ir_payload input))[k]? = _
  rw [store_getElem? _ _ _ _ (by rw [ir_payload_length]; omega), if_neg (by omega)]

/-- Instance of C36 with `ir_max_frag = 3`: from the start state of the
fragment test the report of fragment 3 alone gives `DONE` and one call of the
callback, while the bytes 0 and 899 of the image are still `0xEE`: the
fragments 0, 1 and 2 were never received. -/
theorem GetIrImage_inspector_incomplete_frame_witness :
    (GetIrImage_inspector (fun _ => 0) (fun o w => (o, w ++ [o]))
        (some fun c => (1, c + 1)) 3 (ir_test_env (fun _ => 0)) (ir_test_report 3)).1 = DONE
    ∧ (GetIrImage_inspector (fun _ => 0) (fun o w => (o, w ++ [o]))
        (some fun c => (1, c + 1)) 3 (ir_test_env (fun _ => 0)) (ir_test_report 3)).2.callback
        = 1
    ∧ (GetIrImage_inspector (fun _ => 0) (fun o w => (o, w ++ [o]))
        (some fun c => (1, c + 1)) 3 (ir_test_env (fun _ => 0)) (ir_test_report 3)).2.image[0]?
        = some 0xEE
    ∧ (GetIrImage_inspector (fun _ => 0) (fun o w => (o, w ++ [o]))
        (some fun c => (1, c + 1)) 3 (ir_test_env (fun _ => 0)) (ir_test_report 3)).2.image[899]?
        = some 0xEE := by
  obtain ⟨h1, h2, h3, _⟩ := GetIrImage_inspector_incomplete_frame (fun _ => 0)
    (fun (o : List Nat) (w : List (List Nat)) => (o, w ++ [o]))
    (fun (c : Nat) => ((1 : Int), c + 1)) 3 (ir_test_env (fun _ => 0)) (ir_test_report 3)
    rfl rfl rfl (by decide) (by decide) (by show (1 : Int) ≠ 0; decide)
    (by show 1200 ≤ (List.replicate 1200 0xEE).length; rw [List.length_replicate])
  refine ⟨h1, h2, (h3 0 (by decide)).trans ?_, (h3 899 (by decide)).trans ?_⟩
  · show (List.replicate 1200 0xEE)[0]? = _
    rw [List.getElem?_replicate, if_pos (by decide)]
  · show (List.replicate 1200 0xEE)[899]? = _
    rw [List.getElem?_replicate, if_pos (by decide)]


/-! ## `ReadMemory`: the bytes the inspector reads -/

theorem getD_take_of_lt (l : List Nat) (i n : Nat) (h : i < n) :
    (l.take n).getD i 0 = l.getD i 0 := by
  simp only [List.getD_eq_getElem?_getD, List.getElem?_take, if_pos h]

theorem drop_getD (l : List Nat) (a i : Nat) : (l.drop a).getD i 0 = l.getD (a + i) 0 := by
  simp only [List.getD_eq_getElem?_getD, List.getElem?_drop]

theorem take_drop_take (l : List Nat) (a n k : Nat) (h : a + n ≤ k) :
    ((l.take k).drop a).take n = (l.drop a).take n := by
  rw [List.drop_take, List.take_take, Nat.min_eq_left (by omega)]

/-- C37: for every length that `ReadMemory` accepts (`size <= 0x1D`), what its
inspector returns and copies to the caller depends on the first 49 bytes of
the report only: the bytes it copies are `reply.data[5 .. 5 + size)`, the
report bytes `20 .. 20 + size`, and `5 + size <= 34`, the size of
`reply.data` (report bytes 15 to 48). -/
theorem ReadMemory_inspector_within_reply (address size : Nat) (data d input input' : List Nat)
    (hlen : assert_flash_mem_length size = true) (h : input.take 49 = input'.take 49) :
    (ReadMemory_inspector address size data).call d input
        = (ReadMemory_inspector address size data).call d input'
    ∧ (4 + 1) + size ≤ 34
    ∧ 15 + (4 + 1) + size ≤ 49
    ∧ ((ReadMemory_inspector address size data).call d input).2 =
        (if ((ReadMemory_inspector address size data).call d input).1 = DONE then
          (input.drop 20).take size ++ d.drop size
         else d) := by
  have hs : size ≤ 29 := by
    simp only [assert_flash_mem_length, FLASH_MEM_STEP, Bool.and_eq_true,
      decide_eq_true_eq] at hlen
    exact hlen.1
  have key : ∀ x : List Nat, (ReadMemory_inspector address size data).call d x
      = (ReadMemory_inspector address size data).call d (x.take 49) := by
    intro x
    simp only [ReadMemory_inspector, InputReport.id, InputReport.reply_subcmd_id,
      InputReport.reply_data, le32, memmove, drop_getD, List.drop_drop,
      getD_take_of_lt x _ 49 (by decide : 0 < 49), getD_take_of_lt x _ 49 (by decide : 14 < 49),
      getD_take_of_lt x _ 49 (by decide : 15 + 0 < 49),
      getD_take_of_lt x _ 49 (by decide : 15 + 1 < 49),
      getD_take_of_lt x _ 49 (by decide : 15 + 2 < 49),
      getD_take_of_lt x _ 49 (by decide : 15 + 3 < 49),
      getD_take_of_lt x _ 49 (by decide : 15 + 4 < 49)]
    rw [take_drop_take x _ size 49 (by omega)]
  refine ⟨?_, by omega, by omega, ?_⟩
  · rw [key input, key input', h]
  · simp only [ReadMemory_inspector, InputReport.reply_data, memmove, List.drop_drop]
    have hw : ¬ (WAITING = DONE) := by decide
    split_ifs <;> first | rfl | (exfalso; simp_all)

/-- Instance of C37: a reply to the read of 13 bytes at `0x6050` and the same
reply followed by two more bytes give the same result, the 13 bytes
`reply.data[5 .. 18)`. -/
theorem ReadMemory_inspector_within_reply_witness :
    (ReadMemory_inspector 0x6050 13 (List.replicate 13 0)).call (List.replicate 13 0)
        ([0x21] ++ List.replicate 13 0 ++ [0x10, 0x50, 0x60, 0, 0, 13] ++ List.range 29)
      = (ReadMemory_inspector 0x6050 13 (List.replicate 13 0)).call (List.replicate 13 0)
        ([0x21] ++ List.replicate 13 0 ++ [0x10, 0x50, 0x60, 0, 0, 13] ++ List.range 29
          ++ [0xAA, 0xBB])
    ∧ ((ReadMemory_inspector 0x6050 13 (List.replicate 13 0)).call (List.replicate 13 0)
        ([0x21] ++ List.replicate 13 0 ++ [0x10, 0x50, 0x60, 0, 0, 13] ++ List.range 29)).2
      = List.range 13 :=
  ⟨(ReadMemory_inspector_within_reply 0x6050 13 (List.replicate 13 0) (List.replicate 13 0)
      ([0x21] ++ List.replicate 13 0 ++ [0x10, 0x50, 0x60, 0, 0, 13] ++ List.range 29)
      ([0x21] ++ List.replicate 13 0 ++ [0x10, 0x50, 0x60, 0, 0, 13] ++ List.range 29
        ++ [0xAA, 0xBB]) (by decide) (by decide)).1,
   (ReadMemory_inspector_within_reply 0x6050 13 (List.replicate 13 0) (List.replicate 13 0)
      ([0x21] ++ List.replicate 13 0 ++ [0x10, 0x50, 0x60, 0, 0, 13] ++ List.range 29)
      ([0x21] ++ List.replicate 13 0 ++ [0x10, 0x50, 0x60, 0, 0, 13] ++ List.range 29
        ++ [0xAA, 0xBB]) (by decide) (by decide)).2.2.2.trans (by decide)⟩

/-! ## Home light patterns: which bits of a triple are packed -/

theorem testBit_of_low_nibble (a b : Nat) (h : a &&& 0xF = b &&& 0xF) (j : Nat) (hj : j < 4) :
    a.testBit j = b.testBit j := by
  have := congrArg (fun n => Nat.testBit n j) h
  simp only [Nat.testBit_and, show (0xF : Nat) = 2 ^ 4 - 1 from rfl,
    Nat.testBit_two_pow_sub_one, hj, decide_True, Bool.and_true] at this
  exact this

theorem or_shl4_mod_congr (x a b : Nat) (h : a &&& 0xF = b &&& 0xF) :
    (x ||| (a <<< 4)) % 256 = (x ||| (b <<< 4)) % 256 := by
  apply Nat.eq_of_testBit_eq
  intro i
  simp only [show (256 : Nat) = 2 ^ 8 from rfl, Nat.testBit_mod_two_pow, Nat.testBit_or,
    Nat.testBit_shiftLeft]
  by_cases hi : i < 8
  · by_cases h4 : 4 ≤ i
    · rw [testBit_of_low_nibble a b h (i - 4) (by omega)]
    · simp [h4]
  · simp [hi]

theorem or_mod_congr (x a b : Nat) (h : a % 256 = b % 256) :
    (x ||| a) % 256 = (x ||| b) % 256 := by
  apply Nat.eq_of_testBit_eq
  intro i
  have := congrArg (fun n => Nat.testBit n i) h
  simp only [show (256 : Nat) = 2 ^ 8 from rfl, Nat.testBit_mod_two_pow] at this
  simp only [show (256 : Nat) = 2 ^ 8 from rfl, Nat.testBit_mod_two_pow, Nat.testBit_or]
  by_cases hi : i < 8
  · simp only [hi, decide_True, Bool.true_and] at this ⊢
    rw [this]
  · simp [hi]

theorem shl4_or_mod_congr (t u d e : Nat) (ht : t &&& 0xF = u &&& 0xF)
    (hd : d &&& 0x0F = e &&& 0x0F) :
    ((t <<< 4) ||| (d &&& 0x0F)) % 256 = ((u <<< 4) ||| (e &&& 0x0F)) % 256 := by
  rw [hd, Nat.lor_comm, or_shl4_mod_congr _ t u ht, Nat.lor_comm]

/-- C38 (the code differs): the macro masks `duration` and the conversion to
`uint8_t` drops the high bits of `transition << 4` and of `intensity << 4`,
but the intensity of a triple with an odd index is ORed into the byte without
shift and without mask: its bits 4 to 7 land in the high nibble, which is the
intensity of the triple before. Two lists of two triples that agree on the
low four bits of every field are packed differently; the packed bytes are
equal when in addition the intensities at odd indices agree on their low
eight bits. -/
theorem home_light_pattern_intensity_leak :
    home_light_pattern [⟨0, 0, 0⟩, ⟨0x10, 0, 0⟩] 2 = [0x10] ++ List.replicate 22 0
    ∧ home_light_pattern [⟨0, 0, 0⟩, ⟨0x00, 0, 0⟩] 2 = List.replicate 23 0
    ∧ (0x10 &&& 0xF = 0x00 &&& 0xF)
    ∧ (∀ (p q : List HomeLightPattern) (len : Nat),
        (∀ i, i < len →
          (p.getD i ⟨0, 0, 0⟩).intensity &&& 0xF = (q.getD i ⟨0, 0, 0⟩).intensity &&& 0xF
          ∧ (p.getD i ⟨0, 0, 0⟩).duration &&& 0xF = (q.getD i ⟨0, 0, 0⟩).duration &&& 0xF
          ∧ (p.getD i ⟨0, 0, 0⟩).transition &&& 0xF = (q.getD i ⟨0, 0, 0⟩).transition &&& 0xF
          ∧ (i % 2 = 1 →
              (p.getD i ⟨0, 0, 0⟩).intensity % 256 = (q.getD i ⟨0, 0, 0⟩).intensity % 256)) →
        home_light_pattern p len = home_light_pattern q len) := by
  refine ⟨by decide, by decide, by decide, ?_⟩
  intro p q len h
  unfold home_light_pattern
  apply List.foldl_ext
  intro a i hi
  obtain ⟨h1, h2, h3, h4⟩ := h i (List.mem_range.mp hi)
  have e2 := shl4_or_mod_congr _ _ _ _ h3 h2
  rcases Nat.mod_two_eq_zero_or_one i with r | r
  · have e1 := or_shl4_mod_congr (a.getD (3 * (i / 2)) 0) _ _ h1
    simp only [r, Nat.sub_zero, Nat.mul_one] at e1 e2 ⊢
    rw [e1, e2]
  · have e1 := or_mod_congr (a.getD (3 * (i / 2)) 0) _ _ (h4 r)
    simp only [r, Nat.sub_self, Nat.mul_zero, Nat.shiftLeft_zero] at e1 e2 ⊢
    rw [e1, e2]


/-! ## The integer stage of the rumble encoding is lossless -/

theorem CalcRumblef_eq_spec {F : Type} (ops : FloatOps F) (rumble : RumbleData)
    (freq_h freq_h_amp freq_l freq_l_amp : F)
    (hin : ops.lt freq_h (ops.lit 80 1) = false ∧ ops.lt (ops.lit 1252 1) freq_h = false
      ∧ ops.lt freq_h_amp (ops.lit 0 1) = false ∧ ops.lt (ops.lit 1 1) freq_h_amp = false
      ∧ ops.lt freq_l (ops.lit 40 1) = false ∧ ops.lt (ops.lit 626 1) freq_l = false
      ∧ ops.lt freq_l_amp (ops.lit 0 1) = false ∧ ops.lt (ops.lit 1 1) freq_l_amp = false)
    (hH : 0x60 ≤ CalcRumblef.freq_hex ops freq_h) (hL : 0x40 ≤ CalcRumblef.freq_hex ops freq_l)
    (hk : CalcRumblef.amp_k ops freq_h_amp < 128) :
    CalcRumblef ops rumble freq_h freq_h_amp freq_l freq_l_amp =
      (0, CalcRumblef.spec (CalcRumblef.freq_hex ops freq_h) (CalcRumblef.freq_hex ops freq_l)
            (CalcRumblef.amp_k ops freq_h_amp) (CalcRumblef.amp_k ops freq_l_amp)) := by
  obtain ⟨c1, c2, c3, c4, c5, c6, c7, c8⟩ := hin
  obtain ⟨e1, e2, e3, e4⟩ := rumble_bytes_eq (CalcRumblef.freq_hex ops freq_h)
    (CalcRumblef.freq_hex ops freq_l) (CalcRumblef.amp_k ops freq_h_amp)
    (CalcRumblef.amp_k ops freq_l_amp) hH (Nat.mod_lt _ (by decide)) hL
    (Nat.mod_lt _ (by decide)) hk (Nat.mod_lt _ (by decide))
  unfold CalcRumblef
  rw [if_neg (by simp [c1, c2, c3, c4]), if_neg (by simp [c5, c6, c7, c8])]
  have e := congr (congr (congr (congrArg RumbleData.mk e1) e2) e3) e4
  exact congrArg (Prod.mk (0 : Int)) e

set_option maxRecDepth 100000 in
theorem rumble_high_freq_fields :
    ∀ x, x < 128 → ((x <<< 2) &&& 0xFF = 4 * x % 256 ∧ ((x <<< 2) >>> 8) &&& 0xFF = x / 64) := by
  decide

set_option maxRecDepth 100000 in
theorem rumble_or_low_bit : ∀ k, k < 101 → ∀ b, b < 2 → (2 * k) ||| b = 2 * k + b := by
  decide

set_option maxRecDepth 100000 in
theorem rumble_low_amp_fields :
    ∀ k, k < 101 →
      (((((k >>> 1) ||| ((k &&& 1) <<< 15)) + 0x40) >>> 8) &&& 0xFF = 128 * (k % 2)
       ∧ (((k >>> 1) ||| ((k &&& 1) <<< 15)) + 0x40) &&& 0xFF = 0x40 + k / 2) := by
  decide

set_option maxRecDepth 100000 in
theorem rumble_or_high_bit : ∀ x, x < 128 → ∀ b, b < 2 → x ||| (128 * b) = x + 128 * b := by
  decide

/-- The four bytes of `CalcRumblef.spec` in sums: the fields that are ORed
together do not overlap. -/
theorem CalcRumblef_spec_fields (h l kh kl : Nat) (h1 : 0x60 ≤ h) (h2 : h ≤ 0xDF)
    (l1 : 0x40 ≤ l) (l2 : l ≤ 0xBF) (k1 : kh ≤ 100) (k2 : kl ≤ 100) :
    CalcRumblef.spec h l kh kl =
      { freq_h := 4 * (h - 0x60) % 256,
        freq_h_amp := 2 * kh + (h - 0x60) / 64,
        freq_l := (l - 0x40) + 128 * (kl % 2),
        freq_l_amp := 0x40 + kl / 2 } := by
  obtain ⟨a1, a2⟩ := rumble_high_freq_fields (h - 0x60) (by omega)
  obtain ⟨b1, b2⟩ := rumble_low_amp_fields kl (by omega)
  have c1 := rumble_or_low_bit kh (by omega) ((h - 0x60) / 64) (by omega)
  have c2 := rumble_or_high_bit (l - 0x40) (by omega) (kl % 2) (by omega)
  simp only [CalcRumblef.spec, a1, a2, b1, b2, c1, c2]

/-- C39: for codes `fH_hex` in `[0x60, 0xDF]`, `fL_hex` in `[0x40, 0xBF]` and
`kH`, `kL` in `[0, 100]` the fields that `CalcRumblef` ORs together do not
overlap: byte 0 is the low byte of `FH`, byte 1 is `2 * kH` plus bit 8 of
`FH`, byte 2 is `FL` plus `0x80` when `kL` is odd, byte 3 is
`0x40 + (kL >> 1)`; so two inputs that pass the range checks, have codes in
these ranges and give the same four bytes have the same four codes. -/
theorem CalcRumblef_lossless {F : Type} (ops : FloatOps F) (rumble rumble' : RumbleData)
    (a b : RumbleDataF F)
    (ha : ops.lt a.freq_h (ops.lit 80 1) = false ∧ ops.lt (ops.lit 1252 1) a.freq_h = false
      ∧ ops.lt a.freq_h_amp (ops.lit 0 1) = false ∧ ops.lt (ops.lit 1 1) a.freq_h_amp = false
      ∧ ops.lt a.freq_l (ops.lit 40 1) = false ∧ ops.lt (ops.lit 626 1) a.freq_l = false
      ∧ ops.lt a.freq_l_amp (ops.lit 0 1) = false ∧ ops.lt (ops.lit 1 1) a.freq_l_amp = false)
    (hb : ops.lt b.freq_h (ops.lit 80 1) = false ∧ ops.lt (ops.lit 1252 1) b.freq_h = false
      ∧ ops.lt b.freq_h_amp (ops.lit 0 1) = false ∧ ops.lt (ops.lit 1 1) b.freq_h_amp = false
      ∧ ops.lt b.freq_l (ops.lit 40 1) = false ∧ ops.lt (ops.lit 626 1) b.freq_l = false
      ∧ ops.lt b.freq_l_amp (ops.lit 0 1) = false ∧ ops.lt (ops.lit 1 1) b.freq_l_amp = false)
    (ra : 0x60 ≤ CalcRumblef.freq_hex ops a.freq_h ∧ CalcRumblef.freq_hex ops a.freq_h ≤ 0xDF
      ∧ 0x40 ≤ CalcRumblef.freq_hex ops a.freq_l ∧ CalcRumblef.freq_hex ops a.freq_l ≤ 0xBF
      ∧ CalcRumblef.amp_k ops a.freq_h_amp ≤ 100 ∧ CalcRumblef.amp_k ops a.freq_l_amp ≤ 100)
    (rb : 0x60 ≤ CalcRumblef.freq_hex ops b.freq_h ∧ CalcRumblef.freq_hex ops b.freq_h ≤ 0xDF
      ∧ 0x40 ≤ CalcRumblef.freq_hex ops b.freq_l ∧ CalcRumblef.freq_hex ops b.freq_l ≤ 0xBF
      ∧ CalcRumblef.amp_k ops b.freq_h_amp ≤ 100 ∧ CalcRumblef.amp_k ops b.freq_l_amp ≤ 100) :
    (CalcRumblef ops rumble a.freq_h a.freq_h_amp a.freq_l a.freq_l_amp).2 =
        { freq_h := 4 * (CalcRumblef.freq_hex ops a.freq_h - 0x60) % 256,
          freq_h_amp := 2 * CalcRumblef.amp_k ops a.freq_h_amp
            + (CalcRumblef.freq_hex ops a.freq_h - 0x60) / 64,
          freq_l := (CalcRumblef.freq_hex ops a.freq_l - 0x40)
            + 128 * (CalcRumblef.amp_k ops a.freq_l_amp % 2),
          freq_l_amp := 0x40 + CalcRumblef.amp_k ops a.freq_l_amp / 2 }
    ∧ ((CalcRumblef ops rumble a.freq_h a.freq_h_amp a.freq_l a.freq_l_amp).2
          = (CalcRumblef ops rumble' b.freq_h b.freq_h_amp b.freq_l b.freq_l_amp).2 →
        CalcRumblef.freq_hex ops a.freq_h = CalcRumblef.freq_hex ops b.freq_h
        ∧ CalcRumblef.amp_k ops a.freq_h_amp = CalcRumblef.amp_k ops b.freq_h_amp
        ∧ CalcRumblef.freq_hex ops a.freq_l = CalcRumblef.freq_hex ops b.freq_l
        ∧ CalcRumblef.amp_k ops a.freq_l_amp = CalcRumblef.amp_k ops b.freq_l_amp) := by
  obtain ⟨a1, a2, a3, a4, a5, a6⟩ := ra
  obtain ⟨b1, b2, b3, b4, b5, b6⟩ := rb
  have ea : (CalcRumblef ops rumble a.freq_h a.freq_h_amp a.freq_l a.freq_l_amp).2 = _ :=
    (congrArg Prod.snd (CalcRumblef_eq_spec ops rumble _ _ _ _ ha a1 a3 (by omega))).trans
      (CalcRumblef_spec_fields _ _ _ _ a1 a2 a3 a4 a5 a6)
  have eb : (CalcRumblef ops rumble' b.freq_h b.freq_h_amp b.freq_l b.freq_l_amp).2 = _ :=
    (congrArg Prod.snd (CalcRumblef_eq_spec ops rumble' _ _ _ _ hb b1 b3 (by omega))).trans
      (CalcRumblef_spec_fields _ _ _ _ b1 b2 b3 b4 b5 b6)
  refine ⟨ea, ?_⟩
  intro h
  rw [ea, eb] at h
  simp only [RumbleData.mk.injEq] at h
  obtain ⟨e1, e2, e3, e4⟩ := h
  refine ⟨?_, ?_, ?_, ?_⟩ <;> omega

/-- Instance of C39: the test vector (320 Hz, 0.5, 160 Hz, 0.5) in fixed
point has codes in the ranges, and its bytes `00 89 40 62` are
`4 * 0x40 % 256`, `2 * 68 + 1`, `0x40 + 0`, `0x40 + 34`. -/
theorem CalcRumblef_lossless_witness :
    (CalcRumblef FloatOps.fixed ⟨0, 0, 0, 0⟩ (FloatOps.fixed.lit 320 1) (FloatOps.fixed.lit 5 10)
        (FloatOps.fixed.lit 160 1) (FloatOps.fixed.lit 5 10)).2 = ⟨0x00, 0x89, 0x40, 0x62⟩
    ∧ CalcRumblef.freq_hex FloatOps.fixed (FloatOps.fixed.lit 320 1)
        = CalcRumblef.freq_hex FloatOps.fixed (FloatOps.fixed.lit 320 1) :=
  ⟨((CalcRumblef_lossless FloatOps.fixed ⟨0, 0, 0, 0⟩ ⟨0, 0, 0, 0⟩
      ⟨FloatOps.fixed.lit 320 1, FloatOps.fixed.lit 5 10, FloatOps.fixed.lit 160 1,
       FloatOps.fixed.lit 5 10⟩
      ⟨FloatOps.fixed.lit 320 1, FloatOps.fixed.lit 5 10, FloatOps.fixed.lit 160 1,
       FloatOps.fixed.lit 5 10⟩
      (by decide) (by decide) (by decide) (by decide)).1).trans (by decide),
   ((CalcRumblef_lossless FloatOps.fixed ⟨0, 0, 0, 0⟩ ⟨0, 0, 0, 0⟩
      ⟨FloatOps.fixed.lit 320 1, FloatOps.fixed.lit 5 10, FloatOps.fixed.lit 160 1,
       FloatOps.fixed.lit 5 10⟩
      ⟨FloatOps.fixed.lit 320 1, FloatOps.fixed.lit 5 10, FloatOps.fixed.lit 160 1,
       FloatOps.fixed.lit 5 10⟩
      (by decide) (by decide) (by decide) (by decide)).2 rfl).1⟩


/-! ## Checksums of the reports -/

theorem window_of_set (o : List Nat) (k v a n : Nat) (hk : k < a ∨ a + n ≤ k) :
    ((o.set k v).drop a).take n = (o.drop a).take n := by
  apply List.ext_getElem?
  intro i
  simp only [List.getElem?_take, List.getElem?_drop, List.getElem?_set]
  by_cases hi : i < n
  · rw [if_pos hi, if_pos hi, if_neg (by omega)]
  · rw [if_neg hi, if_neg hi]

theorem getD_set_self (o : List Nat) (k v : Nat) (h : k < o.length) :
    (o.set k v).getD k 0 = v := by
  rw [List.getD_eq_getElem?_getD, List.getElem?_set_self h]
  rfl

theorem getD_set_ne (o : List Nat) (k j v : Nat) (h : k ≠ j) :
    (o.set k v).getD j 0 = o.getD j 0 := by
  simp only [List.getD_eq_getElem?_getD, List.getElem?_set, if_neg h]

/-- What `calc_crc8_21` establishes, also after the timer byte is written. -/
theorem calc_crc8_21_window (crc8 : List Nat → Nat) (o : List Nat) (t : Nat)
    (h : 49 ≤ o.length) :
    (calc_crc8_21 crc8 o).getD 48 0 = crc8 (((calc_crc8_21 crc8 o).drop 12).take 36)
    ∧ ((calc_crc8_21 crc8 o).set 1 t).getD 48 0
        = crc8 ((((calc_crc8_21 crc8 o).set 1 t).drop 12).take 36) := by
  have e1 : ((calc_crc8_21 crc8 o).drop 12).take 36 = (o.drop 12).take 36 :=
    window_of_set o 48 _ 12 36 (Or.inr (by decide))
  have e2 : (calc_crc8_21 crc8 o).getD 48 0 = crc8 ((o.drop 12).take 36) :=
    getD_set_self o 48 _ (by omega)
  refine ⟨by rw [e1, e2], ?_⟩
  rw [getD_set_ne _ 1 48 t (by decide), window_of_set _ 1 t 12 36 (Or.inl (by decide)), e1, e2]

/-- What `calc_crc8_03` establishes, also after the timer byte is written. -/
theorem calc_crc8_03_window (crc8 : List Nat → Nat) (o : List Nat) (t : Nat)
    (h : 48 ≤ o.length) :
    (calc_crc8_03 crc8 o).getD 47 0 = crc8 (((calc_crc8_03 crc8 o).drop 11).take 36)
    ∧ ((calc_crc8_03 crc8 o).set 1 t).getD 47 0
        = crc8 ((((calc_crc8_03 crc8 o).set 1 t).drop 11).take 36) := by
  have e1 : ((calc_crc8_03 crc8 o).drop 11).take 36 = (o.drop 11).take 36 :=
    window_of_set o 47 _ 11 36 (Or.inr (by decide))
  have e2 : (calc_crc8_03 crc8 o).getD 47 0 = crc8 ((o.drop 11).take 36) :=
    getD_set_self o 47 _ (by omega)
  refine ⟨by rw [e1, e2], ?_⟩
  rw [getD_set_ne _ 1 47 t (by decide), window_of_set _ 1 t 11 36 (Or.inl (by decide)), e1, e2]

theorem bzero_length_ge (buf : List Nat) (n : Nat) : n ≤ (bzero buf n).length := by
  simp only [bzero, List.length_append, List.length_replicate]
  omega

theorem store_length_ge (buf bytes : List Nat) (off n : Nat) (h : off + bytes.length ≤ n)
    (hn : n ≤ buf.length) : n ≤ (store buf off bytes).length := by
  rw [store_length _ _ _ (by omega)]
  exact hn

theorem calc_crc8_21_length (crc8 : List Nat → Nat) (o : List Nat) :
    (calc_crc8_21 crc8 o).length = o.length := by
  simp only [calc_crc8_21, List.length_set]

theorem calc_crc8_03_length (crc8 : List Nat → Nat) (o : List Nat) :
    (calc_crc8_03 crc8 o).length = o.length := by
  simp only [calc_crc8_03, List.length_set]

/-- The report `output_` after the statements that `Poll`, `CheckMcuIrMode`,
`GetIrImage`, `SetMcuMode`, `SetMcuIrConfig` and `SetMcuIrRegisters` start
with holds at least the 49 bytes of a report, byte 10 being the sub-command. -/
theorem header_length (output_ : List Nat) (id cmd b : Nat) :
    49 ≤ (store ((bzero output_ OUTPUT_REPORT_SIZE).set 0 id) 10
            ([cmd, b] ++ List.replicate 37 0)).length
    ∧ (store ((bzero output_ OUTPUT_REPORT_SIZE).set 0 id) 10
            ([cmd, b] ++ List.replicate 37 0)).getD 10 0 = cmd := by
  have h0 : 49 ≤ ((bzero output_ OUTPUT_REPORT_SIZE).set 0 id).length := by
    rw [List.length_set]
    exact bzero_length_ge output_ 49
  have hl : ([cmd, b] ++ List.replicate 37 0).length = 39 := by simp
  refine ⟨store_length_ge _ _ 10 49 (by rw [hl]) h0, ?_⟩
  rw [List.getD_eq_getElem?_getD, store_getElem? _ _ _ _ (by rw [hl]; omega), hl,
    if_pos (by omega)]
  rfl

/-! ## `SetMcuIrRegisters` -/

theorem SetMcuIrRegisters_loop_of_ge {ω : Type} (crc8 : List Nat → Nat)
    (transmit : List Nat → ω → Int × List Nat × ω) (regs : List McuReg) (size count : Nat)
    (output_ : List Nat) (ret : Int) (w : ω) (h : ¬ count < size) :
    SetMcuIrRegisters.loop crc8 transmit regs size count output_ ret w =
      { ret := ret, reports := [], output_ := output_, world := w } := by
  rw [SetMcuIrRegisters.loop, if_neg h]

theorem SetMcuIrRegisters_loop_of_lt {ω : Type} (crc8 : List Nat → Nat)
    (transmit : List Nat → ω → Int × List Nat × ω) (regs : List McuReg) (size count : Nat)
    (output_ : List Nat) (ret : Int) (w : ω) (h : count < size) :
    SetMcuIrRegisters.loop crc8 transmit regs size count output_ ret w =
      if (transmit (SetMcuIrRegisters.body crc8 regs count (min 9 (size - count)) output_)
            w).1 ≠ DONE then
        { ret := (transmit (SetMcuIrRegisters.body crc8 regs count (min 9 (size - count))
                    output_) w).1,
          reports := [SetMcuIrRegisters.body crc8 regs count (min 9 (size - count)) output_],
          output_ := (transmit (SetMcuIrRegisters.body crc8 regs count (min 9 (size - count))
                    output_) w).2.1,
          world := (transmit (SetMcuIrRegisters.body crc8 regs count (min 9 (size - count))
                    output_) w).2.2 }
      else
        { SetMcuIrRegisters.loop crc8 transmit regs size (count + min 9 (size - count))
            (transmit (SetMcuIrRegisters.body crc8 regs count (min 9 (size - count)) output_)
              w).2.1
            (transmit (SetMcuIrRegisters.body crc8 regs count (min 9 (size - count)) output_)
              w).1
            (transmit (SetMcuIrRegisters.body crc8 regs count (min 9 (size - count)) output_)
              w).2.2 with
          reports := SetMcuIrRegisters.body crc8 regs count (min 9 (size - count)) output_ ::
            (SetMcuIrRegisters.loop crc8 transmit regs size (count + min 9 (size - count))
              (transmit (SetMcuIrRegisters.body crc8 regs count (min 9 (size - count)) output_)
                w).2.1
              (transmit (SetMcuIrRegisters.body crc8 regs count (min 9 (size - count)) output_)
                w).1
              (transmit (SetMcuIrRegisters.body crc8 regs count (min 9 (size - count)) output_)
                w).2.2).reports } := by
  have e : min 9 (size - count) % 256 = min 9 (size - count) := by omega
  rw [SetMcuIrRegisters.loop, if_pos h]
  simp only [e]

theorem flatMap_bytes_length (chunk : List McuReg) :
    (chunk.flatMap McuReg.bytes).length = 3 * chunk.length := by
  induction chunk with
  | nil => rfl
  | cons a l ih =>
    simp only [List.flatMap_cons, List.length_append, ih, McuReg.bytes, List.length_cons,
      List.length_nil]
    omega

theorem store_store_same (b X Z : List Nat) (off : Nat) (h1 : X.length ≤ Z.length)
    (h2 : off + Z.length ≤ b.length) :
    store (store b off Z) off X = store b off (X ++ Z.drop X.length) := by
  have hl : (X ++ Z.drop X.length).length = Z.length := by
    rw [List.length_append, List.length_drop]
    omega
  apply List.ext_getElem?
  intro k
  rw [store_getElem? _ _ _ _ (by rw [store_length _ _ _ h2]; omega),
    store_getElem? _ _ _ _ h2, store_getElem? _ _ _ _ (by rw [hl]; exact h2)]
  simp only [hl]
  by_cases c1 : off ≤ k ∧ k < off + X.length
  · rw [if_pos c1, if_pos (by omega), List.getElem?_append_left (by omega)]
  · rw [if_neg c1]
    by_cases c2 : off ≤ k ∧ k < off + Z.length
    · rw [if_pos c2, if_pos c2, List.getElem?_append_right (by omega), List.getElem?_drop]
      congr 1
      omega
    · rw [if_neg c2, if_neg c2]

theorem take_min_length (l : List McuReg) (n : Nat) : l.take (min n l.length) = l.take n := by
  rcases Nat.le_total n l.length with h | h
  · rw [Nat.min_eq_left h]
  · rw [Nat.min_eq_right h, List.take_of_length_le h, List.take_of_length_le (Nat.le_refl _)]

/-- The loop body builds the report of the chunk that starts at `count`. -/
theorem body_eq_chunk_report (crc8 : List Nat → Nat) (regs : List McuReg) (count : Nat)
    (output_ : List Nat) (h : 49 ≤ output_.length) :
    SetMcuIrRegisters.body crc8 regs count (min 9 (regs.length - count)) output_ =
      SetMcuIrRegisters.chunk_report crc8 output_ ((regs.drop count).take 9) := by
  have hc : ((regs.drop count).take 9).length = min 9 (regs.length - count) := by
    rw [List.length_take, List.length_drop]
  have ht : (regs.drop count).take (min 9 (regs.length - count)) = (regs.drop count).take 9 := by
    rw [← List.length_drop, take_min_length]
  have hz : (List.replicate (3 * 9) 0).drop
      (((regs.drop count).take 9).flatMap McuReg.bytes).length
      = List.replicate (27 - 3 * ((regs.drop count).take 9).length) 0 := by
    rw [List.drop_replicate, flatMap_bytes_length]
  simp only [SetMcuIrRegisters.body, SetMcuIrRegisters.chunk_report, ht, hc]
  rw [store_store_same _ _ _ _ (by rw [flatMap_bytes_length, hc, List.length_replicate]; omega)
    (by rw [List.length_set, List.length_replicate]; omega), hz, hc]

theorem chunks_length (regs : List McuReg) :
    (SetMcuIrRegisters.chunks regs).length = (regs.length + 8) / 9 := by
  simp [SetMcuIrRegisters.chunks]

theorem chunks_getElem? (regs : List McuReg) (j : Nat) (hj : j < (regs.length + 8) / 9) :
    (SetMcuIrRegisters.chunks regs)[j]? = some ((regs.drop (9 * j)).take 9) := by
  simp [SetMcuIrRegisters.chunks, List.getElem?_map, List.getElem?_range hj]

theorem chunks_drop (regs : List McuReg) (j : Nat) (hj : j < (regs.length + 8) / 9) :
    (SetMcuIrRegisters.chunks regs).drop j =
      (regs.drop (9 * j)).take 9 :: (SetMcuIrRegisters.chunks regs).drop (j + 1) := by
  have hl : j < (SetMcuIrRegisters.chunks regs).length := by rw [chunks_length]; exact hj
  rw [List.drop_eq_getElem_cons hl]
  congr 1
  have := chunks_getElem? regs j hj
  rw [List.getElem?_eq_getElem hl] at this
  exact Option.some.inj this

theorem chunks_flatten (regs : List McuReg) : (SetMcuIrRegisters.chunks regs).flatten = regs := by
  have key : ∀ k, ((List.range k).map fun j => (regs.drop (9 * j)).take 9).flatten
      = regs.take (9 * k) := by
    intro k
    induction k with
    | zero => simp
    | succ k ih =>
      rw [List.range_succ, List.map_append, List.flatten_append, ih]
      simp only [List.map_cons, List.map_nil, List.flatten_cons, List.flatten_nil,
        List.append_nil]
      rw [show 9 * (k + 1) = 9 * k + 9 by omega, List.take_add]
  rw [SetMcuIrRegisters.chunks, key, List.take_of_length_le (by omega)]

/-- The loop of `SetMcuIrRegisters` does what the specification says, chunk by
chunk, when `size` is the length of the register list and `output_` keeps the
size of a report. -/
theorem SetMcuIrRegisters_loop_eq_spec {ω : Type} (crc8 : List Nat → Nat)
    (transmit : List Nat → ω → Int × List Nat × ω) (regs : List McuReg)
    (htr : ∀ o w, 49 ≤ o.length → 49 ≤ (transmit o w).2.1.length) :
    ∀ (d count : Nat) (output_ : List Nat) (ret : Int) (w : ω),
      regs.length - count ≤ d → (count % 9 = 0 ∨ regs.length ≤ count) → 49 ≤ output_.length →
      SetMcuIrRegisters.loop crc8 transmit regs regs.length count output_ ret w =
        SetMcuIrRegisters.spec crc8 transmit
          ((SetMcuIrRegisters.chunks regs).drop ((count + 8) / 9)) output_ ret w := by
  intro d
  induction d with
  | zero =>
    intro count output_ ret w hd _ _
    rw [SetMcuIrRegisters_loop_of_ge _ _ _ _ _ _ _ _ (by omega),
      List.drop_eq_nil_of_le (by rw [chunks_length]; omega)]
    rfl
  | succ d ih =>
    intro count output_ ret w hd hc ho
    by_cases hlt : count < regs.length
    · have h9 : count % 9 = 0 := by
        rcases hc with h | h
        · exact h
        · omega
      have hj : (count + 8) / 9 < (regs.length + 8) / 9 := by omega
      have e9 : 9 * ((count + 8) / 9) = count := by omega
      have en : (count + min 9 (regs.length - count) + 8) / 9 = (count + 8) / 9 + 1 := by
        omega
      rw [SetMcuIrRegisters_loop_of_lt _ _ _ _ _ _ _ _ hlt, chunks_drop regs _ hj, e9,
        body_eq_chunk_report crc8 regs count output_ ho]
      have ho1 : 49 ≤ (SetMcuIrRegisters.chunk_report crc8 output_
          ((regs.drop count).take 9)).length := by
        rw [SetMcuIrRegisters.chunk_report, calc_crc8_21_length,
          store_length _ _ _ (by
            rw [List.length_append, flatMap_bytes_length, List.length_replicate,
              List.length_set, List.length_take, List.length_drop]
            omega), List.length_set]
        exact ho
      rw [ih (count + min 9 (regs.length - count)) _ _ _ (by omega) (by omega)
        (htr _ _ ho1), en]
      rfl
    · rw [SetMcuIrRegisters_loop_of_ge _ _ _ _ _ _ _ _ hlt,
        List.drop_eq_nil_of_le (by rw [chunks_length]; omega)]
      rfl

theorem spec_of_done {ω : Type} (crc8 : List Nat → Nat)
    (transmit : List Nat → ω → Int × List Nat × ω) (hd : ∀ o w, (transmit o w).1 = DONE) :
    ∀ (chunks : List (List McuReg)) (output_ : List Nat) (ret : Int) (w : ω),
      (SetMcuIrRegisters.spec crc8 transmit chunks output_ ret w).reports.length = chunks.length
      ∧ (SetMcuIrRegisters.spec crc8 transmit chunks output_ ret w).ret =
          (if chunks = [] then ret else DONE) := by
  intro chunks
  induction chunks with
  | nil => intro output_ ret w; exact ⟨rfl, rfl⟩
  | cons chunk rest ih =>
    intro output_ ret w
    obtain ⟨i1, i2⟩ := ih (transmit (SetMcuIrRegisters.chunk_report crc8 output_ chunk) w).2.1
      (transmit (SetMcuIrRegisters.chunk_report crc8 output_ chunk) w).1
      (transmit (SetMcuIrRegisters.chunk_report crc8 output_ chunk) w).2.2
    simp only [SetMcuIrRegisters.spec, hd, ne_eq, not_true_eq_false, if_false,
      List.length_cons, reduceCtorEq] at i1 i2 ⊢
    refine ⟨by rw [i1], ?_⟩
    rw [i2]
    split_ifs <;> rfl

theorem chunk_report_length (crc8 : List Nat → Nat) (o : List Nat) (chunk : List McuReg)
    (ho : 49 ≤ o.length) (hc : chunk.length ≤ 9) :
    (SetMcuIrRegisters.chunk_report crc8 o chunk).length = o.length := by
  rw [SetMcuIrRegisters.chunk_report, calc_crc8_21_length,
    store_length _ _ _ (by
      rw [List.length_append, flatMap_bytes_length, List.length_replicate, List.length_set]
      omega), List.length_set]

theorem spec_reports {ω : Type} (crc8 : List Nat → Nat)
    (transmit : List Nat → ω → Int × List Nat × ω)
    (htr : ∀ o w, 49 ≤ o.length → 49 ≤ (transmit o w).2.1.length) :
    ∀ (chunks : List (List McuReg)) (output_ : List Nat) (ret : Int) (w : ω) (j : Nat)
      (report : List Nat), (∀ c ∈ chunks, c.length ≤ 9) → 49 ≤ output_.length →
      (SetMcuIrRegisters.spec crc8 transmit chunks output_ ret w).reports[j]? = some report →
      ∃ chunk o, chunks[j]? = some chunk ∧ 49 ≤ o.length
        ∧ report = SetMcuIrRegisters.chunk_report crc8 o chunk := by
  intro chunks
  induction chunks with
  | nil =>
    intro output_ ret w j report _ _ h
    simp [SetMcuIrRegisters.spec] at h
  | cons chunk rest ih =>
    intro output_ ret w j report hc ho h
    have hc1 := hc chunk (List.mem_cons_self _ _)
    have ho1 : 49 ≤ (SetMcuIrRegisters.chunk_report crc8 output_ chunk).length := by
      rw [chunk_report_length crc8 output_ chunk ho hc1]
      exact ho
    simp only [SetMcuIrRegisters.spec] at h
    cases j with
    | zero =>
      refine ⟨chunk, output_, by simp, ho, ?_⟩
      split_ifs at h <;> simp at h <;> exact h.symm
    | succ j =>
      split_ifs at h with c
      · simp at h
      · simp only [List.getElem?_cons_succ] at h
        obtain ⟨ch, o, e1, e2, e3⟩ := ih _ _ _ j report
          (fun c hc2 => hc c (List.mem_cons_of_mem _ hc2)) (htr _ _ ho1) h
        exact ⟨ch, o, by simpa using e1, e2, e3⟩

theorem store_window (b X : List Nat) (off : Nat) (h : off + X.length ≤ b.length) :
    ((store b off X).drop off).take X.length = X := by
  apply List.ext_getElem?
  intro k
  simp only [List.getElem?_take, List.getElem?_drop]
  by_cases hk : k < X.length
  · rw [if_pos hk, store_getElem? _ _ _ _ h, if_pos (by omega)]
    congr 1
    omega
  · rw [if_neg hk]
    exact (List.getElem?_eq_none (by omega)).symm

/-- What the report of a chunk holds. -/
theorem chunk_report_fields (crc8 : List Nat → Nat) (o : List Nat) (chunk : List McuReg)
    (ho : 49 ≤ o.length) (hc : chunk.length ≤ 9) :
    (SetMcuIrRegisters.chunk_report crc8 o chunk).getD 13 0 = chunk.length
    ∧ ((SetMcuIrRegisters.chunk_report crc8 o chunk).drop 14).take 27 =
        chunk.flatMap McuReg.bytes ++ List.replicate (27 - 3 * chunk.length) 0 := by
  have hl : (chunk.flatMap McuReg.bytes ++ List.replicate (27 - 3 * chunk.length) 0).length
      = 27 := by
    rw [List.length_append, flatMap_bytes_length, List.length_replicate]
    omega
  have hs : 14 + (chunk.flatMap McuReg.bytes
      ++ List.replicate (27 - 3 * chunk.length) 0).length ≤ (o.set 13 chunk.length).length := by
    rw [hl, List.length_set]
    omega
  constructor
  · rw [SetMcuIrRegisters.chunk_report, calc_crc8_21, getD_set_ne _ 48 13 _ (by decide),
      List.getD_eq_getElem?_getD, store_getElem? _ _ _ _ hs, if_neg (by omega),
      List.getElem?_set_self (by omega)]
    rfl
  · rw [SetMcuIrRegisters.chunk_report, calc_crc8_21,
      window_of_set _ 48 _ 14 27 (Or.inr (by decide))]
    have := store_window (o.set 13 chunk.length) _ 14 hs
    rw [hl] at this
    exact this

theorem spec_of_script (crc8 : List Nat → Nat) (e : Int) (he : e ≠ DONE) (rest : List Int) :
    ∀ (j : Nat) (chunks : List (List McuReg)) (output_ : List Nat) (ret : Int),
      j < chunks.length →
      (SetMcuIrRegisters.spec crc8 (fun o (s : List Int) => (s.headD DONE, o, s.tail)) chunks
          output_ ret (List.replicate j DONE ++ e :: rest)).ret = e
      ∧ (SetMcuIrRegisters.spec crc8 (fun o (s : List Int) => (s.headD DONE, o, s.tail)) chunks
          output_ ret (List.replicate j DONE ++ e :: rest)).reports.length = j + 1
      ∧ (SetMcuIrRegisters.spec crc8 (fun o (s : List Int) => (s.headD DONE, o, s.tail)) chunks
          output_ ret (List.replicate j DONE ++ e :: rest)).world = rest := by
  intro j
  induction j with
  | zero =>
    intro chunks output_ ret hj
    cases chunks with
    | nil => simp at hj
    | cons chunk tl =>
      simp [SetMcuIrRegisters.spec, he]
  | succ j ih =>
    intro chunks output_ ret hj
    cases chunks with
    | nil => simp at hj
    | cons chunk tl =>
      obtain ⟨i1, i2, i3⟩ := ih tl (SetMcuIrRegisters.chunk_report crc8 output_ chunk) DONE
        (by simpa using hj)
      simp only [SetMcuIrRegisters.spec, List.replicate_succ, List.cons_append, List.headD_cons,
        ne_eq, not_true_eq_false, if_false, List.tail_cons, List.length_cons]
      exact ⟨i1, by rw [i2], i3⟩

theorem store_getD_lt (b X : List Nat) (off k : Nat) (h : off + X.length ≤ b.length)
    (hk : k < off) : (store b off X).getD k 0 = b.getD k 0 := by
  rw [List.getD_eq_getElem?_getD, store_getElem? _ _ _ _ h, if_neg (by omega),
    List.getD_eq_getElem?_getD]

theorem SetMcuIrRegisters_output_length (output_ : List Nat) :
    49 ≤ (SetMcuIrRegisters_output output_).length := by
  simp only [SetMcuIrRegisters_output, List.length_set]
  exact (header_length output_ OUTPUT_REPORT_CMD SUBCMD_21 0).1

theorem chunks_le (regs : List McuReg) : ∀ c ∈ SetMcuIrRegisters.chunks regs, c.length ≤ 9 := by
  intro c hc
  simp only [SetMcuIrRegisters.chunks, List.mem_map] at hc
  obtain ⟨j, _, e⟩ := hc
  rw [← e]
  exact List.length_take_le _ _

/-- The method is the run over the chunks of the register list. -/
theorem SetMcuIrRegisters_eq_spec {ω : Type} (crc8 : List Nat → Nat)
    (transmit : List Nat → ω → Int × List Nat × ω) (c : ControllerImpl) (regs : List McuReg)
    (w : ω) (htr : ∀ o w, 49 ≤ o.length → 49 ≤ (transmit o w).2.1.length) :
    c.SetMcuIrRegisters crc8 transmit regs regs.length w =
      SetMcuIrRegisters.spec crc8 transmit (SetMcuIrRegisters.chunks regs)
        (SetMcuIrRegisters_output c.output_) 0 w := by
  have := SetMcuIrRegisters_loop_eq_spec crc8 transmit regs htr regs.length 0
    (SetMcuIrRegisters_output c.output_) 0 w (by omega) (Or.inl rfl)
    (SetMcuIrRegisters_output_length c.output_)
  rw [ControllerImpl.SetMcuIrRegisters, this]
  rfl

/-- Every report of a run of `SetMcuIrRegisters` is the report of its chunk,
built in a buffer of at least 49 bytes. -/
theorem SetMcuIrRegisters_reports {ω : Type} (crc8 : List Nat → Nat)
    (transmit : List Nat → ω → Int × List Nat × ω) (c : ControllerImpl) (regs : List McuReg)
    (w : ω) (htr : ∀ o w, 49 ≤ o.length → 49 ≤ (transmit o w).2.1.length) (j : Nat)
    (report : List Nat)
    (h : (c.SetMcuIrRegisters crc8 transmit regs regs.length w).reports[j]? = some report) :
    j < (regs.length + 8) / 9 ∧ ∃ o, 49 ≤ o.length
      ∧ report = SetMcuIrRegisters.chunk_report crc8 o ((regs.drop (9 * j)).take 9) := by
  rw [SetMcuIrRegisters_eq_spec crc8 transmit c regs w htr] at h
  obtain ⟨chunk, o, e1, e2, e3⟩ := spec_reports crc8 transmit htr _ _ _ _ j report
    (chunks_le regs) (SetMcuIrRegisters_output_length c.output_) h
  have hj : j < (regs.length + 8) / 9 := by
    have := (List.getElem?_eq_some_iff.mp e1).1
    rw [chunks_length] at this
    exact this
  rw [chunks_getElem? regs j hj] at e1
  refine ⟨hj, o, e2, ?_⟩
  rw [e3, Option.some.inj e1]

/-- The reports that one call of the inspector of `GetIrImage` transmits, when
`transmit0` records them: at most one, with the checksum renewed. -/
theorem inspector_transmits {κ : Type} (crc8 : List Nat → Nat) (send : List Nat → List Nat)
    (cb : Option (κ → Int × κ)) (m : Nat) (env : IrInspector κ (List (List Nat)))
    (input : List Nat) (ho : 48 ≤ env.output_.length) :
    ∃ sent, (GetIrImage_inspector crc8 (fun o w => (send o, w ++ [o])) cb m env input).2.world
        = env.world ++ sent
      ∧ sent.length ≤ 1
      ∧ ∀ r ∈ sent, ∃ o, 48 ≤ o.length ∧ r = calc_crc8_03 crc8 o := by
  have h14 : ∀ v, 48 ≤ (env.output_.set 14 v).length := by
    intro v; rw [List.length_set]; exact ho
  have h3 : ∀ a b d, 48 ≤ (((env.output_.set 12 a).set 13 b).set 14 d).length := by
    intro a b d; simp only [List.length_set]; exact ho
  have none_sent : ∃ sent : List (List Nat), env.world = env.world ++ sent ∧ sent.length ≤ 1
      ∧ ∀ r ∈ sent, ∃ o, 48 ≤ o.length ∧ r = calc_crc8_03 crc8 o :=
    ⟨[], (List.append_nil _).symm, by simp, by simp⟩
  have one_sent : ∀ o : List Nat, 48 ≤ o.length →
      ∃ sent : List (List Nat), env.world ++ [calc_crc8_03 crc8 o] = env.world ++ sent
        ∧ sent.length ≤ 1 ∧ ∀ r ∈ sent, ∃ o, 48 ≤ o.length ∧ r = calc_crc8_03 crc8 o := by
    intro o h
    refine ⟨[calc_crc8_03 crc8 o], rfl, by simp, ?_⟩
    intro r hr
    rw [List.mem_singleton] at hr
    exact ⟨o, h, hr⟩
  cases cb with
  | none =>
    simp only [GetIrImage_inspector]
    split_ifs <;> first | exact none_sent | exact one_sent _ (h14 _) | exact one_sent _ (h3 _ _ _) | exact one_sent _ ho
  | some f =>
    simp only [GetIrImage_inspector]
    split_ifs <;> first | exact none_sent | exact one_sent _ (h14 _) | exact one_sent _ (h3 _ _ _) | exact one_sent _ ho

/-- C40: `SetMcuIrRegisters` is a total function and its run is the run over
the chunks of the register list: there are `ceil(n / 9)` chunks, chunk `j`
holds the registers `9 j` to `9 j + min(9, n - 9 j) - 1` and the chunks
concatenated are the list; while every transmit yields `DONE` one report per
chunk is sent; report `j` has `mcu_reg_size = min(9, n - 9 j)` at byte 13 and
at bytes 14 to 40 the registers of chunk `j` in order, each as address high
byte, address low byte, value, then zeros; the run stops at the first result
that is not `DONE` and returns it; for the empty list nothing is sent and 0
is returned. -/
theorem ControllerImpl.SetMcuIrRegisters_chunks {ω : Type} (crc8 : List Nat → Nat)
    (transmit : List Nat → ω → Int × List Nat × ω) (c : ControllerImpl) (regs : List McuReg)
    (w : ω) (htr : ∀ o w, 49 ≤ o.length → 49 ≤ (transmit o w).2.1.length) :
    (SetMcuIrRegisters.chunks regs).length = (regs.length + 8) / 9
    ∧ (∀ j, j < (regs.length + 8) / 9 →
        (SetMcuIrRegisters.chunks regs)[j]? =
          some ((regs.drop (9 * j)).take (min 9 (regs.length - 9 * j))))
    ∧ (SetMcuIrRegisters.chunks regs).flatten = regs
    ∧ c.SetMcuIrRegisters crc8 transmit regs regs.length w =
        SetMcuIrRegisters.spec crc8 transmit (SetMcuIrRegisters.chunks regs)
          (SetMcuIrRegisters_output c.output_) 0 w
    ∧ ((∀ o w, (transmit o w).1 = DONE) →
        (c.SetMcuIrRegisters crc8 transmit regs regs.length w).reports.length
          = (regs.length + 8) / 9
        ∧ (c.SetMcuIrRegisters crc8 transmit regs regs.length w).ret
          = if regs = [] then 0 else DONE)
    ∧ (∀ j report,
        (c.SetMcuIrRegisters crc8 transmit regs regs.length w).reports[j]? = some report →
        j < (regs.length + 8) / 9
        ∧ report.getD 13 0 = min 9 (regs.length - 9 * j)
        ∧ (report.drop 14).take 27 =
            ((regs.drop (9 * j)).take (min 9 (regs.length - 9 * j))).flatMap McuReg.bytes
              ++ List.replicate (27 - 3 * min 9 (regs.length - 9 * j)) 0)
    ∧ (∀ (j : Nat) (e : Int) (rest : List Int), j < (regs.length + 8) / 9 → e ≠ DONE →
        (c.SetMcuIrRegisters crc8 (fun o (s : List Int) => (s.headD DONE, o, s.tail)) regs
            regs.length (List.replicate j DONE ++ e :: rest)).ret = e
        ∧ (c.SetMcuIrRegisters crc8 (fun o (s : List Int) => (s.headD DONE, o, s.tail)) regs
            regs.length (List.replicate j DONE ++ e :: rest)).reports.length = j + 1
        ∧ (c.SetMcuIrRegisters crc8 (fun o (s : List Int) => (s.headD DONE, o, s.tail)) regs
            regs.length (List.replicate j DONE ++ e :: rest)).world = rest)
    ∧ (regs = [] →
        (c.SetMcuIrRegisters crc8 transmit regs regs.length w).ret = 0
        ∧ (c.SetMcuIrRegisters crc8 transmit regs regs.length w).reports = []) := by
  have hlen : ∀ j, ((regs.drop (9 * j)).take 9).length = min 9 (regs.length - 9 * j) := by
    intro j
    rw [List.length_take, List.length_drop]
  have htake : ∀ j, (regs.drop (9 * j)).take (min 9 (regs.length - 9 * j))
      = (regs.drop (9 * j)).take 9 := by
    intro j
    have := take_min_length (regs.drop (9 * j)) 9
    rw [List.length_drop] at this
    exact this
  have hrun := SetMcuIrRegisters_eq_spec crc8 transmit c regs w htr
  refine ⟨chunks_length regs, ?_, chunks_flatten regs, hrun, ?_, ?_, ?_, ?_⟩
  · intro j hj
    rw [htake j]
    exact chunks_getElem? regs j hj
  · intro hd
    obtain ⟨s1, s2⟩ := spec_of_done crc8 transmit hd (SetMcuIrRegisters.chunks regs)
      (SetMcuIrRegisters_output c.output_) 0 w
    rw [hrun, s1, s2, chunks_length]
    refine ⟨rfl, ?_⟩
    have hiff : SetMcuIrRegisters.chunks regs = [] ↔ regs = [] := by
      rw [← List.length_eq_zero, chunks_length, ← List.length_eq_zero]
      omega
    by_cases hr : regs = []
    · rw [if_pos hr, if_pos (hiff.mpr hr)]
    · rw [if_neg hr, if_neg (fun h => hr (hiff.mp h))]
  · intro j report h
    obtain ⟨hj, o, ho, e⟩ := SetMcuIrRegisters_reports crc8 transmit c regs w htr j report h
    have hf := chunk_report_fields crc8 o ((regs.drop (9 * j)).take 9) ho
      (List.length_take_le _ _)
    rw [hlen j] at hf
    rw [htake j, e]
    exact ⟨hj, hf.1, hf.2⟩
  · intro j e rest hj he
    rw [SetMcuIrRegisters_eq_spec crc8 _ c regs _ (fun o _ h => h)]
    exact spec_of_script crc8 e he rest j _ _ 0 (by rw [chunks_length]; exact hj)
  · intro hr
    rw [hrun, hr]
    exact ⟨rfl, rfl⟩

/-- Witness of C40: ten registers, every transmit `DONE`: two reports and
`DONE` is returned. -/
theorem ControllerImpl.SetMcuIrRegisters_chunks_witness :
    ((⟨List.replicate 49 0, []⟩ : ControllerImpl).SetMcuIrRegisters crc8_bitwise
        (fun o (n : Nat) => (DONE, o, n + 1))
        ((List.range 10).map fun i => set_reg (0x0100 + i) i)
        ((List.range 10).map fun i => set_reg (0x0100 + i) i).length 0).reports.length = 2
    ∧ ((⟨List.replicate 49 0, []⟩ : ControllerImpl).SetMcuIrRegisters crc8_bitwise
        (fun o (n : Nat) => (DONE, o, n + 1))
        ((List.range 10).map fun i => set_reg (0x0100 + i) i)
        ((List.range 10).map fun i => set_reg (0x0100 + i) i).length 0).ret = DONE :=
  (ControllerImpl.SetMcuIrRegisters_chunks crc8_bitwise
      (fun o (n : Nat) => (DONE, o, n + 1)) ⟨List.replicate 49 0, []⟩
      ((List.range 10).map fun i => set_reg (0x0100 + i) i) 0 (fun _ _ h => h)).2.2.2.2.1
    (fun _ _ => rfl)

theorem SetMcuMode_output_checksum (crc8 : List Nat → Nat) (output_ : List Nat) (mode t : Nat) :
    (SetMcuMode_output crc8 output_ mode).getD 10 0 = SUBCMD_21
    ∧ (SetMcuMode_output crc8 output_ mode).getD 48 0
        = crc8 (((SetMcuMode_output crc8 output_ mode).drop 12).take 36)
    ∧ ((SetMcuMode_output crc8 output_ mode).set 1 t).getD 48 0
        = crc8 ((((SetMcuMode_output crc8 output_ mode).set 1 t).drop 12).take 36) := by
  have hh := header_length output_ OUTPUT_REPORT_CMD SUBCMD_21 0
  simp only [SetMcuMode_output]
  refine ⟨?_, calc_crc8_21_window crc8 _ t (by simp only [List.length_set]; exact hh.1)⟩
  rw [calc_crc8_21, getD_set_ne _ 48 10 _ (by decide), getD_set_ne _ 13 10 _ (by decide),
    getD_set_ne _ 12 10 _ (by decide), getD_set_ne _ 11 10 _ (by decide)]
  exact hh.2

theorem SetMcuIrConfig_output_checksum (crc8 : List Nat → Nat) (output_ : List Nat)
    (fixed : IrConfigFixed) (t : Nat) :
    (SetMcuIrConfig_output crc8 output_ fixed).getD 10 0 = SUBCMD_21
    ∧ (SetMcuIrConfig_output crc8 output_ fixed).getD 48 0
        = crc8 (((SetMcuIrConfig_output crc8 output_ fixed).drop 12).take 36)
    ∧ ((SetMcuIrConfig_output crc8 output_ fixed).set 1 t).getD 48 0
        = crc8 ((((SetMcuIrConfig_output crc8 output_ fixed).set 1 t).drop 12).take 36) := by
  have hh := header_length output_ OUTPUT_REPORT_CMD SUBCMD_21 0
  have h1 : 49 ≤ (((((store ((bzero output_ OUTPUT_REPORT_SIZE).set 0 OUTPUT_REPORT_CMD) 10
      ([SUBCMD_21, 0] ++ List.replicate 37 0)).set 11 MCU_CMD_WRITE).set 12
      MCU_SET_IR_MODE).set 13 (fixed.mode % 256)).set 14 (fixed.fragments % 256)).length := by
    simp only [List.length_set]; exact hh.1
  have h2 : 49 ≤ (store (((((store ((bzero output_ OUTPUT_REPORT_SIZE).set 0 OUTPUT_REPORT_CMD)
      10 ([SUBCMD_21, 0] ++ List.replicate 37 0)).set 11 MCU_CMD_WRITE).set 12
      MCU_SET_IR_MODE).set 13 (fixed.mode % 256)).set 14 (fixed.fragments % 256)) 15
      [fixed.major.1, fixed.major.2]).length :=
    store_length_ge _ _ 15 49 (by simp only [List.length_cons, List.length_nil]; omega) h1
  have h3 := store_length_ge _ [fixed.minor.1, fixed.minor.2] 17 49
    (by simp only [List.length_cons, List.length_nil]; omega) h2
  simp only [SetMcuIrConfig_output]
  refine ⟨?_, calc_crc8_21_window crc8 _ t h3⟩
  rw [calc_crc8_21, getD_set_ne _ 48 10 _ (by decide),
    store_getD_lt _ _ 17 10 (by simp only [List.length_cons, List.length_nil]; omega)
      (by decide),
    store_getD_lt _ _ 15 10 (by simp only [List.length_cons, List.length_nil]; omega)
      (by decide),
    getD_set_ne _ 14 10 _ (by decide), getD_set_ne _ 13 10 _ (by decide),
    getD_set_ne _ 12 10 _ (by decide), getD_set_ne _ 11 10 _ (by decide)]
  exact hh.2

theorem poll_header (output_ : List Nat) (id b : Nat) :
    49 ≤ (store ((bzero output_ OUTPUT_REPORT_SIZE).set 0 id) 10
            ([SUBCMD_03, b] ++ List.replicate 37 0)).length
    ∧ ∀ k, 12 ≤ k → k < 49 →
        (store ((bzero output_ OUTPUT_REPORT_SIZE).set 0 id) 10
            ([SUBCMD_03, b] ++ List.replicate 37 0)).getD k 0 = 0 := by
  have h0 : 49 ≤ ((bzero output_ OUTPUT_REPORT_SIZE).set 0 id).length := by
    rw [List.length_set]
    exact bzero_length_ge output_ 49
  have hl : ([SUBCMD_03, b] ++ List.replicate 37 0).length = 39 := by simp
  refine ⟨(header_length output_ id SUBCMD_03 b).1, ?_⟩
  intro k h1 h2
  rw [List.getD_eq_getElem?_getD, store_getElem? _ _ _ _ (by rw [hl]; omega), hl,
    if_pos (by omega)]
  obtain ⟨d, rfl⟩ : ∃ d, k = 12 + d := ⟨k - 12, by omega⟩
  have : 12 + d - 10 = d + 2 := by omega
  rw [this]
  simp only [List.cons_append, List.nil_append, List.getElem?_cons_succ,
    List.getElem?_replicate]
  split_ifs <;> rfl

/-- The report of `Poll`: the command report with sub-command 0x03 and the
poll type; byte 47 is left as `bzero` and `SUBCMD_03_INIT` set it. -/
theorem Poll_output_fields (output_ : List Nat) (type : Nat) :
    (Poll_output output_ type).getD 0 0 = OUTPUT_REPORT_CMD
    ∧ (Poll_output output_ type).getD 10 0 = SUBCMD_03
    ∧ (Poll_output output_ type).getD 11 0 = type % 256
    ∧ (Poll_output output_ type).getD 47 0 = 0 := by
  have hh := header_length output_ OUTPUT_REPORT_CMD SUBCMD_03 POLL_STANDARD
  have hp := poll_header output_ OUTPUT_REPORT_CMD POLL_STANDARD
  have h0 : 49 ≤ ((bzero output_ OUTPUT_REPORT_SIZE).set 0 OUTPUT_REPORT_CMD).length := by
    rw [List.length_set]
    exact bzero_length_ge output_ 49
  simp only [Poll_output]
  refine ⟨?_, ?_, ?_, ?_⟩
  · rw [getD_set_ne _ 11 0 _ (by decide),
      store_getD_lt _ _ 10 0 (by simp only [List.length_append, List.length_cons,
        List.length_nil, List.length_replicate]; omega) (by decide)]
    exact getD_set_self _ 0 _ (by
      have := bzero_length_ge output_ 49
      show 0 < (bzero output_ 49).length
      omega)
  · rw [getD_set_ne _ 11 10 _ (by decide)]
    exact hh.2
  · exact getD_set_self _ 11 _ (by omega)
  · rw [getD_set_ne _ 11 47 _ (by decide)]
    exact hp.2 47 (by decide) (by decide)

/-- The two requests with id `OUTPUT_REPORT_PHL` and sub-command 0x03 carry
the checksum of `calc_crc8_03`. -/
theorem phl_poll_checksum (crc8 : List Nat → Nat) (output_ : List Nat) (type t : Nat) :
    (calc_crc8_03 crc8
        (((store ((bzero output_ OUTPUT_REPORT_SIZE).set 0 OUTPUT_REPORT_PHL) 10
          ([SUBCMD_03, POLL_STANDARD] ++ List.replicate 37 0)).set 11 type).set 48 0xff)).getD
        10 0 = SUBCMD_03
    ∧ (calc_crc8_03 crc8
        (((store ((bzero output_ OUTPUT_REPORT_SIZE).set 0 OUTPUT_REPORT_PHL) 10
          ([SUBCMD_03, POLL_STANDARD] ++ List.replicate 37 0)).set 11 type).set 48 0xff)).getD
        47 0
      = crc8 (((calc_crc8_03 crc8
        (((store ((bzero output_ OUTPUT_REPORT_SIZE).set 0 OUTPUT_REPORT_PHL) 10
          ([SUBCMD_03, POLL_STANDARD] ++ List.replicate 37 0)).set 11 type).set 48
            0xff)).drop 11).take 36)
    ∧ ((calc_crc8_03 crc8
        (((store ((bzero output_ OUTPUT_REPORT_SIZE).set 0 OUTPUT_REPORT_PHL) 10
          ([SUBCMD_03, POLL_STANDARD] ++ List.replicate 37 0)).set 11 type).set 48
            0xff)).set 1 t).getD 47 0
      = crc8 ((((calc_crc8_03 crc8
        (((store ((bzero output_ OUTPUT_REPORT_SIZE).set 0 OUTPUT_REPORT_PHL) 10
          ([SUBCMD_03, POLL_STANDARD] ++ List.replicate 37 0)).set 11 type).set 48
            0xff)).set 1 t).drop 11).take 36) := by
  have hh := header_length output_ OUTPUT_REPORT_PHL SUBCMD_03 POLL_STANDARD
  refine ⟨?_, calc_crc8_03_window crc8 _ t (by
    simp only [List.length_set]
    have := hh.1
    omega)⟩
  rw [calc_crc8_03, getD_set_ne _ 47 10 _ (by decide), getD_set_ne _ 48 10 _ (by decide),
    getD_set_ne _ 11 10 _ (by decide)]
  exact hh.2

/-- C33: the reports with sub-command 0x21 that `SetMcuMode`,
`SetMcuIrConfig(fixed)` and every pass of the loop of `SetMcuIrRegisters`
hand to `Transmit` hold at byte 48 the value of `crc8` on their own bytes 12
to 47, for every function `crc8`, and still do after a session has written
the timer byte (byte 1). -/
theorem mcu_command_checksum {ω : Type} (crc8 : List Nat → Nat)
    (transmit : List Nat → ω → Int × List Nat × ω) (c : ControllerImpl) (regs : List McuReg)
    (w : ω) (t : Nat) (htr : ∀ o w, 49 ≤ o.length → 49 ≤ (transmit o w).2.1.length) :
    (∀ mode,
      (SetMcuMode_output crc8 c.output_ mode).getD 10 0 = SUBCMD_21
      ∧ (SetMcuMode_output crc8 c.output_ mode).getD 48 0
          = crc8 (((SetMcuMode_output crc8 c.output_ mode).drop 12).take 36)
      ∧ ((SetMcuMode_output crc8 c.output_ mode).set 1 t).getD 48 0
          = crc8 ((((SetMcuMode_output crc8 c.output_ mode).set 1 t).drop 12).take 36))
    ∧ (∀ fixed,
      (SetMcuIrConfig_output crc8 c.output_ fixed).getD 10 0 = SUBCMD_21
      ∧ (SetMcuIrConfig_output crc8 c.output_ fixed).getD 48 0
          = crc8 (((SetMcuIrConfig_output crc8 c.output_ fixed).drop 12).take 36)
      ∧ ((SetMcuIrConfig_output crc8 c.output_ fixed).set 1 t).getD 48 0
          = crc8 ((((SetMcuIrConfig_output crc8 c.output_ fixed).set 1 t).drop 12).take 36))
    ∧ (∀ report ∈ (c.SetMcuIrRegisters crc8 transmit regs regs.length w).reports,
      report.getD 48 0 = crc8 ((report.drop 12).take 36)
      ∧ (report.set 1 t).getD 48 0 = crc8 (((report.set 1 t).drop 12).take 36)) := by
  refine ⟨fun mode => SetMcuMode_output_checksum crc8 c.output_ mode t,
    fun fixed => SetMcuIrConfig_output_checksum crc8 c.output_ fixed t, ?_⟩
  intro report hr
  obtain ⟨j, hj⟩ := List.mem_iff_getElem?.mp hr
  obtain ⟨_, o, ho, e⟩ := SetMcuIrRegisters_reports crc8 transmit c regs w htr j report hj
  rw [e, SetMcuIrRegisters.chunk_report]
  refine calc_crc8_21_window crc8 _ t ?_
  rw [store_length _ _ _ (by
    rw [List.length_append, flatMap_bytes_length, List.length_replicate, List.length_set]
    have := List.length_take_le 9 (regs.drop (9 * j))
    omega), List.length_set]
  exact ho

/-- Witness of C33: the report of `SetMcuMode(MCU_MODE_IR)` and the reports of
a run of `SetMcuIrRegisters` on ten registers. -/
theorem mcu_command_checksum_witness :
    (SetMcuMode_output crc8_bitwise (List.replicate 49 0) MCU_MODE_IR).getD 48 0
      = crc8_bitwise (((SetMcuMode_output crc8_bitwise (List.replicate 49 0) MCU_MODE_IR).drop
          12).take 36)
    ∧ ((⟨List.replicate 49 0, []⟩ : ControllerImpl).SetMcuIrRegisters crc8_bitwise
        (fun o (n : Nat) => (DONE, o, n + 1))
        ((List.range 10).map fun i => set_reg (0x0100 + i) i)
        ((List.range 10).map fun i => set_reg (0x0100 + i) i).length 0).reports.all
        (fun report => decide (report.getD 48 0 = crc8_bitwise ((report.drop 12).take 36)))
      = true :=
  ⟨((mcu_command_checksum crc8_bitwise (fun o (n : Nat) => (DONE, o, n + 1))
      ⟨List.replicate 49 0, []⟩ ((List.range 10).map fun i => set_reg (0x0100 + i) i) 0 7
      (fun _ _ h => h)).1 MCU_MODE_IR).2.1,
   List.all_eq_true.mpr fun report hr => decide_eq_true
    ((mcu_command_checksum crc8_bitwise (fun o (n : Nat) => (DONE, o, n + 1))
      ⟨List.replicate 49 0, []⟩ ((List.range 10).map fun i => set_reg (0x0100 + i) i) 0 7
      (fun _ _ h => h)).2.2 report hr).1⟩

/-- C34, as the code has it: the requests of `CheckMcuIrMode` and `GetIrImage`
and every report the inspector of `GetIrImage` transmits (at most one per
inbound report) hold at byte 47 the value of `crc8` on their own bytes 11 to
46, also after the timer byte is written; the report of `Poll`, which has
sub-command 0x03 at byte 10 as well, is built without `calc_crc8_03`: its
byte 47 is 0 whatever `crc8` is. -/
theorem poll_type_checksum {κ : Type} (crc8 : List Nat → Nat) (output_ : List Nat) (t : Nat)
    (send : List Nat → List Nat) (cb : Option (κ → Int × κ)) (m : Nat)
    (env : IrInspector κ (List (List Nat))) (input : List Nat)
    (ho : 48 ≤ env.output_.length) :
    ((CheckMcuIrMode_output crc8 output_).getD 10 0 = SUBCMD_03
      ∧ (CheckMcuIrMode_output crc8 output_).getD 47 0
          = crc8 (((CheckMcuIrMode_output crc8 output_).drop 11).take 36)
      ∧ ((CheckMcuIrMode_output crc8 output_).set 1 t).getD 47 0
          = crc8 ((((CheckMcuIrMode_output crc8 output_).set 1 t).drop 11).take 36))
    ∧ ((GetIrImage_output crc8 output_).getD 10 0 = SUBCMD_03
      ∧ (GetIrImage_output crc8 output_).getD 47 0
          = crc8 (((GetIrImage_output crc8 output_).drop 11).take 36)
      ∧ ((GetIrImage_output crc8 output_).set 1 t).getD 47 0
          = crc8 ((((GetIrImage_output crc8 output_).set 1 t).drop 11).take 36))
    ∧ (∃ sent,
        (GetIrImage_inspector crc8 (fun o w => (send o, w ++ [o])) cb m env input).2.world
          = env.world ++ sent
        ∧ sent.length ≤ 1
        ∧ ∀ r ∈ sent, r.getD 47 0 = crc8 ((r.drop 11).take 36)
            ∧ (r.set 1 t).getD 47 0 = crc8 (((r.set 1 t).drop 11).take 36))
    ∧ (∀ type,
        (Poll_output output_ type).getD 0 0 = OUTPUT_REPORT_CMD
        ∧ (Poll_output output_ type).getD 10 0 = SUBCMD_03
        ∧ (Poll_output output_ type).getD 11 0 = type % 256
        ∧ (Poll_output output_ type).getD 47 0 = 0) := by
  refine ⟨?_, ?_, ?_, fun type => Poll_output_fields output_ type⟩
  · simp only [CheckMcuIrMode_output]
    exact phl_poll_checksum crc8 output_ POLL_NFC_IR_DATA t
  · simp only [GetIrImage_output]
    exact phl_poll_checksum crc8 output_ POLL_NFC_IR_CAM t
  · obtain ⟨sent, e1, e2, e3⟩ := inspector_transmits crc8 send cb m env input ho
    refine ⟨sent, e1, e2, ?_⟩
    intro r hr
    obtain ⟨o, h, e⟩ := e3 r hr
    rw [e]
    exact calc_crc8_03_window crc8 o t h

/-- Witness of C34: the inspector on a report of 49 bytes 0 and the data
report of fragment 1. -/
theorem poll_type_checksum_witness :
    ∃ sent,
      (GetIrImage_inspector crc8_bitwise (fun o w => (o, w ++ [o])) (none : Option (Nat → Int × Nat))
          3 ⟨0, 0, List.replicate 1200 0, List.replicate 49 0, 0, []⟩ (ir_test_report 1)).2.world
        = [] ++ sent
      ∧ sent.length ≤ 1
      ∧ ∀ r ∈ sent, r.getD 47 0 = crc8_bitwise ((r.drop 11).take 36)
          ∧ (r.set 1 5).getD 47 0 = crc8_bitwise (((r.set 1 5).drop 11).take 36) :=
  (poll_type_checksum crc8_bitwise (List.replicate 49 0) 5 (fun o => o) none 3
    ⟨0, 0, List.replicate 1200 0, List.replicate 49 0, 0, []⟩ (ir_test_report 1)
    (by rw [List.length_replicate]; decide)).2.2.1

set_option maxRecDepth 100000 in
theorem crc8_bitwise_of_poll :
    crc8_bitwise (((Poll_output (List.replicate 49 0) POLL_NFC_IR).drop 11).take 36) = 242 := by
  decide

/-- Counterexample to C34: the report of `Poll(POLL_NFC_IR)` built in an empty
buffer has sub-command 0x03 at byte 10 and 0 at byte 47, while the CRC-8 of
its bytes 11 to 46 is 242. -/
theorem Poll_output_without_checksum :
    (Poll_output (List.replicate 49 0) POLL_NFC_IR).getD 10 0 = 0x03
    ∧ (Poll_output (List.replicate 49 0) POLL_NFC_IR).getD 47 0 = 0
    ∧ crc8_bitwise (((Poll_output (List.replicate 49 0) POLL_NFC_IR).drop 11).take 36) = 242
    ∧ (Poll_output (List.replicate 49 0) POLL_NFC_IR).getD 47 0
        ≠ crc8_bitwise (((Poll_output (List.replicate 49 0) POLL_NFC_IR).drop 11).take 36) := by
  have h := Poll_output_fields (List.replicate 49 0) POLL_NFC_IR
  refine ⟨h.2.1, h.2.2.2, crc8_bitwise_of_poll, ?_⟩
  rw [h.2.2.2, crc8_bitwise_of_poll]
  decide


/-! ## The rumble encoding on every in-range input -/

end controller
